import Mathlib

/-!
# netbox-ssot: the FMC source's sync, the pattern matcher and the start of the inventory

Three shallow embeddings:

* namespace `FMC`: `internal/source/fmc/fmc_sync.go`, the sync of devices and interfaces;
* namespace `Utils`: the pattern matcher of package `utils`, of which only the tests are among
  the sources;
* namespace `Inventory`: `NetBoxInventory.Init` of `pkg/netbox/inventory/inventory.go`.

Conventions of the embedding of `fmc_sync.go`:

* The destination inventory (`nbi`), the relation resolvers of package `common` and the helpers
  of package `utils` are external collaborators.  They are the fields of `Env`.  A collaborator
  that takes `nbi` may answer differently on every call, so it reads the whole history of earlier
  calls and answers (`World.log`); the sync appends one `Event` per call, holding the argument it
  passed and the answer it got.
* A Go `map` that the code only indexes is a function to `Option`; the map the code ranges over
  (`fmcs.Devices`) is the list of its entries in the order the `range` statement visits them.
* A Go pointer that the code may leave `nil` is an `Option`.
* A Go `error` result is an `Outcome`; a nil-pointer dereference is the outcome `panic`.
* `utils.ReverseLookup` asks the DNS; here it is a function of the address alone, and its calls are
  not part of the history, which records the inventory only.
-/

namespace FMC

/-! ## Objects of the destination inventory (package `objects`, fields as used by the sync) -/

/-- A value stored in `CustomFields` (`map[string]interface{}`): the sync stores strings and
booleans only. -/
inductive CFValue where
  | str (s : String)
  | bool (b : Bool)
  deriving DecidableEq, Repr

/-- Go `objects.NetboxObject`: the part shared by every inventory object. -/
structure NetboxObject where
  ID : Int := 0
  Description : String := ""
  Tags : List String := []
  CustomFields : List (String × CFValue) := []
  deriving DecidableEq, Repr

/-- Go `m[key]` on a `CustomFields` map. -/
def NetboxObject.customField (o : NetboxObject) (key : String) : Option CFValue :=
  o.CustomFields.lookup key

structure Manufacturer where
  Name : String
  Slug : String
  deriving DecidableEq, Repr

structure DeviceType where
  Manufacturer : Manufacturer
  Model : String
  Slug : String
  deriving DecidableEq, Repr

structure Tenant where
  Name : String
  deriving DecidableEq, Repr

structure DeviceRole where
  Name : String
  deriving DecidableEq, Repr

structure Site where
  Name : String
  deriving DecidableEq, Repr

structure Platform where
  Name : String
  Slug : String
  Manufacturer : Manufacturer
  deriving DecidableEq, Repr

structure VlanGroup where
  Name : String
  deriving DecidableEq, Repr

inductive DeviceStatus where
  | DeviceStatusActive
  deriving DecidableEq, Repr

inductive VlanStatus where
  | VlanStatusActive
  deriving DecidableEq, Repr

inductive InterfaceType where
  | OtherInterfaceType
  | VirtualInterfaceType
  deriving DecidableEq, Repr

/-- Go `objects.Device`. -/
structure Device where
  NetboxObject : NetboxObject := {}
  Name : String
  Site : Option Site
  DeviceRole : DeviceRole
  Status : DeviceStatus
  DeviceType : DeviceType
  Tenant : Option Tenant
  Platform : Platform
  SerialNumber : String
  deriving DecidableEq, Repr

/-- Go `objects.Vlan`. -/
structure Vlan where
  NetboxObject : NetboxObject := {}
  Status : VlanStatus
  Name : String
  Site : Option Site
  Vid : Int
  Tenant : Option Tenant
  Group : Option VlanGroup
  deriving DecidableEq, Repr

/-- Go `objects.Interface`; `ParentInterface` is a pointer to another interface, or nil.
`Type_` is the Go field `Type`. -/
structure Interface where
  NetboxObject : NetboxObject := {}
  Name : String
  ParentInterface : Option Interface := none
  Device : Device
  Status : Bool
  MTU : Int
  TaggedVlans : List Vlan := []
  Type_ : InterfaceType

/-- Go `objects.IPAddress`. -/
structure IPAddress where
  NetboxObject : NetboxObject := {}
  Address : String
  DNSName : String
  AssignedObjectID : Int
  AssignedObjectType : String
  deriving DecidableEq, Repr

set_option linter.dupNamespace false in
/-- Go `objects.Prefix`; the sync sets none of the embedded `NetboxObject`. -/
structure Prefix where
  NetboxObject : NetboxObject := {}
  Prefix : String
  Tenant : Option Tenant
  Vlan : Option Vlan
  deriving DecidableEq, Repr

/-! ## Records of the source system (package `client`, fields as used by the sync) -/

structure InventoryData where
  CPUCores : String := ""
  MemoryInMB : String := ""
  deriving DecidableEq, Repr

structure DeviceMetadata where
  SerialNumber : String := ""
  InventoryData : InventoryData := {}
  deriving DecidableEq, Repr

/-- Go `client.Device`: one device as reported by the FMC. -/
structure SrcDevice where
  Name : String
  Model : String := ""
  SWVersion : String := ""
  Description : String := ""
  Metadata : DeviceMetadata := {}
  deriving DecidableEq, Repr

/-- One of the two entries (`Static`, `Dhcp`) of an IPv4 block. -/
structure IPv4Entry where
  Address : String
  Netmask : String
  deriving DecidableEq, Repr

/-- Go `client.InterfaceIPv4`; both entries are pointers. -/
structure InterfaceIPv4 where
  Static : Option IPv4Entry := none
  Dhcp : Option IPv4Entry := none
  deriving DecidableEq, Repr

structure PhysicalInterface where
  ID : String
  Name : String
  Description : String := ""
  Enabled : Bool := true
  MTU : Int := 1500
  IPv4 : Option InterfaceIPv4 := none
  deriving DecidableEq, Repr

structure VlanInterface where
  ID : String
  Name : String
  Description : String := ""
  Enabled : Bool := true
  MTU : Int := 1500
  VID : Int
  IPv4 : Option InterfaceIPv4 := none
  deriving DecidableEq, Repr

structure EtherChannelInterface where
  ID : String
  Name : String
  Description : String := ""
  Enabled : Bool := true
  MTU : Int := 1500
  IPv4 : Option InterfaceIPv4 := none
  deriving DecidableEq, Repr

structure SubInterface where
  ID : String
  Name : String
  Description : String := ""
  Enabled : Bool := true
  MTU : Int := 1500
  ParentName : String
  VlanID : Int
  IPv4 : Option InterfaceIPv4 := none
  deriving DecidableEq, Repr

/-! ## Constants (package `constants`) -/

/-- The constants of package `constants` whose values the sync never inspects. -/
structure Constants where
  DefaultModel : String
  CustomFieldDeviceUUIDName : String
  CustomFieldHostCPUCoresName : String
  CustomFieldHostMemoryName : String
  CustomFieldArpEntryName : String
  ContentTypeDcimInterface : String

/-- Modelled from the spec: `constants.CustomFieldSourceIDName`, whose declaration is not among
the sources; the spec names the custom field `source-id`. -/
def CustomFieldSourceIDName : String := "source-id"

/-- Modelled from the spec: `constants.MaxIPv4MaskBits`, whose declaration is not among the
sources; the spec calls `/32` the most specific mask. -/
def MaxIPv4MaskBits : Int := 32

/-! ## Configuration and source -/

/-- An ordered list of `regex = value` relations as configured by the user. -/
abbrev Relations := List String

/-- Go `fmcs.SourceConfig`, the fields the sync reads. -/
structure SourceConfig where
  IgnoreSerialNumbers : Bool := false
  HostTenantRelations : Relations := []
  HostRoleRelations : Relations := []
  HostSiteRelations : Relations := []
  VlanSiteRelations : Relations := []
  VlanGroupRelations : Relations := []
  VlanGroupSiteRelations : Relations := []
  VlanTenantRelations : Relations := []
  PermittedSubnets : List String := []
  IgnoredSubnets : List String := []

/-- Go `FMCSource`, the fields the sync only reads.  `Devices` lists the entries of the Go map in
the order in which `range` visits them; `SourceTags` is what `GetSourceTags()` returns.  The one
field the sync writes, `Name2NBInterface`, lives in `World`. -/
structure FMCSource where
  SourceConfig : SourceConfig := {}
  SourceTags : List String := []
  Devices : List (String × SrcDevice) := []
  DevicePhysicalIfaces : String → Option (List PhysicalInterface) := fun _ => none
  DeviceVlanIfaces : String → Option (List VlanInterface) := fun _ => none
  DeviceEtherChannelIfaces : String → Option (List EtherChannelInterface) := fun _ => none
  DeviceSubIfaces : String → Option (List SubInterface) := fun _ => none

/-! ## Calls to the collaborators -/

/-- The text of a Go `error`. -/
abbrev Err := String

/-- One call to a collaborator that takes the inventory: the argument passed and the answer. -/
inductive Event where
  | AddManufacturer (arg : Manufacturer) (res : Except Err Manufacturer)
  | AddDeviceType (arg : DeviceType) (res : Except Err DeviceType)
  | MatchHostToTenant (host : String) (rels : Relations) (res : Except Err (Option Tenant))
  | MatchHostToRole (host : String) (rels : Relations) (res : Except Err (Option DeviceRole))
  | AddFirewallDeviceRole (res : Except Err DeviceRole)
  | MatchHostToSite (host : String) (rels : Relations) (res : Except Err (Option Site))
  | AddPlatform (arg : Platform) (res : Except Err Platform)
  | AddDevice (arg : Device) (res : Except Err Device)
  | MatchVlanToSite (vlan : String) (rels : Relations) (res : Except Err (Option Site))
  | MatchVlanToGroup (vlan : String) (site : Option Site) (rels siteRels : Relations)
      (res : Except Err (Option VlanGroup))
  | MatchVlanToTenant (vlan : String) (rels : Relations) (res : Except Err (Option Tenant))
  | AddVlan (arg : Vlan) (res : Except Err Vlan)
  | AddInterface (arg : Interface) (res : Except Err Interface)
  | AddIPAddress (arg : IPAddress) (res : Except Err IPAddress)
  | AddPrefix (arg : Prefix) (res : Except Err Prefix)

/-- The collaborators.  Each one that takes `nbi` in Go takes the history of calls here. -/
structure Env where
  consts : Constants
  AddManufacturer : List Event → Manufacturer → Except Err Manufacturer
  AddDeviceType : List Event → DeviceType → Except Err DeviceType
  MatchHostToTenant : List Event → String → Relations → Except Err (Option Tenant)
  MatchHostToRole : List Event → String → Relations → Except Err (Option DeviceRole)
  AddFirewallDeviceRole : List Event → Except Err DeviceRole
  MatchHostToSite : List Event → String → Relations → Except Err (Option Site)
  AddPlatform : List Event → Platform → Except Err Platform
  AddDevice : List Event → Device → Except Err Device
  MatchVlanToSite : List Event → String → Relations → Except Err (Option Site)
  MatchVlanToGroup :
    List Event → String → Option Site → Relations → Relations → Except Err (Option VlanGroup)
  MatchVlanToTenant : List Event → String → Relations → Except Err (Option Tenant)
  AddVlan : List Event → Vlan → Except Err Vlan
  AddInterface : List Event → Interface → Except Err Interface
  AddIPAddress : List Event → IPAddress → Except Err IPAddress
  AddPrefix : List Event → Prefix → Except Err Prefix
  Slugify : String → String
  SerializeMask : String → String
  IsPermittedIPAddress : String → List String → List String → Bool
  ReverseLookup : String → String
  GetPrefixAndMaskFromIPAddress : String → Except Err (String × Int)
  formatInterface : Interface → String

/-- What a Go function with result type `error` does: return nil, return an error, or not
return at all because a nil pointer was dereferenced. -/
inductive Outcome where
  | ok
  | error (msg : Err)
  | panic
  deriving DecidableEq, Repr

/-- The mutable state: the history of collaborator calls and `fmcs.Name2NBInterface`.  The Go
map is taken to be allocated when the sync starts (a write to a nil map would stop the program);
`syncDevices` never replaces or empties it. -/
structure World where
  log : List Event := []
  Name2NBInterface : String → Option Interface := fun _ => none

/-- Append one call to the history. -/
def World.record (w : World) (e : Event) : World :=
  { w with log := w.log ++ [e] }

/-- Go `fmcs.Name2NBInterface[name] = iface`. -/
def World.register (w : World) (name : String) (iface : Interface) : World :=
  { w with Name2NBInterface := fun n => if n = name then some iface else w.Name2NBInterface n }

/-- Add one text in front of the text of an error, as `fmt.Errorf("...: %s", err)` does. -/
def Outcome.wrap (msg : String) : Outcome → Outcome
  | .error e => .error (msg ++ e)
  | o => o

/-- A Go `for _, x := range xs` whose body may `return` an error: the records are visited in
order and the first body that does not end normally ends the loop. -/
def forEach {α : Type} (body : α → World → Outcome × World) : List α → World → Outcome × World
  | [], w => (.ok, w)
  | x :: xs, w =>
    let r := body x w
    match r.1 with
    | .ok => forEach body xs r.2
    | o => (o, r.2)

/-! ## `getIPAddressForIface` (fmc_sync.go, lines 142-167) -/

/-- Go `getIPAddressForIface`. -/
def getIPAddressForIface (env : Env) (ipv4 : Option InterfaceIPv4) : String :=
  match ipv4 with
  | none => ""
  | some v4 =>
    let fromDhcp : String :=
      match v4.Dhcp with
      | some dh =>
        if dh.Address ≠ "" then dh.Address ++ "/" ++ env.SerializeMask dh.Netmask else ""
      | none => ""
    match v4.Static with
    | some st =>
      if st.Address ≠ "" then st.Address ++ "/" ++ env.SerializeMask st.Netmask else fromDhcp
    | none => fromDhcp

/-- Go `x.IPv4.Static.Address` as the four stages write it, without a nil check: `none` stands
for the nil-pointer dereference. -/
def staticAddress (ipv4 : Option InterfaceIPv4) : Option String :=
  match ipv4 with
  | none => none
  | some v4 =>
    match v4.Static with
    | none => none
    | some st => some st.Address

/-! ## `syncPhysicalInterfaces` (lines 303-358) -/

/-- The `objects.Interface` literal of `syncPhysicalInterfaces` (lines 310-323). -/
def syncPhysicalInterfacesArg (fmcs : FMCSource) (nbDevice : Device) (pIface : PhysicalInterface) : Interface :=
  { NetboxObject :=
      { Description := pIface.Description
        Tags := fmcs.SourceTags
        CustomFields := [(CustomFieldSourceIDName, .str pIface.ID)] }
    Name := pIface.Name
    ParentInterface := none
    Device := nbDevice
    Status := pIface.Enabled
    MTU := pIface.MTU
    Type_ := .OtherInterfaceType }

/-- The IP address block of `syncPhysicalInterfaces` (lines 328-351). -/
def syncPhysicalInterfacesIP (env : Env) (fmcs : FMCSource) (pIface : PhysicalInterface) (NBIface : Interface)
    (w : World) : Outcome × World :=
  let ipAddr := getIPAddressForIface env pIface.IPv4
  if ipAddr ≠ "" then
    if env.IsPermittedIPAddress ipAddr fmcs.SourceConfig.PermittedSubnets
        fmcs.SourceConfig.IgnoredSubnets = true then
      match staticAddress pIface.IPv4 with
      | none => (.panic, w)
      | some addr =>
        let dnsName := env.ReverseLookup addr
        let ip : IPAddress :=
          { NetboxObject :=
              { Tags := fmcs.SourceTags
                CustomFields := [(env.consts.CustomFieldArpEntryName, .bool false)] }
            Address := ipAddr
            DNSName := dnsName
            AssignedObjectID := NBIface.NetboxObject.ID
            AssignedObjectType := env.consts.ContentTypeDcimInterface }
        let r := env.AddIPAddress w.log ip
        let w1 := w.record (.AddIPAddress ip r)
        match r with
        | .error _ => (.error "add ip address", w1)
        | .ok _ => (.ok, w1)
    else (.ok, w)
  else (.ok, w)

/-- The body of the loop of `syncPhysicalInterfaces` (lines 310-354). -/
def syncPhysicalInterfacesBody (env : Env) (fmcs : FMCSource) (nbDevice : Device)
    (pIface : PhysicalInterface) (w : World) : Outcome × World :=
  let iface : Interface := syncPhysicalInterfacesArg fmcs nbDevice pIface
  let r := env.AddInterface w.log iface
  let w1 := w.record (.AddInterface iface r)
  match r with
  | .error err => (.error ("add physical interface " ++ env.formatInterface iface ++ ": " ++ err), w1)
  | .ok NBIface =>
    let rip := syncPhysicalInterfacesIP env fmcs pIface NBIface w1
    match rip.1 with
    | .ok => (.ok, rip.2.register pIface.Name NBIface)
    | o => (o, rip.2)

/-- Go `FMCSource.syncPhysicalInterfaces`. -/
def syncPhysicalInterfaces (env : Env) (fmcs : FMCSource) (nbDevice : Device)
    (deviceUUID : String) (w : World) : Outcome × World :=
  match fmcs.DevicePhysicalIfaces deviceUUID with
  | some physicalIfaces => forEach (syncPhysicalInterfacesBody env fmcs nbDevice) physicalIfaces w
  | none => (.ok, w)

/-! ## `syncEtherChannelInterfaces` (lines 360-415) -/

/-- The `objects.Interface` literal of `syncEtherChannelInterfaces` (lines 367-380). -/
def syncEtherChannelInterfacesArg (fmcs : FMCSource) (nbDevice : Device) (eIface : EtherChannelInterface) : Interface :=
  { NetboxObject :=
      { Description := eIface.Description
        Tags := fmcs.SourceTags
        CustomFields := [(CustomFieldSourceIDName, .str eIface.ID)] }
    Name := eIface.Name
    ParentInterface := none
    Device := nbDevice
    Status := eIface.Enabled
    MTU := eIface.MTU
    Type_ := .OtherInterfaceType }

/-- The IP address block of `syncEtherChannelInterfaces` (lines 385-408). -/
def syncEtherChannelInterfacesIP (env : Env) (fmcs : FMCSource) (eIface : EtherChannelInterface) (NBIface : Interface)
    (w : World) : Outcome × World :=
  let ipAddr := getIPAddressForIface env eIface.IPv4
  if ipAddr ≠ "" then
    if env.IsPermittedIPAddress ipAddr fmcs.SourceConfig.PermittedSubnets
        fmcs.SourceConfig.IgnoredSubnets = true then
      match staticAddress eIface.IPv4 with
      | none => (.panic, w)
      | some addr =>
        let dnsName := env.ReverseLookup addr
        let ip : IPAddress :=
          { NetboxObject :=
              { Tags := fmcs.SourceTags
                CustomFields := [(env.consts.CustomFieldArpEntryName, .bool false)] }
            Address := ipAddr
            DNSName := dnsName
            AssignedObjectID := NBIface.NetboxObject.ID
            AssignedObjectType := env.consts.ContentTypeDcimInterface }
        let r := env.AddIPAddress w.log ip
        let w1 := w.record (.AddIPAddress ip r)
        match r with
        | .error _ => (.error "add ip address", w1)
        | .ok _ => (.ok, w1)
    else (.ok, w)
  else (.ok, w)

/-- The body of the loop of `syncEtherChannelInterfaces` (lines 367-411). -/
def syncEtherChannelInterfacesBody (env : Env) (fmcs : FMCSource) (nbDevice : Device)
    (eIface : EtherChannelInterface) (w : World) : Outcome × World :=
  let iface : Interface := syncEtherChannelInterfacesArg fmcs nbDevice eIface
  let r := env.AddInterface w.log iface
  let w1 := w.record (.AddInterface iface r)
  match r with
  | .error err => (.error ("add ether channel interface: " ++ err), w1)
  | .ok NBIface =>
    let rip := syncEtherChannelInterfacesIP env fmcs eIface NBIface w1
    match rip.1 with
    | .ok => (.ok, rip.2.register eIface.Name NBIface)
    | o => (o, rip.2)

/-- Go `FMCSource.syncEtherChannelInterfaces`. -/
def syncEtherChannelInterfaces (env : Env) (fmcs : FMCSource) (nbDevice : Device)
    (deviceUUID : String) (w : World) : Outcome × World :=
  match fmcs.DeviceEtherChannelIfaces deviceUUID with
  | some etherChannelIfaces =>
    forEach (syncEtherChannelInterfacesBody env fmcs nbDevice) etherChannelIfaces w
  | none => (.ok, w)

/-! ## `syncVlanInterfaces` (lines 169-299) -/

/-- The block `// Add vlan` of `syncVlanInterfaces` (lines 179-228): the list
`ifaceTaggedVlans`, or the error the function returns. -/
def syncVlanInterfacesTaggedVlans (env : Env) (fmcs : FMCSource) (vlanIface : VlanInterface)
    (w : World) : Except Err (List Vlan) × World :=
  if vlanIface.VID ≠ 0 then
    let r1 := env.MatchVlanToSite w.log vlanIface.Name fmcs.SourceConfig.VlanSiteRelations
    let w1 := w.record (.MatchVlanToSite vlanIface.Name fmcs.SourceConfig.VlanSiteRelations r1)
    match r1 with
    | .error err => (.error ("match vlan to site: " ++ err), w1)
    | .ok vlanSite =>
      let r2 := env.MatchVlanToGroup w1.log vlanIface.Name vlanSite
        fmcs.SourceConfig.VlanGroupRelations fmcs.SourceConfig.VlanGroupSiteRelations
      let w2 := w1.record (.MatchVlanToGroup vlanIface.Name vlanSite
        fmcs.SourceConfig.VlanGroupRelations fmcs.SourceConfig.VlanGroupSiteRelations r2)
      match r2 with
      | .error err => (.error ("match vlan to group: " ++ err), w2)
      | .ok vlanGroup =>
        let r3 := env.MatchVlanToTenant w2.log vlanIface.Name fmcs.SourceConfig.VlanTenantRelations
        let w3 :=
          w2.record (.MatchVlanToTenant vlanIface.Name fmcs.SourceConfig.VlanTenantRelations r3)
        match r3 with
        | .error err => (.error ("match vlan to tenant: " ++ err), w3)
        | .ok vlanTenant =>
          let vlanArg : Vlan :=
            { NetboxObject := { Tags := fmcs.SourceTags, Description := vlanIface.Description }
              Status := .VlanStatusActive
              Name := vlanIface.Name
              Site := vlanSite
              Vid := vlanIface.VID
              Tenant := vlanTenant
              Group := vlanGroup }
          let r4 := env.AddVlan w3.log vlanArg
          let w4 := w3.record (.AddVlan vlanArg r4)
          match r4 with
          | .error err => (.error ("add vlan: " ++ err), w4)
          | .ok vlan => (.ok [vlan], w4)
  else (.ok [], w)

/-- The IP address and prefix block of `syncVlanInterfaces` (lines 249-292). -/
def syncVlanInterfacesIP (env : Env) (fmcs : FMCSource) (vlanIface : VlanInterface) (NBIface : Interface)
    (ifaceTaggedVlans : List Vlan) (w : World) : Outcome × World :=
  let ipAddress := getIPAddressForIface env vlanIface.IPv4
  if ipAddress ≠ "" then
    if env.IsPermittedIPAddress ipAddress fmcs.SourceConfig.PermittedSubnets
        fmcs.SourceConfig.IgnoredSubnets = true then
      match staticAddress vlanIface.IPv4 with
      | none => (.panic, w)
      | some addr =>
        let dnsName := env.ReverseLookup addr
        let ip : IPAddress :=
          { NetboxObject :=
              { Tags := fmcs.SourceTags
                CustomFields := [(env.consts.CustomFieldArpEntryName, .bool false)] }
            Address := ipAddress
            DNSName := dnsName
            AssignedObjectID := NBIface.NetboxObject.ID
            AssignedObjectType := env.consts.ContentTypeDcimInterface }
        let r := env.AddIPAddress w.log ip
        let w1 := w.record (.AddIPAddress ip r)
        match r with
        | .error _ => (.error "add ip address", w1)
        | .ok _ =>
          match env.GetPrefixAndMaskFromIPAddress ipAddress with
          | .error _ => (.ok, w1)
          | .ok (pfx, mask) =>
            if mask ≠ MaxIPv4MaskBits then
              let prefixVlan : Option Vlan := ifaceTaggedVlans.head?
              let prefixTenant : Option Tenant :=
                match prefixVlan with
                | some v => v.Tenant
                | none => none
              let pArg : Prefix := { Prefix := pfx, Tenant := prefixTenant, Vlan := prefixVlan }
              let r2 := env.AddPrefix w1.log pArg
              let w2 := w1.record (.AddPrefix pArg r2)
              match r2 with
              | .error err => (.error ("add prefix: " ++ err), w2)
              | .ok _ => (.ok, w2)
            else (.ok, w1)
    else (.ok, w)
  else (.ok, w)

/-- The `objects.Interface` literal of `syncVlanInterfaces` (lines 230-244). -/
def syncVlanInterfacesArg (fmcs : FMCSource) (nbDevice : Device) (vlanIface : VlanInterface)
    (ifaceTaggedVlans : List Vlan) : Interface :=
  { NetboxObject :=
      { Description := vlanIface.Description
        Tags := fmcs.SourceTags
        CustomFields := [(CustomFieldSourceIDName, .str vlanIface.ID)] }
    Name := vlanIface.Name
    ParentInterface := none
    Device := nbDevice
    Status := vlanIface.Enabled
    MTU := vlanIface.MTU
    TaggedVlans := ifaceTaggedVlans
    Type_ := .VirtualInterfaceType }

/-- The body of the loop of `syncVlanInterfaces` (lines 178-295). -/
def syncVlanInterfacesBody (env : Env) (fmcs : FMCSource) (nbDevice : Device)
    (vlanIface : VlanInterface) (w : World) : Outcome × World :=
  let rv := syncVlanInterfacesTaggedVlans env fmcs vlanIface w
  match rv.1 with
  | .error msg => (.error msg, rv.2)
  | .ok ifaceTaggedVlans =>
    let iface : Interface := syncVlanInterfacesArg fmcs nbDevice vlanIface ifaceTaggedVlans
    let r := env.AddInterface rv.2.log iface
    let w1 := rv.2.record (.AddInterface iface r)
    match r with
    | .error err => (.error ("add vlan interface: " ++ err), w1)
    | .ok NBIface =>
      let rip := syncVlanInterfacesIP env fmcs vlanIface NBIface ifaceTaggedVlans w1
      match rip.1 with
      | .ok => (.ok, rip.2.register vlanIface.Name NBIface)
      | o => (o, rip.2)

/-- Go `FMCSource.syncVlanInterfaces`. -/
def syncVlanInterfaces (env : Env) (fmcs : FMCSource) (nbDevice : Device)
    (deviceUUID : String) (w : World) : Outcome × World :=
  match fmcs.DeviceVlanIfaces deviceUUID with
  | some vlanIfaces => forEach (syncVlanInterfacesBody env fmcs nbDevice) vlanIfaces w
  | none => (.ok, w)

/-! ## `syncSubInterfaces` (lines 417-546) -/

/-- The block `// Add vlan` of `syncSubInterfaces` (lines 426-475): the list
`ifaceTaggedVlans`, or the error the function returns. -/
def syncSubInterfacesTaggedVlans (env : Env) (fmcs : FMCSource) (subIface : SubInterface)
    (w : World) : Except Err (List Vlan) × World :=
  if subIface.VlanID > 1 then
    let r1 := env.MatchVlanToSite w.log subIface.Name fmcs.SourceConfig.VlanSiteRelations
    let w1 := w.record (.MatchVlanToSite subIface.Name fmcs.SourceConfig.VlanSiteRelations r1)
    match r1 with
    | .error err => (.error ("match subiface vlan to site: " ++ err), w1)
    | .ok vlanSite =>
      let r2 := env.MatchVlanToGroup w1.log subIface.Name vlanSite
        fmcs.SourceConfig.VlanGroupRelations fmcs.SourceConfig.VlanGroupSiteRelations
      let w2 := w1.record (.MatchVlanToGroup subIface.Name vlanSite
        fmcs.SourceConfig.VlanGroupRelations fmcs.SourceConfig.VlanGroupSiteRelations r2)
      match r2 with
      | .error err => (.error ("match subiface vlan to group: " ++ err), w2)
      | .ok vlanGroup =>
        let r3 := env.MatchVlanToTenant w2.log subIface.Name fmcs.SourceConfig.VlanTenantRelations
        let w3 :=
          w2.record (.MatchVlanToTenant subIface.Name fmcs.SourceConfig.VlanTenantRelations r3)
        match r3 with
        | .error err => (.error ("match subiface vlan to tenant: " ++ err), w3)
        | .ok vlanTenant =>
          let vlanArg : Vlan :=
            { NetboxObject := { Tags := fmcs.SourceTags, Description := subIface.Description }
              Status := .VlanStatusActive
              Name := subIface.Name
              Site := vlanSite
              Vid := subIface.VlanID
              Tenant := vlanTenant
              Group := vlanGroup }
          let r4 := env.AddVlan w3.log vlanArg
          let w4 := w3.record (.AddVlan vlanArg r4)
          match r4 with
          | .error err => (.error ("add subiface vlan: " ++ err), w4)
          | .ok vlan => (.ok [vlan], w4)
  else (.ok [], w)

/-- The IP address and prefix block of `syncSubInterfaces` (lines 499-542). -/
def syncSubInterfacesIP (env : Env) (fmcs : FMCSource) (subIface : SubInterface) (NBIface : Interface)
    (ifaceTaggedVlans : List Vlan) (w : World) : Outcome × World :=
  let ipAddress := getIPAddressForIface env subIface.IPv4
  if ipAddress ≠ "" then
    if env.IsPermittedIPAddress ipAddress fmcs.SourceConfig.PermittedSubnets
        fmcs.SourceConfig.IgnoredSubnets = true then
      match staticAddress subIface.IPv4 with
      | none => (.panic, w)
      | some addr =>
        let dnsName := env.ReverseLookup addr
        let ip : IPAddress :=
          { NetboxObject :=
              { Tags := fmcs.SourceTags
                CustomFields := [(env.consts.CustomFieldArpEntryName, .bool false)] }
            Address := ipAddress
            DNSName := dnsName
            AssignedObjectID := NBIface.NetboxObject.ID
            AssignedObjectType := env.consts.ContentTypeDcimInterface }
        let r := env.AddIPAddress w.log ip
        let w1 := w.record (.AddIPAddress ip r)
        match r with
        | .error _ => (.error "add ip address", w1)
        | .ok _ =>
          match env.GetPrefixAndMaskFromIPAddress ipAddress with
          | .error _ => (.ok, w1)
          | .ok (pfx, mask) =>
            if mask ≠ MaxIPv4MaskBits then
              let prefixVlan : Option Vlan := ifaceTaggedVlans.head?
              let prefixTenant : Option Tenant :=
                match prefixVlan with
                | some v => v.Tenant
                | none => none
              let pArg : Prefix := { Prefix := pfx, Tenant := prefixTenant, Vlan := prefixVlan }
              let r2 := env.AddPrefix w1.log pArg
              let w2 := w1.record (.AddPrefix pArg r2)
              match r2 with
              | .error err => (.error ("add prefix: " ++ err), w2)
              | .ok _ => (.ok, w2)
            else (.ok, w1)
    else (.ok, w)
  else (.ok, w)

/-- The `objects.Interface` literal of `syncSubInterfaces` (lines 479-494). -/
def syncSubInterfacesArg (fmcs : FMCSource) (nbDevice : Device) (subIface : SubInterface)
    (parentIface : Option Interface) (ifaceTaggedVlans : List Vlan) : Interface :=
  { NetboxObject :=
      { Description := subIface.Description
        Tags := fmcs.SourceTags
        CustomFields := [(CustomFieldSourceIDName, .str subIface.ID)] }
    Name := subIface.Name
    ParentInterface := parentIface
    Device := nbDevice
    Status := subIface.Enabled
    MTU := subIface.MTU
    TaggedVlans := ifaceTaggedVlans
    Type_ := .VirtualInterfaceType }

/-- The body of the loop of `syncSubInterfaces` (lines 425-542).  It reads
`fmcs.Name2NBInterface` and never writes it. -/
def syncSubInterfacesBody (env : Env) (fmcs : FMCSource) (nbDevice : Device)
    (subIface : SubInterface) (w : World) : Outcome × World :=
  let rv := syncSubInterfacesTaggedVlans env fmcs subIface w
  match rv.1 with
  | .error msg => (.error msg, rv.2)
  | .ok ifaceTaggedVlans =>
    let parentIface : Option Interface := rv.2.Name2NBInterface subIface.ParentName
    let iface : Interface := syncSubInterfacesArg fmcs nbDevice subIface parentIface ifaceTaggedVlans
    let r := env.AddInterface rv.2.log iface
    let w1 := rv.2.record (.AddInterface iface r)
    match r with
    | .error err => (.error ("add vlan interface: " ++ err), w1)
    | .ok NBIface => syncSubInterfacesIP env fmcs subIface NBIface ifaceTaggedVlans w1

/-- Go `FMCSource.syncSubInterfaces`. -/
def syncSubInterfaces (env : Env) (fmcs : FMCSource) (nbDevice : Device)
    (deviceUUID : String) (w : World) : Outcome × World :=
  match fmcs.DeviceSubIfaces deviceUUID with
  | some subIfaces => forEach (syncSubInterfacesBody env fmcs nbDevice) subIfaces w
  | none => (.ok, w)

/-! ## `syncDevices` (lines 14-140) -/

/-- Lines 55-74 of `syncDevices`: the role of the device, `deviceRole`, or the error
`syncDevices` returns. -/
def syncDevicesDeviceRole (env : Env) (fmcs : FMCSource) (deviceName : String) (w : World) :
    Except Err DeviceRole × World :=
  let m : Except Err (Option DeviceRole) × World :=
    if fmcs.SourceConfig.HostRoleRelations.length > 0 then
      let r4 := env.MatchHostToRole w.log deviceName fmcs.SourceConfig.HostRoleRelations
      let w4 := w.record (.MatchHostToRole deviceName fmcs.SourceConfig.HostRoleRelations r4)
      match r4 with
      | .error err => (.error ("match host to role: " ++ err), w4)
      | .ok role => (.ok role, w4)
    else (.ok none, w)
  match m.1 with
  | .error msg => (.error msg, m.2)
  | .ok (some role) => (.ok role, m.2)
  | .ok none =>
    let r5 := env.AddFirewallDeviceRole m.2.log
    let w5 := m.2.record (.AddFirewallDeviceRole r5)
    match r5 with
    | .error err => (.error ("add DeviceRole firewall: " ++ err), w5)
    | .ok role => (.ok role, w5)

/-- Lines 21-53 of `syncDevices`: the manufacturer, the device type and the tenant of the
device, or the error `syncDevices` returns. -/
def syncDevicesTypeAndTenant (env : Env) (fmcs : FMCSource) (device : SrcDevice) (w : World) :
    Except Err (Manufacturer × DeviceType × Option Tenant) × World :=
  let deviceName := device.Name
  let deviceModel : String := if device.Model = "" then env.consts.DefaultModel else device.Model
  let manufacturerArg : Manufacturer := { Name := "Cisco", Slug := env.Slugify "Cisco" }
  let r1 := env.AddManufacturer w.log manufacturerArg
  let w1 := w.record (.AddManufacturer manufacturerArg r1)
  match r1 with
  | .error err => (.error ("add manufacturer: " ++ err), w1)
  | .ok deviceManufacturer =>
    let deviceTypeArg : DeviceType :=
      { Manufacturer := deviceManufacturer
        Model := deviceModel
        Slug := env.Slugify (deviceManufacturer.Name ++ deviceModel) }
    let r2 := env.AddDeviceType w1.log deviceTypeArg
    let w2 := w1.record (.AddDeviceType deviceTypeArg r2)
    match r2 with
    | .error err => (.error ("add device type: " ++ err), w2)
    | .ok deviceType =>
      let r3 := env.MatchHostToTenant w2.log deviceName fmcs.SourceConfig.HostTenantRelations
      let w3 := w2.record (.MatchHostToTenant deviceName fmcs.SourceConfig.HostTenantRelations r3)
      match r3 with
      | .error err => (.error ("match host to tenant " ++ err), w3)
      | .ok deviceTenant => (.ok (deviceManufacturer, deviceType, deviceTenant), w3)

/-- Lines 76-93 of `syncDevices`: the site and the platform of the device, or the error
`syncDevices` returns. -/
def syncDevicesSiteAndPlatform (env : Env) (fmcs : FMCSource) (device : SrcDevice)
    (deviceManufacturer : Manufacturer) (w : World) : Except Err (Option Site × Platform) × World :=
  let r6 := env.MatchHostToSite w.log device.Name fmcs.SourceConfig.HostSiteRelations
  let w6 := w.record (.MatchHostToSite device.Name fmcs.SourceConfig.HostSiteRelations r6)
  match r6 with
  | .error err => (.error ("match host to site: " ++ err), w6)
  | .ok deviceSite =>
    let devicePlatformName := "FXOS " ++ device.SWVersion
    let platformArg : Platform :=
      { Name := devicePlatformName
        Slug := env.Slugify devicePlatformName
        Manufacturer := deviceManufacturer }
    let r7 := env.AddPlatform w6.log platformArg
    let w7 := w6.record (.AddPlatform platformArg r7)
    match r7 with
    | .error err => (.error ("add platform: " ++ err), w7)
    | .ok devicePlatform => (.ok (deviceSite, devicePlatform), w7)

/-- The `objects.Device` literal of `syncDevices` (lines 94-116). -/
def syncDevicesArg (env : Env) (fmcs : FMCSource) (deviceUUID : String) (device : SrcDevice)
    (deviceType : DeviceType) (deviceTenant : Option Tenant) (deviceRole : DeviceRole)
    (deviceSite : Option Site) (devicePlatform : Platform) : Device :=
  let deviceSerialNumber : String :=
    if !fmcs.SourceConfig.IgnoreSerialNumbers then device.Metadata.SerialNumber else ""
  { NetboxObject :=
      { Description := device.Description
        Tags := fmcs.SourceTags
        CustomFields :=
          [ (CustomFieldSourceIDName, .str deviceUUID),
            (env.consts.CustomFieldDeviceUUIDName, .str deviceUUID),
            (env.consts.CustomFieldHostCPUCoresName, .str device.Metadata.InventoryData.CPUCores),
            (env.consts.CustomFieldHostMemoryName,
              .str (device.Metadata.InventoryData.MemoryInMB ++ "MB")) ] }
    Name := device.Name
    Site := deviceSite
    DeviceRole := deviceRole
    Status := .DeviceStatusActive
    DeviceType := deviceType
    Tenant := deviceTenant
    Platform := devicePlatform
    SerialNumber := deviceSerialNumber }

/-- Lines 21-119 of `syncDevices`: the objects the device refers to are created one after the
other (`syncDevicesTypeAndTenant`, `syncDevicesDeviceRole`, `syncDevicesSiteAndPlatform`), then
the device itself.  The result is `NBDevice`, or the error `syncDevices` returns. -/
def syncDevicesAddDevice (env : Env) (fmcs : FMCSource) (deviceUUID : String)
    (device : SrcDevice) (w : World) : Except Err Device × World :=
  let rt := syncDevicesTypeAndTenant env fmcs device w
  match rt.1 with
  | .error msg => (.error msg, rt.2)
  | .ok (deviceManufacturer, deviceType, deviceTenant) =>
    let rRole := syncDevicesDeviceRole env fmcs device.Name rt.2
    match rRole.1 with
    | .error msg => (.error msg, rRole.2)
    | .ok deviceRole =>
      let rs := syncDevicesSiteAndPlatform env fmcs device deviceManufacturer rRole.2
      match rs.1 with
      | .error msg => (.error msg, rs.2)
      | .ok (deviceSite, devicePlatform) =>
        let deviceArg : Device := syncDevicesArg env fmcs deviceUUID device deviceType
          deviceTenant deviceRole deviceSite devicePlatform
        let r8 := env.AddDevice rs.2.log deviceArg
        let w8 := rs.2.record (.AddDevice deviceArg r8)
        match r8 with
        | .error err => (.error ("add device: " ++ err), w8)
        | .ok NBDevice => (.ok NBDevice, w8)

/-- Lines 120-137 of `syncDevices`: the four interface stages of one device. -/
def syncDevicesInterfaces (env : Env) (fmcs : FMCSource) (NBDevice : Device)
    (deviceUUID : String) (w : World) : Outcome × World :=
  let rp := syncPhysicalInterfaces env fmcs NBDevice deviceUUID w
  match rp.1 with
  | .ok =>
    let rv := syncVlanInterfaces env fmcs NBDevice deviceUUID rp.2
    match rv.1 with
    | .ok =>
      let re := syncEtherChannelInterfaces env fmcs NBDevice deviceUUID rv.2
      match re.1 with
      | .ok =>
        let rs := syncSubInterfaces env fmcs NBDevice deviceUUID re.2
        (rs.1.wrap "sync subinterfaces: ", rs.2)
      | o => (o.wrap "sync etherchannel interfaces: ", re.2)
    | o => (o.wrap "sync vlan interfaces: ", rv.2)
  | o => (o.wrap "sync physical interfaces: ", rp.2)

/-- The body of the loop of `syncDevices` (lines 16-137) for one entry of `fmcs.Devices`.
A device with an empty name is skipped (`continue`). -/
def syncDevicesBody (env : Env) (fmcs : FMCSource) (entry : String × SrcDevice) (w : World) :
    Outcome × World :=
  let deviceUUID := entry.1
  let device := entry.2
  if device.Name = "" then (.ok, w)
  else
    let rd := syncDevicesAddDevice env fmcs deviceUUID device w
    match rd.1 with
    | .error msg => (.error msg, rd.2)
    | .ok NBDevice => syncDevicesInterfaces env fmcs NBDevice deviceUUID rd.2

/-- Go `FMCSource.syncDevices`. -/
def syncDevices (env : Env) (fmcs : FMCSource) (w : World) : Outcome × World :=
  forEach (syncDevicesBody env fmcs) fmcs.Devices w

/-! ## Reading the history of calls -/

/-- Which collaborator a call went to. -/
inductive CallKind where
  | AddManufacturer | AddDeviceType | MatchHostToTenant | MatchHostToRole
  | AddFirewallDeviceRole | MatchHostToSite | AddPlatform | AddDevice
  | MatchVlanToSite | MatchVlanToGroup | MatchVlanToTenant | AddVlan
  | AddInterface | AddIPAddress | AddPrefix
  deriving DecidableEq, Repr

/-- The collaborator an event is a call to. -/
def Event.kind : Event → CallKind
  | .AddManufacturer _ _ => .AddManufacturer
  | .AddDeviceType _ _ => .AddDeviceType
  | .MatchHostToTenant _ _ _ => .MatchHostToTenant
  | .MatchHostToRole _ _ _ => .MatchHostToRole
  | .AddFirewallDeviceRole _ => .AddFirewallDeviceRole
  | .MatchHostToSite _ _ _ => .MatchHostToSite
  | .AddPlatform _ _ => .AddPlatform
  | .AddDevice _ _ => .AddDevice
  | .MatchVlanToSite _ _ _ => .MatchVlanToSite
  | .MatchVlanToGroup _ _ _ _ _ => .MatchVlanToGroup
  | .MatchVlanToTenant _ _ _ => .MatchVlanToTenant
  | .AddVlan _ _ => .AddVlan
  | .AddInterface _ _ => .AddInterface
  | .AddIPAddress _ _ => .AddIPAddress
  | .AddPrefix _ _ => .AddPrefix

/-- Whether an answer is an error. -/
def isError {α : Type} : Except Err α → Bool
  | .error _ => true
  | .ok _ => false

/-- Whether the collaborator answered the call with an error. -/
def Event.failed : Event → Bool
  | .AddManufacturer _ r => isError r
  | .AddDeviceType _ r => isError r
  | .MatchHostToTenant _ _ r => isError r
  | .MatchHostToRole _ _ r => isError r
  | .AddFirewallDeviceRole r => isError r
  | .MatchHostToSite _ _ r => isError r
  | .AddPlatform _ r => isError r
  | .AddDevice _ r => isError r
  | .MatchVlanToSite _ _ r => isError r
  | .MatchVlanToGroup _ _ _ _ r => isError r
  | .MatchVlanToTenant _ _ r => isError r
  | .AddVlan _ r => isError r
  | .AddInterface _ r => isError r
  | .AddIPAddress _ r => isError r
  | .AddPrefix _ r => isError r

/-- The calls a piece of the sync makes when started in `w`: what it appends to the history. -/
def callsOf {ρ : Type} (f : World → ρ × World) (w : World) : List Event :=
  (f w).2.log.drop w.log.length

/-- The calls of one kind among `l`, in order. -/
def ofKind (k : CallKind) (l : List Event) : List Event :=
  l.filter (fun e => decide (e.kind = k))

/-- A piece of the sync only appends to the history: the history it leaves is the one it found
followed by `callsOf`. -/
def Appends {ρ : Type} (f : World → ρ × World) : Prop :=
  ∀ w, (f w).2.log = w.log ++ callsOf f w

/-! ## A concrete set of collaborators, to run the sync on examples -/

def exampleConsts : Constants :=
  { DefaultModel := "Generic Model"
    CustomFieldDeviceUUIDName := "device-uuid"
    CustomFieldHostCPUCoresName := "host-cpu-cores"
    CustomFieldHostMemoryName := "host-memory"
    CustomFieldArpEntryName := "arp-entry"
    ContentTypeDcimInterface := "dcim.interface" }

/-- Collaborators that never fail: every `AddX` answers with the object it was given, no
relation matches, the role of a firewall is `Firewall`, every address is permitted, and the
prefix helper knows the two addresses of the example in the spec. -/
def exampleEnv : Env :=
  { consts := exampleConsts
    AddManufacturer := fun _ x => .ok x
    AddDeviceType := fun _ x => .ok x
    MatchHostToTenant := fun _ _ _ => .ok none
    MatchHostToRole := fun _ _ _ => .ok none
    AddFirewallDeviceRole := fun _ => .ok { Name := "Firewall" }
    MatchHostToSite := fun _ _ _ => .ok none
    AddPlatform := fun _ x => .ok x
    AddDevice := fun _ x => .ok x
    MatchVlanToSite := fun _ _ _ => .ok none
    MatchVlanToGroup := fun _ _ _ _ _ => .ok none
    MatchVlanToTenant := fun _ _ _ => .ok none
    AddVlan := fun _ x => .ok x
    AddInterface := fun _ x => .ok x
    AddIPAddress := fun _ x => .ok x
    AddPrefix := fun _ x => .ok x
    Slugify := fun x => x
    SerializeMask := fun m =>
      if m = "255.255.255.0" then "24" else if m = "255.255.255.255" then "32" else m
    IsPermittedIPAddress := fun _ _ _ => true
    ReverseLookup := fun _ => ""
    GetPrefixAndMaskFromIPAddress := fun a =>
      if a = "10.0.0.5/24" then .ok ("10.0.0.0/24", 24)
      else if a = "10.0.0.5/32" then .ok ("10.0.0.5/32", 32)
      else .error "invalid address"
    formatInterface := fun i => i.Name }

/-- A device as the FMC reports it. -/
def exampleDeviceA : SrcDevice :=
  { Name := "fw-a", Model := "FPR-2110", SWVersion := "7.2"
    Metadata := { SerialNumber := "JAD1", InventoryData := { CPUCores := "4", MemoryInMB := "8192" } } }

/-- A static address `10.0.0.5` with a 24-bit mask. -/
def exampleStatic24 : Option InterfaceIPv4 :=
  some { Static := some { Address := "10.0.0.5", Netmask := "255.255.255.0" } }

/-- A physical interface without an address. -/
def examplePhysical : PhysicalInterface := { ID := "p1", Name := "Ethernet1/1" }

/-- A VLAN interface with VLAN ID 10 and the address `10.0.0.5/24`. -/
def exampleVlanIface : VlanInterface :=
  { ID := "v1", Name := "Vlan10", VID := 10, IPv4 := exampleStatic24 }

/-- An ether-channel interface without an address. -/
def exampleEtherChannel : EtherChannelInterface := { ID := "e1", Name := "Port-channel1" }

/-- A sub-interface of `Ethernet1/1` with VLAN ID 100. -/
def exampleSub : SubInterface :=
  { ID := "s1", Name := "Ethernet1/1.100", ParentName := "Ethernet1/1", VlanID := 100 }

/-- A source with one device that has one interface of each of the four kinds. -/
def exampleSource : FMCSource :=
  { Devices := [("uuid-a", exampleDeviceA)]
    DevicePhysicalIfaces := fun u => if u = "uuid-a" then some [examplePhysical] else none
    DeviceVlanIfaces := fun u => if u = "uuid-a" then some [exampleVlanIface] else none
    DeviceEtherChannelIfaces := fun u =>
      if u = "uuid-a" then some [exampleEtherChannel] else none
    DeviceSubIfaces := fun u => if u = "uuid-a" then some [exampleSub] else none }

/-- The device object `syncDevices` builds for `exampleDeviceA` under `exampleEnv`. -/
def exampleNBDeviceA : Device :=
  { NetboxObject :=
      { CustomFields :=
          [("source-id", .str "uuid-a"), ("device-uuid", .str "uuid-a"),
            ("host-cpu-cores", .str "4"), ("host-memory", .str "8192MB")] }
    Name := "fw-a"
    Site := none
    DeviceRole := { Name := "Firewall" }
    Status := .DeviceStatusActive
    DeviceType :=
      { Manufacturer := { Name := "Cisco", Slug := "Cisco" }, Model := "FPR-2110",
        Slug := "CiscoFPR-2110" }
    Tenant := none
    Platform :=
      { Name := "FXOS 7.2", Slug := "FXOS 7.2", Manufacturer := { Name := "Cisco", Slug := "Cisco" } }
    SerialNumber := "JAD1" }

/-- The calls that resolve and create the VLAN of an interface record. -/
def vlanKinds : List CallKind :=
  [.MatchVlanToSite, .MatchVlanToGroup, .MatchVlanToTenant, .AddVlan]

/-- A sub-interface whose parent `Ethernet9/9` was never registered. -/
def exampleOrphanSub : SubInterface :=
  { ID := "s9", Name := "Ethernet9/9.7", ParentName := "Ethernet9/9", VlanID := 7 }

/-- The collaborators of `exampleEnv`, except that `AddVlan` always fails. -/
def exampleEnvNoVlan : Env :=
  { exampleEnv with AddVlan := fun _ _ => .error "vlan rejected" }

/-- The collaborators of `exampleEnv`, except that `AddInterface` always fails. -/
def exampleEnvNoInterface : Env :=
  { exampleEnv with AddInterface := fun _ _ => .error "interface rejected" }

/-- The collaborators of `exampleEnv`, except that `AddIPAddress` always fails. -/
def exampleEnvNoIP : Env :=
  { exampleEnv with AddIPAddress := fun _ _ => .error "address rejected" }

/-- The calls that create or resolve what a device refers to (lines 30-93 of `syncDevices`). -/
def dependencyKinds : List CallKind :=
  [.AddManufacturer, .AddDeviceType, .MatchHostToTenant, .MatchHostToRole,
    .AddFirewallDeviceRole, .MatchHostToSite, .AddPlatform]

/-- The calls that create a device or something attached to it. -/
def creationKinds : List CallKind :=
  [.AddDevice, .AddInterface, .AddVlan, .AddIPAddress, .AddPrefix]

/-- The calls the four interface stages make. -/
def interfaceStageKinds : List CallKind :=
  [.MatchVlanToSite, .MatchVlanToGroup, .MatchVlanToTenant, .AddVlan, .AddInterface,
    .AddIPAddress, .AddPrefix]

/-- The collaborators of `exampleEnv`, except that `AddPlatform` always fails. -/
def exampleEnvNoPlatform : Env :=
  { exampleEnv with AddPlatform := fun _ _ => .error "platform rejected" }

/-- A second device as the FMC reports it. -/
def exampleDeviceB : SrcDevice :=
  { Name := "fw-b", Model := "FPR-2110", SWVersion := "7.2"
    Metadata := { SerialNumber := "JAD2", InventoryData := { CPUCores := "4", MemoryInMB := "8192" } } }

/-- A source with two devices, visited in the order `fw-a`, `fw-b`.  The first has the physical
interface `Ethernet1/1`; the second has no physical interface, only a sub-interface that names
`Ethernet1/1` as its parent. -/
def exampleTwoDevices : FMCSource :=
  { Devices := [("uuid-a", exampleDeviceA), ("uuid-b", exampleDeviceB)]
    DevicePhysicalIfaces := fun u => if u = "uuid-a" then some [examplePhysical] else none
    DeviceSubIfaces := fun u => if u = "uuid-b" then some [exampleSub] else none }

/-- The collaborators of `exampleEnv`, except that `AddDevice` rejects the device `fw-a`. -/
def exampleEnvRejectA : Env :=
  { exampleEnv with
    AddDevice := fun _ d => if d.Name = "fw-a" then .error "rejected" else .ok d }

/-- The name of the device of an `AddDevice` call. -/
def Event.addedDevice : Event → Option String
  | .AddDevice arg _ => some arg.Name
  | _ => none

/-- For an `AddInterface` call: the name of the device the interface is created for, the name of
the interface, and the name of the device of its parent interface, if it has a parent. -/
def Event.interfaceLink : Event → Option (String × String × Option String)
  | .AddInterface arg _ =>
    some (arg.Device.Name, arg.Name,
      match arg.ParentInterface with
      | some parent => some parent.Device.Name
      | none => none)
  | _ => none

/-- The source `exampleSource` with one host-role rule configured. -/
def exampleSourceWithRoles : FMCSource :=
  { exampleSource with SourceConfig := { HostRoleRelations := ["fw-.* = Edge firewall"] } }

/-- The collaborators of `exampleEnv`, except that `MatchHostToRole` answers with the role
`Edge firewall`. -/
def exampleEnvEdgeRole : Env :=
  { exampleEnv with MatchHostToRole := fun _ _ _ => .ok (some { Name := "Edge firewall" }) }

/-- The custom field `source-id` of an object. -/
def sourceID (o : NetboxObject) : Option CFValue :=
  o.customField CustomFieldSourceIDName

/-- What the custom fields of the object passed by a call look like: a device satisfies `PD`, an
interface satisfies `PI`, a VLAN and a prefix have no custom field at all (so no `source-id`),
and the only custom field of an IP address is the ARP-entry flag `arp`, set to false.  The calls
that create none of these are not constrained. -/
def Traced (arp : String) (PD : Device → Prop) (PI : Interface → Prop) : Event → Prop
  | .AddDevice arg _ => PD arg
  | .AddInterface arg _ => PI arg
  | .AddVlan arg _ => arg.NetboxObject.CustomFields = []
  | .AddIPAddress arg _ => arg.NetboxObject.CustomFields = [(arp, .bool false)]
  | .AddPrefix arg _ => arg.NetboxObject.CustomFields = []
  | _ => True

/-- The device was built from the entry `entry` of `fmcs.Devices`: it has the name of the entry
and carries its UUID as `source-id`. -/
def DeviceFromEntry (entry : String × SrcDevice) (arg : Device) : Prop :=
  arg.Name = entry.2.Name ∧ sourceID arg.NetboxObject = some (.str entry.1)

/-- The interface was built for the inventory device `nb` from an interface record `r` of the
device `uuid`, of one of the four kinds: it is the literal the stage of that kind builds from `r`
and `nb`, and it carries the ID of `r` as `source-id`. -/
def InterfaceFromDevice (fmcs : FMCSource) (uuid : String) (nb : Device) (arg : Interface) :
    Prop :=
  (∃ l, fmcs.DevicePhysicalIfaces uuid = some l ∧
    ∃ r ∈ l, arg = syncPhysicalInterfacesArg fmcs nb r ∧
      sourceID arg.NetboxObject = some (.str r.ID)) ∨
  (∃ l, fmcs.DeviceVlanIfaces uuid = some l ∧
    ∃ r ∈ l, (∃ vlans, arg = syncVlanInterfacesArg fmcs nb r vlans) ∧
      sourceID arg.NetboxObject = some (.str r.ID)) ∨
  (∃ l, fmcs.DeviceEtherChannelIfaces uuid = some l ∧
    ∃ r ∈ l, arg = syncEtherChannelInterfacesArg fmcs nb r ∧
      sourceID arg.NetboxObject = some (.str r.ID)) ∨
  (∃ l, fmcs.DeviceSubIfaces uuid = some l ∧
    ∃ r ∈ l, (∃ parent vlans, arg = syncSubInterfacesArg fmcs nb r parent vlans) ∧
      sourceID arg.NetboxObject = some (.str r.ID))

/-- What the objects passed by the calls made for one entry of `fmcs.Devices`, processed from the
state `w0`, look like: the device was built from the entry, and every interface was built from an
interface record of that very device, for the inventory device that `AddDevice` returned for the
entry. -/
def TracedEntry (env : Env) (fmcs : FMCSource) (entry : String × SrcDevice) (w0 : World) :
    Event → Prop :=
  Traced env.consts.CustomFieldArpEntryName (DeviceFromEntry entry)
    (fun arg => ∃ nb, (syncDevicesAddDevice env fmcs entry.1 entry.2 w0).1 = .ok nb ∧
      InterfaceFromDevice fmcs entry.1 nb arg)

/-- The `source-id` of the object a creation call passes, when it has one that is a text. -/
def Event.sourceIDText : Event → Option String
  | .AddDevice arg _ =>
    match sourceID arg.NetboxObject with
    | some (.str s) => some s
    | _ => none
  | .AddInterface arg _ =>
    match sourceID arg.NetboxObject with
    | some (.str s) => some s
    | _ => none
  | .AddVlan arg _ =>
    match sourceID arg.NetboxObject with
    | some (.str s) => some s
    | _ => none
  | .AddIPAddress arg _ =>
    match sourceID arg.NetboxObject with
    | some (.str s) => some s
    | _ => none
  | .AddPrefix arg _ =>
    match sourceID arg.NetboxObject with
    | some (.str s) => some s
    | _ => none
  | _ => none

/-- An IPv4 block with no static entry and the DHCP address `10.0.0.7`, 24-bit mask. -/
def exampleDhcpOnly : Option InterfaceIPv4 :=
  some { Dhcp := some { Address := "10.0.0.7", Netmask := "255.255.255.0" } }

/-- An IPv4 block whose static entry is present but empty, with the DHCP address `10.0.0.7`. -/
def exampleStaticEmpty : Option InterfaceIPv4 :=
  some { Static := some { Address := "", Netmask := "" }
         Dhcp := some { Address := "10.0.0.7", Netmask := "255.255.255.0" } }

/-- The collaborators of `exampleEnv`, with a reverse lookup that shows what it was asked. -/
def exampleEnvLookup : Env :=
  { exampleEnv with ReverseLookup := fun a => "name-of-" ++ a }

/-- The address and the DNS name of an `AddIPAddress` call. -/
def Event.attachedAddress : Event → Option (String × String)
  | .AddIPAddress arg _ => some (arg.Address, arg.DNSName)
  | _ => none

/-- The physical-interface record with the same fields as an ether-channel record. -/
def EtherChannelInterface.toPhysical (e : EtherChannelInterface) : PhysicalInterface :=
  { ID := e.ID, Name := e.Name, Description := e.Description, Enabled := e.Enabled,
    MTU := e.MTU, IPv4 := e.IPv4 }

/-- An ether-channel interface with the static address `10.0.0.5/24`. -/
def exampleEtherChannelWithAddress : EtherChannelInterface :=
  { ID := "e2", Name := "Port-channel2", IPv4 := exampleStatic24 }

/-- A source whose device `uuid-a` has the same records as ether-channel interfaces and as
physical interfaces. -/
def exampleTwinSource : FMCSource :=
  { Devices := [("uuid-a", exampleDeviceA)]
    DevicePhysicalIfaces := fun u =>
      if u = "uuid-a" then
        some [exampleEtherChannel.toPhysical, exampleEtherChannelWithAddress.toPhysical]
      else none
    DeviceEtherChannelIfaces := fun u =>
      if u = "uuid-a" then some [exampleEtherChannel, exampleEtherChannelWithAddress] else none }

end FMC

namespace Utils

/-- The text of a Go `error`. -/
abbrev Err := String

/-! ## The pattern matcher (package `utils`)

`MatchStringToValue` and `ValidateRegexRelations` are called by the relation resolvers; of
package `utils` only the tests are among the sources, so both functions are modelled from the
specification.  The regular-expression engine of the Go standard library is a parameter. -/

/-- Whether a relation has the separator `=`. -/
def hasSeparator (relation : String) : Bool :=
  relation.data.contains '='

/-- Drop the blanks at both ends. -/
def trimSpace (l : List Char) : List Char :=
  ((l.dropWhile (· = ' ')).reverse.dropWhile (· = ' ')).reverse

/-- The left-hand side of a relation `regex = value`: the text before the first `=`, without
the blanks around it. -/
def leftSide (relation : String) : String :=
  String.mk (trimSpace (relation.data.takeWhile (· ≠ '=')))

/-- Modelled from the spec: `utils.ValidateRegexRelations`, whose source file is missing (only
`utils_test.go` is there).  Section 4.1: a malformed configuration entry (missing separator,
invalid regex) must fail fast at load time.  The entries are checked in order and the first
malformed one is reported; `compiles` is Go `regexp.Compile` succeeding. -/
def ValidateRegexRelations (compiles : String → Bool) : List String → Except Err Unit
  | [] => .ok ()
  | relation :: rest =>
    if hasSeparator relation = false then
      .error ("invalid regex relation: " ++ relation)
    else if compiles (leftSide relation) = false then
      .error ("invalid regex: " ++ leftSide relation)
    else ValidateRegexRelations compiles rest

/-! ### A small engine, to run the matcher on examples

It knows literal characters, `.` and a starred character; a pattern with unbalanced parentheses
or with a backslash at its end does not compile. -/

/-- Whether the parentheses of a pattern are balanced, `depth` being open. -/
def balanced : List Char → Nat → Bool
  | [], depth => depth = 0
  | '(' :: rest, depth => balanced rest (depth + 1)
  | ')' :: rest, depth =>
    match depth with
    | 0 => false
    | d + 1 => balanced rest d
  | _ :: rest, depth => balanced rest depth

/-- Whether the example engine accepts a pattern. -/
def exampleCompiles (pattern : String) : Bool :=
  balanced pattern.data 0 && pattern.data.getLast? != some '\\'

end Utils

namespace Inventory

/-! ## `NetBoxInventory.Init` (pkg/netbox/inventory/inventory.go, lines 68-134)

The fourteen `InitX` methods are declared in other files; they are the parameter `Steps.run`.
Each one works on the inventory and returns an error or nil.  The model keeps the list of the
methods that were called, with what each returned. -/

/-- The text of a Go `error`. -/
abbrev Err := String

/-- The methods that `Init` calls. -/
inductive InitStep where
  | InitTags
  | InitTenants
  | InitSites
  | InitManufacturers
  | InitPlatforms
  | InitDevices
  | InitDeviceRoles
  | InitServerDeviceRole
  | InitDeviceTypes
  | InitCustomFields
  | InitServerCustomFields
  | InitClusterGroups
  | InitClusterTypes
  | InitClusters
  deriving DecidableEq, Repr

/-- The collaborators of `Init`: `NewNetBoxAPI` stands for the assignment of
`service.NewNetBoxAPI(...)` to `NetboxApi` (lines 70-73), `run step` for the method `step`, which
returns `some err` or `none` (nil) and the inventory as it leaves it. -/
structure Steps (σ : Type) where
  NewNetBoxAPI : σ → σ
  run : InitStep → σ → Option Err × σ

/-- The inventory, and the methods called so far with what each returned. -/
structure State (σ : Type) where
  nbi : σ
  ran : List (InitStep × Option Err) := []

/-- One call `err := netboxInventory.InitX()`. -/
def call {σ : Type} (steps : Steps σ) (step : InitStep) (s : State σ) : Option Err × State σ :=
  let r := steps.run step s.nbi
  (r.1, { nbi := r.2, ran := s.ran ++ [(step, r.1)] })

/-- Go `NetBoxInventory.Init`. -/
def Init {σ : Type} (steps : Steps σ) (s : State σ) : Option Err × State σ :=
  let s0 : State σ := { s with nbi := steps.NewNetBoxAPI s.nbi }
  let r1 := call steps .InitTags s0
  match r1.1 with
  | some err => (some err, r1.2)
  | none =>
  let r2 := call steps .InitTenants r1.2
  match r2.1 with
  | some err => (some err, r2.2)
  | none =>
  let r3 := call steps .InitSites r2.2
  match r3.1 with
  | some err => (some err, r3.2)
  | none =>
  let r4 := call steps .InitManufacturers r3.2
  match r4.1 with
  | some err => (some err, r4.2)
  | none =>
  let r5 := call steps .InitPlatforms r4.2
  match r5.1 with
  | some err => (some err, r5.2)
  | none =>
  let r6 := call steps .InitDevices r5.2
  match r6.1 with
  | some err => (some err, r6.2)
  | none =>
  let r7 := call steps .InitDeviceRoles r6.2
  match r7.1 with
  | some err => (some err, r7.2)
  | none =>
  let r8 := call steps .InitServerDeviceRole r7.2
  match r8.1 with
  | some err => (some err, r8.2)
  | none =>
  let r9 := call steps .InitDeviceTypes r8.2
  match r9.1 with
  | some err => (some err, r9.2)
  | none =>
  let r10 := call steps .InitCustomFields r9.2
  match r10.1 with
  | some err => (some err, r10.2)
  | none =>
  let r11 := call steps .InitServerCustomFields r10.2
  match r11.1 with
  | some err => (some err, r11.2)
  | none =>
  let r12 := call steps .InitClusterGroups r11.2
  match r12.1 with
  | some err => (some err, r12.2)
  | none =>
  let r13 := call steps .InitClusterTypes r12.2
  match r13.1 with
  | some err => (some err, r13.2)
  | none =>
  let r14 := call steps .InitClusters r13.2
  match r14.1 with
  | some err => (some err, r14.2)
  | none =>
  (none, r14.2)

/-- The order of initialisation as the specification lists it. -/
def initOrder : List InitStep :=
  [.InitTags, .InitTenants, .InitSites, .InitManufacturers, .InitPlatforms, .InitDevices, .InitDeviceRoles, .InitServerDeviceRole, .InitDeviceTypes, .InitCustomFields, .InitServerCustomFields, .InitClusterGroups, .InitClusterTypes, .InitClusters]

/-- The specification of `Init`: run the given methods in order and stop at the first one that
returns an error. -/
def runInOrder {σ : Type} (steps : Steps σ) : List InitStep → State σ → Option Err × State σ
  | [], s => (none, s)
  | step :: rest, s =>
    let r := call steps step s
    match r.1 with
    | some err => (some err, r.2)
    | none => runInOrder steps rest r.2

/-- The inventory after the methods of the list have been called on it one after the other. -/
def nbiAfter {σ : Type} (steps : Steps σ) : List InitStep → σ → σ
  | [], x => x
  | step :: rest, x => nbiAfter steps rest (steps.run step x).2

/-- Whether the methods of the list, called one after the other on the inventory, all return
nil. -/
def allSucceed {σ : Type} (steps : Steps σ) : List InitStep → σ → Bool
  | [], _ => true
  | step :: rest, x =>
    (steps.run step x).1.isNone && allSucceed steps rest (steps.run step x).2

/-- Example collaborators on an inventory that is the list of the methods that worked on it:
every method adds itself to the list; `InitDevices` then fails, the others succeed. -/
def exampleRecorder : Steps (List InitStep) :=
  { NewNetBoxAPI := fun _ => []
    run := fun step l =>
      (if step = .InitDevices then some "devices: connection refused" else none, l ++ [step]) }

end Inventory

/-! # Theorems -/

namespace FMC

/-! ## Loops and the history of calls -/

theorem log_record (w : World) (e : Event) : (w.record e).log = w.log ++ [e] := rfl

theorem log_register (w : World) (n : String) (i : Interface) : (w.register n i).log = w.log :=
  rfl

theorem callsOf_eq_of_log {ρ : Type} {f : World → ρ × World} {w : World} {l : List Event}
    (h : (f w).2.log = w.log ++ l) : callsOf f w = l := by
  simp [callsOf, h]

theorem forEach_nil {α : Type} (body : α → World → Outcome × World) (w : World) :
    forEach body [] w = (.ok, w) := rfl

theorem forEach_cons_ok {α : Type} (body : α → World → Outcome × World) (x : α) (xs : List α)
    (w : World) (h : (body x w).1 = .ok) :
    forEach body (x :: xs) w = forEach body xs (body x w).2 := by
  simp [forEach, h]

theorem forEach_cons_stop {α : Type} (body : α → World → Outcome × World) (x : α) (xs : List α)
    (w : World) (h : (body x w).1 ≠ .ok) :
    forEach body (x :: xs) w = body x w := by
  unfold forEach
  simp only []

theorem forEach_append_cons {α : Type} (body : α → World → Outcome × World) (pre : List α)
    (x : α) (post : List α) (w w0 : World) (hpre : forEach body pre w = (.ok, w0)) :
    forEach body (pre ++ x :: post) w = forEach body (x :: post) w0 := by
  induction pre generalizing w with
  | nil =>
    simp [forEach] at hpre
    simp [hpre]
  | cons y ys ih =>
    by_cases hy : (body y w).1 = .ok
    · rw [forEach_cons_ok body y ys w hy] at hpre
      rw [List.cons_append, forEach_cons_ok body y _ w hy]
      exact ih _ hpre
    · rw [forEach_cons_stop body y ys w hy] at hpre
      rw [hpre] at hy
      exact absurd rfl hy

theorem forEach_appends {α : Type} (body : α → World → Outcome × World)
    (hb : ∀ x, Appends (body x)) (xs : List α) : Appends (forEach body xs) := by
  induction xs with
  | nil => intro w; simp [callsOf, forEach]
  | cons x xs ih =>
    intro w
    by_cases hx : (body x w).1 = .ok
    · have h1 := hb x w
      have h2 := ih (body x w).2
      have : (forEach body (x :: xs) w).2.log =
          w.log ++ (callsOf (body x) w ++ callsOf (forEach body xs) (body x w).2) := by
        rw [forEach_cons_ok body x xs w hx, h2, h1, List.append_assoc]
      rw [callsOf_eq_of_log this, this]
    · have h1 := hb x w
      have : (forEach body (x :: xs) w).2.log = w.log ++ callsOf (body x) w := by
        rw [forEach_cons_stop body x xs w hx, h1]
      rw [callsOf_eq_of_log this, this]

theorem callsOf_forEach_cons {α : Type} (body : α → World → Outcome × World)
    (hb : ∀ x, Appends (body x)) (x : α) (xs : List α) (w : World) :
    callsOf (forEach body (x :: xs)) w =
      callsOf (body x) w ++
        (if (body x w).1 = .ok then callsOf (forEach body xs) (body x w).2 else []) := by
  apply callsOf_eq_of_log
  by_cases hx : (body x w).1 = .ok
  · rw [forEach_cons_ok body x xs w hx, forEach_appends body hb xs, hb x w, if_pos hx,
      List.append_assoc]
  · rw [forEach_cons_stop body x xs w hx, hb x w, if_neg hx, List.append_nil]

theorem forEach_calls_forall {α : Type} (body : α → World → Outcome × World)
    (hb : ∀ x, Appends (body x)) (P : Event → Prop) (xs : List α)
    (h : ∀ x ∈ xs, ∀ w, ∀ e ∈ callsOf (body x) w, P e) :
    ∀ w, ∀ e ∈ callsOf (forEach body xs) w, P e := by
  induction xs with
  | nil => intro w e he; simp [callsOf, forEach] at he
  | cons x xs ih =>
    intro w e he
    rw [callsOf_forEach_cons body hb] at he
    rcases List.mem_append.1 he with h1 | h2
    · exact h x (List.mem_cons_self _ _) w e h1
    · split at h2
      · exact ih (fun y hy => h y (List.mem_cons_of_mem _ hy)) _ e h2
      · simp at h2

theorem appends_of_exists {ρ : Type} {f : World → ρ × World}
    (h : ∀ w, ∃ l, (f w).2.log = w.log ++ l) : Appends f := by
  intro w
  obtain ⟨l, hl⟩ := h w
  rw [callsOf_eq_of_log hl, hl]

/-! ## Every piece of the sync only appends to the history -/

theorem syncVlanInterfacesTaggedVlans_appends (env : Env) (fmcs : FMCSource)
    (r : VlanInterface) : Appends (syncVlanInterfacesTaggedVlans env fmcs r) := by
  apply appends_of_exists
  intro w
  unfold syncVlanInterfacesTaggedVlans
  simp only []
  repeat' split
  all_goals simp [log_record]

theorem syncSubInterfacesTaggedVlans_appends (env : Env) (fmcs : FMCSource)
    (r : SubInterface) : Appends (syncSubInterfacesTaggedVlans env fmcs r) := by
  apply appends_of_exists
  intro w
  unfold syncSubInterfacesTaggedVlans
  simp only []
  repeat' split
  all_goals simp [log_record]

theorem syncVlanInterfacesIP_appends (env : Env) (fmcs : FMCSource) (r : VlanInterface)
    (nbIface : Interface) (vlans : List Vlan) :
    Appends (syncVlanInterfacesIP env fmcs r nbIface vlans) := by
  apply appends_of_exists
  intro w
  unfold syncVlanInterfacesIP
  simp only []
  repeat' split
  all_goals simp [log_record]

theorem syncSubInterfacesIP_appends (env : Env) (fmcs : FMCSource) (r : SubInterface)
    (nbIface : Interface) (vlans : List Vlan) :
    Appends (syncSubInterfacesIP env fmcs r nbIface vlans) := by
  apply appends_of_exists
  intro w
  unfold syncSubInterfacesIP
  simp only []
  repeat' split
  all_goals simp [log_record]

theorem syncPhysicalInterfacesIP_appends (env : Env) (fmcs : FMCSource) (r : PhysicalInterface)
    (nbIface : Interface) : Appends (syncPhysicalInterfacesIP env fmcs r nbIface) := by
  apply appends_of_exists
  intro w
  unfold syncPhysicalInterfacesIP
  simp only []
  repeat' split
  all_goals simp [log_record]

theorem syncPhysicalInterfacesBody_appends (env : Env) (fmcs : FMCSource) (nb : Device)
    (r : PhysicalInterface) : Appends (syncPhysicalInterfacesBody env fmcs nb r) := by
  apply appends_of_exists
  intro w
  unfold syncPhysicalInterfacesBody
  simp only []
  split
  · simp [log_record]
  · rename_i nbIface _
    have h2 := syncPhysicalInterfacesIP_appends env fmcs r nbIface
    split
    · simp [log_register, h2 _, log_record]
    · simp [h2 _, log_record]

theorem syncEtherChannelInterfacesIP_appends (env : Env) (fmcs : FMCSource) (r : EtherChannelInterface)
    (nbIface : Interface) : Appends (syncEtherChannelInterfacesIP env fmcs r nbIface) := by
  apply appends_of_exists
  intro w
  unfold syncEtherChannelInterfacesIP
  simp only []
  repeat' split
  all_goals simp [log_record]

theorem syncEtherChannelInterfacesBody_appends (env : Env) (fmcs : FMCSource) (nb : Device)
    (r : EtherChannelInterface) : Appends (syncEtherChannelInterfacesBody env fmcs nb r) := by
  apply appends_of_exists
  intro w
  unfold syncEtherChannelInterfacesBody
  simp only []
  split
  · simp [log_record]
  · rename_i nbIface _
    have h2 := syncEtherChannelInterfacesIP_appends env fmcs r nbIface
    split
    · simp [log_register, h2 _, log_record]
    · simp [h2 _, log_record]

theorem syncVlanInterfacesBody_appends (env : Env) (fmcs : FMCSource) (nb : Device)
    (r : VlanInterface) : Appends (syncVlanInterfacesBody env fmcs nb r) := by
  apply appends_of_exists
  intro w
  have h1 := syncVlanInterfacesTaggedVlans_appends env fmcs r w
  unfold syncVlanInterfacesBody
  simp only []
  split
  · exact ⟨_, h1⟩
  · split
    · simp [log_record, h1]
    · rename_i vlans _ _ nbIface _
      have h2 := syncVlanInterfacesIP_appends env fmcs r nbIface vlans
      split
      · simp [log_register, h2 _, log_record, h1]
      · simp [h2 _, log_record, h1]

theorem syncSubInterfacesBody_appends (env : Env) (fmcs : FMCSource) (nb : Device)
    (r : SubInterface) : Appends (syncSubInterfacesBody env fmcs nb r) := by
  apply appends_of_exists
  intro w
  have h1 := syncSubInterfacesTaggedVlans_appends env fmcs r w
  unfold syncSubInterfacesBody
  simp only []
  split
  · exact ⟨_, h1⟩
  · split
    · simp [log_record, h1]
    · rename_i vlans _ _ nbIface _
      have h2 := syncSubInterfacesIP_appends env fmcs r nbIface vlans
      simp [h2 _, log_record, h1]

theorem syncPhysicalInterfaces_appends (env : Env) (fmcs : FMCSource) (nb : Device)
    (uuid : String) : Appends (syncPhysicalInterfaces env fmcs nb uuid) := by
  apply appends_of_exists
  intro w
  unfold syncPhysicalInterfaces
  split
  · exact ⟨_, forEach_appends _ (syncPhysicalInterfacesBody_appends env fmcs nb) _ w⟩
  · exact ⟨[], by simp⟩

theorem syncVlanInterfaces_appends (env : Env) (fmcs : FMCSource) (nb : Device)
    (uuid : String) : Appends (syncVlanInterfaces env fmcs nb uuid) := by
  apply appends_of_exists
  intro w
  unfold syncVlanInterfaces
  split
  · exact ⟨_, forEach_appends _ (syncVlanInterfacesBody_appends env fmcs nb) _ w⟩
  · exact ⟨[], by simp⟩

theorem syncEtherChannelInterfaces_appends (env : Env) (fmcs : FMCSource) (nb : Device)
    (uuid : String) : Appends (syncEtherChannelInterfaces env fmcs nb uuid) := by
  apply appends_of_exists
  intro w
  unfold syncEtherChannelInterfaces
  split
  · exact ⟨_, forEach_appends _ (syncEtherChannelInterfacesBody_appends env fmcs nb) _ w⟩
  · exact ⟨[], by simp⟩

theorem syncSubInterfaces_appends (env : Env) (fmcs : FMCSource) (nb : Device)
    (uuid : String) : Appends (syncSubInterfaces env fmcs nb uuid) := by
  apply appends_of_exists
  intro w
  unfold syncSubInterfaces
  split
  · exact ⟨_, forEach_appends _ (syncSubInterfacesBody_appends env fmcs nb) _ w⟩
  · exact ⟨[], by simp⟩

theorem syncDevicesDeviceRole_appends (env : Env) (fmcs : FMCSource) (name : String) :
    Appends (syncDevicesDeviceRole env fmcs name) := by
  apply appends_of_exists
  intro w
  unfold syncDevicesDeviceRole
  simp only []
  repeat' split
  all_goals simp_all [log_record]

theorem syncDevicesTypeAndTenant_appends (env : Env) (fmcs : FMCSource) (d : SrcDevice) :
    Appends (syncDevicesTypeAndTenant env fmcs d) := by
  apply appends_of_exists
  intro w
  unfold syncDevicesTypeAndTenant
  simp only []
  repeat' split
  all_goals simp [log_record]

theorem syncDevicesSiteAndPlatform_appends (env : Env) (fmcs : FMCSource) (d : SrcDevice)
    (m : Manufacturer) : Appends (syncDevicesSiteAndPlatform env fmcs d m) := by
  apply appends_of_exists
  intro w
  unfold syncDevicesSiteAndPlatform
  simp only []
  repeat' split
  all_goals simp [log_record]

/-- The calls of lines 21-119, piece by piece. -/
theorem syncDevicesAddDevice_calls (env : Env) (fmcs : FMCSource) (uuid : String)
    (d : SrcDevice) (w : World) :
    callsOf (syncDevicesAddDevice env fmcs uuid d) w =
      callsOf (syncDevicesTypeAndTenant env fmcs d) w ++
        (match (syncDevicesTypeAndTenant env fmcs d w).1 with
          | .error _ => []
          | .ok (man, type, tenant) =>
            callsOf (syncDevicesDeviceRole env fmcs d.Name)
                (syncDevicesTypeAndTenant env fmcs d w).2 ++
              (match (syncDevicesDeviceRole env fmcs d.Name
                  (syncDevicesTypeAndTenant env fmcs d w).2).1 with
                | .error _ => []
                | .ok role =>
                  callsOf (syncDevicesSiteAndPlatform env fmcs d man)
                      (syncDevicesDeviceRole env fmcs d.Name
                        (syncDevicesTypeAndTenant env fmcs d w).2).2 ++
                    (match (syncDevicesSiteAndPlatform env fmcs d man
                        (syncDevicesDeviceRole env fmcs d.Name
                          (syncDevicesTypeAndTenant env fmcs d w).2).2).1 with
                      | .error _ => []
                      | .ok (site, platform) =>
                        [Event.AddDevice
                          (syncDevicesArg env fmcs uuid d type tenant role site platform)
                          (env.AddDevice
                            (syncDevicesSiteAndPlatform env fmcs d man
                              (syncDevicesDeviceRole env fmcs d.Name
                                (syncDevicesTypeAndTenant env fmcs d w).2).2).2.log
                            (syncDevicesArg env fmcs uuid d type tenant role site
                              platform))]))) := by
  apply callsOf_eq_of_log
  have h1 := syncDevicesTypeAndTenant_appends env fmcs d w
  unfold syncDevicesAddDevice
  simp only []
  cases ht : (syncDevicesTypeAndTenant env fmcs d w).1 with
  | error e => simp [h1]
  | ok x =>
    obtain ⟨man, type, tenant⟩ := x
    simp only []
    have h2 := syncDevicesDeviceRole_appends env fmcs d.Name
      (syncDevicesTypeAndTenant env fmcs d w).2
    cases hr : (syncDevicesDeviceRole env fmcs d.Name
        (syncDevicesTypeAndTenant env fmcs d w).2).1 with
    | error e => simp [h2, h1]
    | ok role =>
      simp only []
      have h3 := syncDevicesSiteAndPlatform_appends env fmcs d man
        (syncDevicesDeviceRole env fmcs d.Name (syncDevicesTypeAndTenant env fmcs d w).2).2
      cases hs : (syncDevicesSiteAndPlatform env fmcs d man
          (syncDevicesDeviceRole env fmcs d.Name
            (syncDevicesTypeAndTenant env fmcs d w).2).2).1 with
      | error e => simp [h3, h2, h1]
      | ok y =>
        obtain ⟨site, platform⟩ := y
        simp only []
        split <;> simp [log_record, h3, h2, h1]

theorem syncDevicesAddDevice_appends (env : Env) (fmcs : FMCSource) (uuid : String)
    (d : SrcDevice) : Appends (syncDevicesAddDevice env fmcs uuid d) := by
  intro w
  have h1 := syncDevicesTypeAndTenant_appends env fmcs d w
  have h2 := syncDevicesDeviceRole_appends env fmcs d.Name
    (syncDevicesTypeAndTenant env fmcs d w).2
  rw [syncDevicesAddDevice_calls]
  unfold syncDevicesAddDevice
  simp only []
  cases ht : (syncDevicesTypeAndTenant env fmcs d w).1 with
  | error e => simp [h1]
  | ok x =>
    obtain ⟨man, type, tenant⟩ := x
    simp only []
    cases hr : (syncDevicesDeviceRole env fmcs d.Name
        (syncDevicesTypeAndTenant env fmcs d w).2).1 with
    | error e => simp [h2, h1]
    | ok role =>
      simp only []
      have h3 := syncDevicesSiteAndPlatform_appends env fmcs d man
        (syncDevicesDeviceRole env fmcs d.Name (syncDevicesTypeAndTenant env fmcs d w).2).2
      cases hs : (syncDevicesSiteAndPlatform env fmcs d man
          (syncDevicesDeviceRole env fmcs d.Name
            (syncDevicesTypeAndTenant env fmcs d w).2).2).1 with
      | error e => simp [h3, h2, h1]
      | ok y =>
        obtain ⟨site, platform⟩ := y
        simp only []
        split <;> simp [log_record, h3, h2, h1]

/-- The four stages of one device, written out: the calls of each stage follow those of the
stage before, and a stage makes calls only if every earlier stage returned no error. -/
theorem syncDevicesInterfaces_log (env : Env) (fmcs : FMCSource) (nb : Device) (uuid : String)
    (w : World) :
    (syncDevicesInterfaces env fmcs nb uuid w).2.log =
      w.log ++ callsOf (syncPhysicalInterfaces env fmcs nb uuid) w ++
        (if (syncPhysicalInterfaces env fmcs nb uuid w).1 = .ok then
          callsOf (syncVlanInterfaces env fmcs nb uuid)
            (syncPhysicalInterfaces env fmcs nb uuid w).2 ++
          (if (syncVlanInterfaces env fmcs nb uuid
              (syncPhysicalInterfaces env fmcs nb uuid w).2).1 = .ok then
            callsOf (syncEtherChannelInterfaces env fmcs nb uuid)
              (syncVlanInterfaces env fmcs nb uuid
                (syncPhysicalInterfaces env fmcs nb uuid w).2).2 ++
            (if (syncEtherChannelInterfaces env fmcs nb uuid
                (syncVlanInterfaces env fmcs nb uuid
                  (syncPhysicalInterfaces env fmcs nb uuid w).2).2).1 = .ok then
              callsOf (syncSubInterfaces env fmcs nb uuid)
                (syncEtherChannelInterfaces env fmcs nb uuid
                  (syncVlanInterfaces env fmcs nb uuid
                    (syncPhysicalInterfaces env fmcs nb uuid w).2).2).2
            else [])
          else [])
        else []) := by
  have hp := syncPhysicalInterfaces_appends env fmcs nb uuid
  have hv := syncVlanInterfaces_appends env fmcs nb uuid
  have he := syncEtherChannelInterfaces_appends env fmcs nb uuid
  have hs := syncSubInterfaces_appends env fmcs nb uuid
  unfold syncDevicesInterfaces
  simp only []
  split
  · rename_i h1
    rw [if_pos h1]
    split
    · rename_i h2
      rw [if_pos h2]
      split
      · rename_i h3
        rw [if_pos h3]
        simp only [hs _, he _, hv _, hp w, List.append_assoc]
      · rename_i h3
        rw [if_neg (by simpa using h3)]
        simp only [he _, hv _, hp w, List.append_assoc, List.append_nil]
    · rename_i h2
      rw [if_neg (by simpa using h2)]
      simp only [hv _, hp w, List.append_assoc, List.append_nil]
  · rename_i h1
    rw [if_neg (by simpa using h1)]
    simp only [hp w, List.append_assoc, List.append_nil]

theorem syncDevicesInterfaces_appends (env : Env) (fmcs : FMCSource) (nb : Device)
    (uuid : String) : Appends (syncDevicesInterfaces env fmcs nb uuid) :=
  appends_of_exists fun w => ⟨_, by
    rw [syncDevicesInterfaces_log env fmcs nb uuid w, List.append_assoc]⟩

theorem syncDevicesBody_appends (env : Env) (fmcs : FMCSource) (entry : String × SrcDevice) :
    Appends (syncDevicesBody env fmcs entry) := by
  apply appends_of_exists
  intro w
  have h1 := syncDevicesAddDevice_appends env fmcs entry.1 entry.2 w
  unfold syncDevicesBody
  simp only []
  split
  · exact ⟨[], by simp⟩
  · split
    · exact ⟨_, h1⟩
    · rename_i nbDevice _
      have h2 := syncDevicesInterfaces_appends env fmcs nbDevice entry.1
        (syncDevicesAddDevice env fmcs entry.1 entry.2 w).2
      rw [h1, List.append_assoc] at h2
      exact ⟨_, h2⟩

theorem syncDevices_appends (env : Env) (fmcs : FMCSource) : Appends (syncDevices env fmcs) :=
  forEach_appends _ (syncDevicesBody_appends env fmcs) _

/-- The same, with the condition of each stage spelled out. -/
theorem syncDevicesInterfaces_stages (env : Env) (fmcs : FMCSource) (nb : Device)
    (uuid : String) (w : World) :
    let rp := syncPhysicalInterfaces env fmcs nb uuid w
    let rv := syncVlanInterfaces env fmcs nb uuid rp.2
    let re := syncEtherChannelInterfaces env fmcs nb uuid rv.2
    (syncDevicesInterfaces env fmcs nb uuid w).2.log =
      w.log ++ callsOf (syncPhysicalInterfaces env fmcs nb uuid) w
        ++ (if rp.1 = .ok then callsOf (syncVlanInterfaces env fmcs nb uuid) rp.2 else [])
        ++ (if rp.1 = .ok ∧ rv.1 = .ok then
              callsOf (syncEtherChannelInterfaces env fmcs nb uuid) rv.2 else [])
        ++ (if rp.1 = .ok ∧ rv.1 = .ok ∧ re.1 = .ok then
              callsOf (syncSubInterfaces env fmcs nb uuid) re.2 else []) := by
  intro rp rv re
  rw [syncDevicesInterfaces_log]
  by_cases h1 : rp.1 = .ok
  · by_cases h2 : rv.1 = .ok
    · by_cases h3 : re.1 = .ok
      · simp [rp, rv, re] at h1 h2 h3
        simp [rp, rv, re, h1, h2, h3]
      · simp [rp, rv, re] at h1 h2 h3
        simp [rp, rv, re, h1, h2, h3]
    · simp [rp, rv] at h1 h2
      simp [rp, rv, h1, h2]
  · simp [rp] at h1
    simp [rp, h1]

/-! ## The VLAN block of the VLAN and sub-interface stages -/

theorem drop_log (l x : List Event) : (l ++ x).drop l.length = x := List.drop_left l x

theorem syncVlanInterfacesTaggedVlans_kinds (env : Env) (fmcs : FMCSource) (r : VlanInterface)
    (w : World) :
    ∀ e ∈ callsOf (syncVlanInterfacesTaggedVlans env fmcs r) w, e.kind ∈ vlanKinds := by
  unfold callsOf syncVlanInterfacesTaggedVlans
  simp only []
  repeat' split
  all_goals simp [log_record, List.append_assoc, drop_log, Event.kind, vlanKinds]

theorem syncVlanInterfacesTaggedVlans_error (env : Env) (fmcs : FMCSource) (r : VlanInterface)
    (w : World) (msg : Err) (h : (syncVlanInterfacesTaggedVlans env fmcs r w).1 = .error msg) :
    ∃ e ∈ callsOf (syncVlanInterfacesTaggedVlans env fmcs r) w, e.failed = true := by
  revert h
  unfold callsOf syncVlanInterfacesTaggedVlans
  simp only []
  repeat' split
  all_goals simp_all [log_record, List.append_assoc, drop_log, Event.failed, isError]

theorem syncVlanInterfacesTaggedVlans_ok (env : Env) (fmcs : FMCSource) (r : VlanInterface)
    (w : World) (vlans : List Vlan)
    (h : (syncVlanInterfacesTaggedVlans env fmcs r w).1 = .ok vlans) :
    ∀ e ∈ callsOf (syncVlanInterfacesTaggedVlans env fmcs r) w, e.failed = false := by
  revert h
  unfold callsOf syncVlanInterfacesTaggedVlans
  simp only []
  repeat' split
  all_goals simp_all [log_record, List.append_assoc, drop_log, Event.failed, isError]

theorem syncVlanInterfacesTaggedVlans_zero (env : Env) (fmcs : FMCSource) (r : VlanInterface)
    (w : World) (h : r.VID = 0) :
    syncVlanInterfacesTaggedVlans env fmcs r w = (.ok [], w) := by
  unfold syncVlanInterfacesTaggedVlans
  simp [h]

theorem syncVlanInterfacesTaggedVlans_vlan (env : Env) (fmcs : FMCSource) (r : VlanInterface)
    (w : World) (vlans : List Vlan) (hvid : r.VID ≠ 0)
    (h : (syncVlanInterfacesTaggedVlans env fmcs r w).1 = .ok vlans) :
    ∃ arg v, vlans = [v] ∧
      ofKind .AddVlan (callsOf (syncVlanInterfacesTaggedVlans env fmcs r) w) =
        [Event.AddVlan arg (.ok v)] ∧
      arg.Vid = r.VID ∧ arg.Name = r.Name := by
  revert h
  unfold callsOf syncVlanInterfacesTaggedVlans
  simp only [hvid]
  repeat' split
  all_goals simp_all [log_record, List.append_assoc, drop_log, ofKind, Event.kind]
  intro h
  subst h
  exact ⟨_, _, rfl, ⟨rfl, rfl⟩, rfl, rfl⟩

theorem syncVlanInterfacesTaggedVlans_fields (env : Env) (fmcs : FMCSource) (r : VlanInterface)
    (w : World) :
    ∀ e ∈ callsOf (syncVlanInterfacesTaggedVlans env fmcs r) w, ∀ arg res,
      e = Event.AddVlan arg res → arg.NetboxObject.CustomFields = [] := by
  unfold callsOf syncVlanInterfacesTaggedVlans
  simp only []
  repeat' split
  all_goals simp_all [log_record, List.append_assoc, drop_log]

theorem syncVlanInterfacesTaggedVlans_table (env : Env) (fmcs : FMCSource) (r : VlanInterface)
    (w : World) :
    (syncVlanInterfacesTaggedVlans env fmcs r w).2.Name2NBInterface = w.Name2NBInterface := by
  unfold syncVlanInterfacesTaggedVlans
  simp only []
  repeat' split
  all_goals rfl

theorem syncSubInterfacesTaggedVlans_kinds (env : Env) (fmcs : FMCSource) (r : SubInterface)
    (w : World) :
    ∀ e ∈ callsOf (syncSubInterfacesTaggedVlans env fmcs r) w, e.kind ∈ vlanKinds := by
  unfold callsOf syncSubInterfacesTaggedVlans
  simp only []
  repeat' split
  all_goals simp [log_record, List.append_assoc, drop_log, Event.kind, vlanKinds]

theorem syncSubInterfacesTaggedVlans_error (env : Env) (fmcs : FMCSource) (r : SubInterface)
    (w : World) (msg : Err) (h : (syncSubInterfacesTaggedVlans env fmcs r w).1 = .error msg) :
    ∃ e ∈ callsOf (syncSubInterfacesTaggedVlans env fmcs r) w, e.failed = true := by
  revert h
  unfold callsOf syncSubInterfacesTaggedVlans
  simp only []
  repeat' split
  all_goals simp_all [log_record, List.append_assoc, drop_log, Event.failed, isError]

theorem syncSubInterfacesTaggedVlans_ok (env : Env) (fmcs : FMCSource) (r : SubInterface)
    (w : World) (vlans : List Vlan)
    (h : (syncSubInterfacesTaggedVlans env fmcs r w).1 = .ok vlans) :
    ∀ e ∈ callsOf (syncSubInterfacesTaggedVlans env fmcs r) w, e.failed = false := by
  revert h
  unfold callsOf syncSubInterfacesTaggedVlans
  simp only []
  repeat' split
  all_goals simp_all [log_record, List.append_assoc, drop_log, Event.failed, isError]

theorem syncSubInterfacesTaggedVlans_low (env : Env) (fmcs : FMCSource) (r : SubInterface)
    (w : World) (h : r.VlanID ≤ 1) :
    syncSubInterfacesTaggedVlans env fmcs r w = (.ok [], w) := by
  unfold syncSubInterfacesTaggedVlans
  simp [not_lt.2 h]

theorem syncSubInterfacesTaggedVlans_vlan (env : Env) (fmcs : FMCSource) (r : SubInterface)
    (w : World) (vlans : List Vlan) (hvid : 1 < r.VlanID)
    (h : (syncSubInterfacesTaggedVlans env fmcs r w).1 = .ok vlans) :
    ∃ arg v, vlans = [v] ∧
      ofKind .AddVlan (callsOf (syncSubInterfacesTaggedVlans env fmcs r) w) =
        [Event.AddVlan arg (.ok v)] ∧
      arg.Vid = r.VlanID ∧ arg.Name = r.Name := by
  revert h
  unfold callsOf syncSubInterfacesTaggedVlans
  simp only [hvid]
  repeat' split
  all_goals simp_all [log_record, List.append_assoc, drop_log, ofKind, Event.kind]
  intro h
  subst h
  exact ⟨_, _, rfl, ⟨rfl, rfl⟩, rfl, rfl⟩

theorem syncSubInterfacesTaggedVlans_fields (env : Env) (fmcs : FMCSource) (r : SubInterface)
    (w : World) :
    ∀ e ∈ callsOf (syncSubInterfacesTaggedVlans env fmcs r) w, ∀ arg res,
      e = Event.AddVlan arg res → arg.NetboxObject.CustomFields = [] := by
  unfold callsOf syncSubInterfacesTaggedVlans
  simp only []
  repeat' split
  all_goals simp_all [log_record, List.append_assoc, drop_log]

theorem syncSubInterfacesTaggedVlans_table (env : Env) (fmcs : FMCSource) (r : SubInterface)
    (w : World) :
    (syncSubInterfacesTaggedVlans env fmcs r w).2.Name2NBInterface = w.Name2NBInterface := by
  unfold syncSubInterfacesTaggedVlans
  simp only []
  repeat' split
  all_goals rfl

/-! ## The calls of one loop body -/

theorem syncPhysicalInterfacesBody_calls (env : Env) (fmcs : FMCSource) (nb : Device)
    (r : PhysicalInterface) (w : World) :
    callsOf (syncPhysicalInterfacesBody env fmcs nb r) w =
      Event.AddInterface (syncPhysicalInterfacesArg fmcs nb r)
          (env.AddInterface w.log (syncPhysicalInterfacesArg fmcs nb r)) ::
        (match env.AddInterface w.log (syncPhysicalInterfacesArg fmcs nb r) with
          | .error _ => []
          | .ok nbIface =>
            callsOf (syncPhysicalInterfacesIP env fmcs r nbIface)
              (w.record (.AddInterface (syncPhysicalInterfacesArg fmcs nb r)
                (env.AddInterface w.log (syncPhysicalInterfacesArg fmcs nb r))))) := by
  apply callsOf_eq_of_log
  unfold syncPhysicalInterfacesBody
  simp only []
  cases h : env.AddInterface w.log (syncPhysicalInterfacesArg fmcs nb r) with
  | error e => simp [log_record]
  | ok nbIface =>
    have h2 := syncPhysicalInterfacesIP_appends env fmcs r nbIface
    simp only []
    split
    · simp [log_register, h2 _, log_record]
    · simp [h2 _, log_record]

theorem syncEtherChannelInterfacesBody_calls (env : Env) (fmcs : FMCSource) (nb : Device)
    (r : EtherChannelInterface) (w : World) :
    callsOf (syncEtherChannelInterfacesBody env fmcs nb r) w =
      Event.AddInterface (syncEtherChannelInterfacesArg fmcs nb r)
          (env.AddInterface w.log (syncEtherChannelInterfacesArg fmcs nb r)) ::
        (match env.AddInterface w.log (syncEtherChannelInterfacesArg fmcs nb r) with
          | .error _ => []
          | .ok nbIface =>
            callsOf (syncEtherChannelInterfacesIP env fmcs r nbIface)
              (w.record (.AddInterface (syncEtherChannelInterfacesArg fmcs nb r)
                (env.AddInterface w.log (syncEtherChannelInterfacesArg fmcs nb r))))) := by
  apply callsOf_eq_of_log
  unfold syncEtherChannelInterfacesBody
  simp only []
  cases h : env.AddInterface w.log (syncEtherChannelInterfacesArg fmcs nb r) with
  | error e => simp [log_record]
  | ok nbIface =>
    have h2 := syncEtherChannelInterfacesIP_appends env fmcs r nbIface
    simp only []
    split
    · simp [log_register, h2 _, log_record]
    · simp [h2 _, log_record]

theorem syncVlanInterfacesBody_calls (env : Env) (fmcs : FMCSource) (nb : Device)
    (r : VlanInterface) (w : World) :
    callsOf (syncVlanInterfacesBody env fmcs nb r) w =
      callsOf (syncVlanInterfacesTaggedVlans env fmcs r) w ++
        (match (syncVlanInterfacesTaggedVlans env fmcs r w).1 with
          | .error _ => []
          | .ok vlans =>
            Event.AddInterface (syncVlanInterfacesArg fmcs nb r vlans)
                (env.AddInterface (syncVlanInterfacesTaggedVlans env fmcs r w).2.log
                  (syncVlanInterfacesArg fmcs nb r vlans)) ::
              (match env.AddInterface (syncVlanInterfacesTaggedVlans env fmcs r w).2.log
                  (syncVlanInterfacesArg fmcs nb r vlans) with
                | .error _ => []
                | .ok nbIface =>
                  callsOf (syncVlanInterfacesIP env fmcs r nbIface vlans)
                    ((syncVlanInterfacesTaggedVlans env fmcs r w).2.record
                      (.AddInterface (syncVlanInterfacesArg fmcs nb r vlans)
                        (env.AddInterface (syncVlanInterfacesTaggedVlans env fmcs r w).2.log
                          (syncVlanInterfacesArg fmcs nb r vlans)))))) := by
  apply callsOf_eq_of_log
  have h1 := syncVlanInterfacesTaggedVlans_appends env fmcs r w
  unfold syncVlanInterfacesBody
  simp only []
  cases hv : (syncVlanInterfacesTaggedVlans env fmcs r w).1 with
  | error e => simp [h1]
  | ok vlans =>
    simp only []
    cases h : env.AddInterface (syncVlanInterfacesTaggedVlans env fmcs r w).2.log
        (syncVlanInterfacesArg fmcs nb r vlans) with
    | error e => simp [log_record, h1]
    | ok nbIface =>
      have h2 := syncVlanInterfacesIP_appends env fmcs r nbIface vlans
      simp only []
      split
      · simp [log_register, h2 _, log_record, h1]
      · simp [h2 _, log_record, h1]

/-! ## The IP address block of each stage -/

theorem syncVlanInterfacesIP_kinds (env : Env) (fmcs : FMCSource) (r : VlanInterface)
    (nbIface : Interface) (vlans : List Vlan) (w : World) :
    ∀ e ∈ callsOf (syncVlanInterfacesIP env fmcs r nbIface vlans) w,
      e.kind = .AddIPAddress ∨ e.kind = .AddPrefix := by
  unfold callsOf syncVlanInterfacesIP
  simp only []
  repeat' split
  all_goals simp [log_record, List.append_assoc, drop_log, Event.kind]

theorem syncVlanInterfacesIP_skip (env : Env) (fmcs : FMCSource) (r : VlanInterface)
    (nbIface : Interface) (vlans : List Vlan) (w : World)
    (h : getIPAddressForIface env r.IPv4 = "" ∨
      env.IsPermittedIPAddress (getIPAddressForIface env r.IPv4)
        fmcs.SourceConfig.PermittedSubnets fmcs.SourceConfig.IgnoredSubnets = false) :
    syncVlanInterfacesIP env fmcs r nbIface vlans w = (.ok, w) := by
  unfold syncVlanInterfacesIP
  rcases h with h | h <;> simp [h]

theorem syncVlanInterfacesIP_table (env : Env) (fmcs : FMCSource) (r : VlanInterface)
    (nbIface : Interface) (vlans : List Vlan) (w : World) :
    (syncVlanInterfacesIP env fmcs r nbIface vlans w).2.Name2NBInterface = w.Name2NBInterface := by
  unfold syncVlanInterfacesIP
  simp only []
  repeat' split
  all_goals rfl

theorem syncSubInterfacesIP_kinds (env : Env) (fmcs : FMCSource) (r : SubInterface)
    (nbIface : Interface) (vlans : List Vlan) (w : World) :
    ∀ e ∈ callsOf (syncSubInterfacesIP env fmcs r nbIface vlans) w,
      e.kind = .AddIPAddress ∨ e.kind = .AddPrefix := by
  unfold callsOf syncSubInterfacesIP
  simp only []
  repeat' split
  all_goals simp [log_record, List.append_assoc, drop_log, Event.kind]

theorem syncSubInterfacesIP_error (env : Env) (fmcs : FMCSource) (r : SubInterface)
    (nbIface : Interface) (vlans : List Vlan) (w : World) (msg : Err)
    (h : (syncSubInterfacesIP env fmcs r nbIface vlans w).1 = .error msg) :
    ∃ e ∈ callsOf (syncSubInterfacesIP env fmcs r nbIface vlans) w, e.failed = true := by
  revert h
  unfold callsOf syncSubInterfacesIP
  simp only []
  repeat' split
  all_goals simp_all [log_record, List.append_assoc, drop_log, Event.failed, isError]

theorem syncSubInterfacesIP_skip (env : Env) (fmcs : FMCSource) (r : SubInterface)
    (nbIface : Interface) (vlans : List Vlan) (w : World)
    (h : getIPAddressForIface env r.IPv4 = "" ∨
      env.IsPermittedIPAddress (getIPAddressForIface env r.IPv4)
        fmcs.SourceConfig.PermittedSubnets fmcs.SourceConfig.IgnoredSubnets = false) :
    syncSubInterfacesIP env fmcs r nbIface vlans w = (.ok, w) := by
  unfold syncSubInterfacesIP
  rcases h with h | h <;> simp [h]

theorem syncSubInterfacesIP_table (env : Env) (fmcs : FMCSource) (r : SubInterface)
    (nbIface : Interface) (vlans : List Vlan) (w : World) :
    (syncSubInterfacesIP env fmcs r nbIface vlans w).2.Name2NBInterface = w.Name2NBInterface := by
  unfold syncSubInterfacesIP
  simp only []
  repeat' split
  all_goals rfl

theorem syncPhysicalInterfacesIP_kinds (env : Env) (fmcs : FMCSource) (r : PhysicalInterface)
    (nbIface : Interface) (w : World) :
    ∀ e ∈ callsOf (syncPhysicalInterfacesIP env fmcs r nbIface) w,
      e.kind = .AddIPAddress := by
  unfold callsOf syncPhysicalInterfacesIP
  simp only []
  repeat' split
  all_goals simp [log_record, List.append_assoc, drop_log, Event.kind]

theorem syncPhysicalInterfacesIP_skip (env : Env) (fmcs : FMCSource) (r : PhysicalInterface)
    (nbIface : Interface) (w : World)
    (h : getIPAddressForIface env r.IPv4 = "" ∨
      env.IsPermittedIPAddress (getIPAddressForIface env r.IPv4)
        fmcs.SourceConfig.PermittedSubnets fmcs.SourceConfig.IgnoredSubnets = false) :
    syncPhysicalInterfacesIP env fmcs r nbIface w = (.ok, w) := by
  unfold syncPhysicalInterfacesIP
  rcases h with h | h <;> simp [h]

theorem syncPhysicalInterfacesIP_table (env : Env) (fmcs : FMCSource) (r : PhysicalInterface)
    (nbIface : Interface) (w : World) :
    (syncPhysicalInterfacesIP env fmcs r nbIface w).2.Name2NBInterface = w.Name2NBInterface := by
  unfold syncPhysicalInterfacesIP
  simp only []
  repeat' split
  all_goals rfl

theorem syncEtherChannelInterfacesIP_kinds (env : Env) (fmcs : FMCSource) (r : EtherChannelInterface)
    (nbIface : Interface) (w : World) :
    ∀ e ∈ callsOf (syncEtherChannelInterfacesIP env fmcs r nbIface) w,
      e.kind = .AddIPAddress := by
  unfold callsOf syncEtherChannelInterfacesIP
  simp only []
  repeat' split
  all_goals simp [log_record, List.append_assoc, drop_log, Event.kind]

theorem syncEtherChannelInterfacesIP_skip (env : Env) (fmcs : FMCSource) (r : EtherChannelInterface)
    (nbIface : Interface) (w : World)
    (h : getIPAddressForIface env r.IPv4 = "" ∨
      env.IsPermittedIPAddress (getIPAddressForIface env r.IPv4)
        fmcs.SourceConfig.PermittedSubnets fmcs.SourceConfig.IgnoredSubnets = false) :
    syncEtherChannelInterfacesIP env fmcs r nbIface w = (.ok, w) := by
  unfold syncEtherChannelInterfacesIP
  rcases h with h | h <;> simp [h]

theorem syncEtherChannelInterfacesIP_table (env : Env) (fmcs : FMCSource) (r : EtherChannelInterface)
    (nbIface : Interface) (w : World) :
    (syncEtherChannelInterfacesIP env fmcs r nbIface w).2.Name2NBInterface = w.Name2NBInterface := by
  unfold syncEtherChannelInterfacesIP
  simp only []
  repeat' split
  all_goals rfl

/-! ## C2: the parent of a sub-interface -/

theorem syncSubInterfacesBody_calls (env : Env) (fmcs : FMCSource) (nb : Device)
    (r : SubInterface) (w : World) :
    callsOf (syncSubInterfacesBody env fmcs nb r) w =
      callsOf (syncSubInterfacesTaggedVlans env fmcs r) w ++
        (match (syncSubInterfacesTaggedVlans env fmcs r w).1 with
          | .error _ => []
          | .ok vlans =>
            Event.AddInterface
                (syncSubInterfacesArg fmcs nb r (w.Name2NBInterface r.ParentName) vlans)
                (env.AddInterface (syncSubInterfacesTaggedVlans env fmcs r w).2.log
                  (syncSubInterfacesArg fmcs nb r (w.Name2NBInterface r.ParentName) vlans)) ::
              (match env.AddInterface (syncSubInterfacesTaggedVlans env fmcs r w).2.log
                  (syncSubInterfacesArg fmcs nb r (w.Name2NBInterface r.ParentName) vlans) with
                | .error _ => []
                | .ok nbIface =>
                  callsOf (syncSubInterfacesIP env fmcs r nbIface vlans)
                    ((syncSubInterfacesTaggedVlans env fmcs r w).2.record
                      (.AddInterface
                        (syncSubInterfacesArg fmcs nb r (w.Name2NBInterface r.ParentName) vlans)
                        (env.AddInterface (syncSubInterfacesTaggedVlans env fmcs r w).2.log
                          (syncSubInterfacesArg fmcs nb r (w.Name2NBInterface r.ParentName)
                            vlans)))))) := by
  apply callsOf_eq_of_log
  have h1 := syncSubInterfacesTaggedVlans_appends env fmcs r w
  have ht := syncSubInterfacesTaggedVlans_table env fmcs r w
  unfold syncSubInterfacesBody
  simp only [ht]
  cases hv : (syncSubInterfacesTaggedVlans env fmcs r w).1 with
  | error e => simp [h1]
  | ok vlans =>
    simp only []
    cases h : env.AddInterface (syncSubInterfacesTaggedVlans env fmcs r w).2.log
        (syncSubInterfacesArg fmcs nb r (w.Name2NBInterface r.ParentName) vlans) with
    | error e => simp [log_record, h1]
    | ok nbIface =>
      have h2 := syncSubInterfacesIP_appends env fmcs r nbIface vlans
      simp [h2 _, log_record, h1]

theorem syncSubInterfacesBody_table (env : Env) (fmcs : FMCSource) (nb : Device)
    (r : SubInterface) (w : World) :
    (syncSubInterfacesBody env fmcs nb r w).2.Name2NBInterface = w.Name2NBInterface := by
  have ht := syncSubInterfacesTaggedVlans_table env fmcs r w
  unfold syncSubInterfacesBody
  simp only []
  split
  · exact ht
  · split
    · exact ht
    · rw [syncSubInterfacesIP_table]
      exact ht

theorem syncSubInterfacesBody_error (env : Env) (fmcs : FMCSource) (nb : Device)
    (r : SubInterface) (w : World) (msg : Err)
    (h : (syncSubInterfacesBody env fmcs nb r w).1 = .error msg) :
    ∃ e ∈ callsOf (syncSubInterfacesBody env fmcs nb r) w, e.failed = true := by
  rw [syncSubInterfacesBody_calls]
  have ht := syncSubInterfacesTaggedVlans_table env fmcs r w
  unfold syncSubInterfacesBody at h
  simp only [ht] at h
  cases hv : (syncSubInterfacesTaggedVlans env fmcs r w).1 with
  | error e =>
    obtain ⟨e', he', hf⟩ := syncSubInterfacesTaggedVlans_error env fmcs r w e hv
    exact ⟨e', List.mem_append_left _ he', hf⟩
  | ok vlans =>
    rw [hv] at h
    simp only [] at h ⊢
    cases ha : env.AddInterface (syncSubInterfacesTaggedVlans env fmcs r w).2.log
        (syncSubInterfacesArg fmcs nb r (w.Name2NBInterface r.ParentName) vlans) with
    | error e =>
      exact ⟨_, List.mem_append_right _ (List.mem_cons_self _ _), by simp [Event.failed, isError]⟩
    | ok nbIface =>
      rw [ha] at h
      simp only [] at h ⊢
      obtain ⟨e', he', hf⟩ := syncSubInterfacesIP_error env fmcs r nbIface vlans _ msg h
      refine ⟨e', List.mem_append_right _ (List.mem_cons_of_mem _ ?_), hf⟩
      exact he'

/-- Counterexample to C2 as stated: the parent `Ethernet9/9` of `exampleOrphanSub` is not in the
table, which is empty, and `AddVlan` fails.  The record ends in the error of `AddVlan` and no
`AddInterface` call is made: the interface is not created, with or without a parent. -/
theorem syncSubInterfaces_parent_counterexample :
    ({} : World).Name2NBInterface exampleOrphanSub.ParentName = none ∧
    (syncSubInterfacesBody exampleEnvNoVlan exampleSource exampleNBDeviceA exampleOrphanSub {}).1
      = .error "add subiface vlan: vlan rejected" ∧
    (callsOf (syncSubInterfacesBody exampleEnvNoVlan exampleSource exampleNBDeviceA
      exampleOrphanSub) {}).map Event.kind
      = [.MatchVlanToSite, .MatchVlanToGroup, .MatchVlanToTenant, .AddVlan] :=
  ⟨rfl, by decide, by decide⟩

/-- C2, as amended. One sub-interface record, processed in any state `w`.  Every `AddInterface`
call made for the record carries as `ParentInterface` exactly what the name-to-interface table
holds under `ParentName`: nothing (nil) when the name is not in the table, the registered
interface when it is.  The call is made whenever no VLAN resolver and no `AddVlan` answered with
an error.  The record ends in an error only if a collaborator answered one of its calls with an
error, so a missing parent produces none.  The table itself is left as it was. -/
theorem syncSubInterfaces_parent (env : Env) (fmcs : FMCSource) (nb : Device)
    (r : SubInterface) (w : World) :
    (∀ arg res, Event.AddInterface arg res ∈ callsOf (syncSubInterfacesBody env fmcs nb r) w →
      arg.ParentInterface = w.Name2NBInterface r.ParentName) ∧
    ((∀ e ∈ callsOf (syncSubInterfacesBody env fmcs nb r) w,
        e.kind ∈ vlanKinds → e.failed = false) →
      ∃ arg res, Event.AddInterface arg res ∈ callsOf (syncSubInterfacesBody env fmcs nb r) w) ∧
    (∀ msg, (syncSubInterfacesBody env fmcs nb r w).1 = .error msg →
      ∃ e ∈ callsOf (syncSubInterfacesBody env fmcs nb r) w, e.failed = true) ∧
    (syncSubInterfacesBody env fmcs nb r w).2.Name2NBInterface = w.Name2NBInterface := by
  refine ⟨?_, ?_, fun msg h => syncSubInterfacesBody_error env fmcs nb r w msg h,
    syncSubInterfacesBody_table env fmcs nb r w⟩
  · intro arg res hmem
    rw [syncSubInterfacesBody_calls] at hmem
    rcases List.mem_append.1 hmem with h1 | h2
    · have := syncSubInterfacesTaggedVlans_kinds env fmcs r w _ h1
      simp [Event.kind, vlanKinds] at this
    · cases hv : (syncSubInterfacesTaggedVlans env fmcs r w).1 with
      | error e => rw [hv] at h2; simp at h2
      | ok vlans =>
        rw [hv] at h2
        simp only [List.mem_cons] at h2
        rcases h2 with h3 | h4
        · injection h3 with h5 _
          rw [h5]
          rfl
        · cases ha : env.AddInterface (syncSubInterfacesTaggedVlans env fmcs r w).2.log
              (syncSubInterfacesArg fmcs nb r (w.Name2NBInterface r.ParentName) vlans) with
          | error e => rw [ha] at h4; simp at h4
          | ok nbIface =>
            rw [ha] at h4
            have := syncSubInterfacesIP_kinds env fmcs r nbIface vlans _ _ h4
            simp [Event.kind] at this
  · intro hno
    rw [syncSubInterfacesBody_calls] at hno ⊢
    cases hv : (syncSubInterfacesTaggedVlans env fmcs r w).1 with
    | error e =>
      obtain ⟨e', he', hf⟩ := syncSubInterfacesTaggedVlans_error env fmcs r w e hv
      have := hno e' (List.mem_append_left _ he')
        (syncSubInterfacesTaggedVlans_kinds env fmcs r w e' he')
      rw [hf] at this
      exact absurd this (by decide)
    | ok vlans =>
      exact ⟨_, _, List.mem_append_right _ (List.mem_cons_self _ _)⟩

/-- Witness of the amended C2: with an empty table the record `exampleOrphanSub` is synced without error
and its interface is created with no parent. -/
theorem syncSubInterfaces_parent_witness :
    (syncSubInterfacesBody exampleEnv exampleSource exampleNBDeviceA exampleOrphanSub {}).1
      = .ok ∧
    ((callsOf (syncSubInterfacesBody exampleEnv exampleSource exampleNBDeviceA
      exampleOrphanSub) {}).map Event.kind
      = [.MatchVlanToSite, .MatchVlanToGroup, .MatchVlanToTenant, .AddVlan, .AddInterface]) ∧
    (∀ arg res, Event.AddInterface arg res ∈
        callsOf (syncSubInterfacesBody exampleEnv exampleSource exampleNBDeviceA
          exampleOrphanSub) {} →
      arg.ParentInterface = none) :=
  ⟨by decide, by decide,
    (syncSubInterfaces_parent exampleEnv exampleSource exampleNBDeviceA exampleOrphanSub {}).1⟩

/-! ## C3: VLAN IDs that mean "no tagged VLAN" -/

theorem ofKind_append (k : CallKind) (a b : List Event) :
    ofKind k (a ++ b) = ofKind k a ++ ofKind k b := by
  simp [ofKind]

theorem ofKind_eq_nil (k : CallKind) (l : List Event) (h : ∀ e ∈ l, e.kind ≠ k) :
    ofKind k l = [] := by
  simp only [ofKind, List.filter_eq_nil_iff]
  intro e he
  simpa using h e he

theorem ofKind_cons_same (k : CallKind) (e : Event) (l : List Event) (h : e.kind = k) :
    ofKind k (e :: l) = e :: ofKind k l := by
  simp [ofKind, h]

theorem ofKind_cons_other (k : CallKind) (e : Event) (l : List Event) (h : e.kind ≠ k) :
    ofKind k (e :: l) = ofKind k l := by
  simp [ofKind, h]

theorem ofKind_addInterface_cons (arg : Interface) (res : Except Err Interface)
    (l : List Event) :
    ofKind .AddInterface (Event.AddInterface arg res :: l) =
      Event.AddInterface arg res :: ofKind .AddInterface l := rfl

theorem syncVlanInterfacesBody_addInterface (env : Env) (fmcs : FMCSource) (nb : Device)
    (r : VlanInterface) (w : World) (vlans : List Vlan)
    (hv : (syncVlanInterfacesTaggedVlans env fmcs r w).1 = .ok vlans) :
    ofKind .AddInterface (callsOf (syncVlanInterfacesBody env fmcs nb r) w) =
      [Event.AddInterface (syncVlanInterfacesArg fmcs nb r vlans)
        (env.AddInterface (syncVlanInterfacesTaggedVlans env fmcs r w).2.log
          (syncVlanInterfacesArg fmcs nb r vlans))] := by
  rw [syncVlanInterfacesBody_calls, hv, ofKind_append,
    ofKind_eq_nil _ _ (fun e he => by
      have := syncVlanInterfacesTaggedVlans_kinds env fmcs r w e he
      intro hk
      rw [hk] at this
      simp [vlanKinds] at this),
    List.nil_append]
  show ofKind .AddInterface (Event.AddInterface _ _ :: _) = _
  rw [ofKind_addInterface_cons]
  congr 1
  apply ofKind_eq_nil
  intro e he hk
  split at he
  · simp at he
  · have := syncVlanInterfacesIP_kinds env fmcs r _ vlans _ e he
    rw [hk] at this
    simp at this

theorem syncVlanInterfacesBody_addVlan (env : Env) (fmcs : FMCSource) (nb : Device)
    (r : VlanInterface) (w : World) :
    ofKind .AddVlan (callsOf (syncVlanInterfacesBody env fmcs nb r) w) =
      ofKind .AddVlan (callsOf (syncVlanInterfacesTaggedVlans env fmcs r) w) := by
  rw [syncVlanInterfacesBody_calls, ofKind_append]
  suffices h : ∀ l, (∀ e ∈ l, e.kind ≠ .AddVlan) → ofKind .AddVlan
      (callsOf (syncVlanInterfacesTaggedVlans env fmcs r) w) ++ ofKind .AddVlan l =
      ofKind .AddVlan (callsOf (syncVlanInterfacesTaggedVlans env fmcs r) w) by
    apply h
    intro e he hk
    split at he
    · simp at he
    · rcases List.mem_cons.1 he with h1 | h2
      · rw [h1] at hk
        simp [Event.kind] at hk
      · split at h2
        · simp at h2
        · have := syncVlanInterfacesIP_kinds env fmcs r _ _ _ e h2
          rw [hk] at this
          simp at this
  intro l hl
  rw [ofKind_eq_nil _ l hl, List.append_nil]

theorem syncVlanInterfacesTaggedVlans_ok_of_calls (env : Env) (fmcs : FMCSource)
    (r : VlanInterface) (w : World)
    (h : ∀ e ∈ callsOf (syncVlanInterfacesTaggedVlans env fmcs r) w, e.failed = false) :
    ∃ vlans, (syncVlanInterfacesTaggedVlans env fmcs r w).1 = .ok vlans := by
  cases hv : (syncVlanInterfacesTaggedVlans env fmcs r w).1 with
  | ok vlans => exact ⟨vlans, rfl⟩
  | error msg =>
    obtain ⟨e, he, hf⟩ := syncVlanInterfacesTaggedVlans_error env fmcs r w msg hv
    rw [h e he] at hf
    exact absurd hf (by decide)

theorem syncSubInterfacesBody_addInterface (env : Env) (fmcs : FMCSource) (nb : Device)
    (r : SubInterface) (w : World) (vlans : List Vlan)
    (hv : (syncSubInterfacesTaggedVlans env fmcs r w).1 = .ok vlans) :
    ofKind .AddInterface (callsOf (syncSubInterfacesBody env fmcs nb r) w) =
      [Event.AddInterface (syncSubInterfacesArg fmcs nb r (w.Name2NBInterface r.ParentName) vlans)
        (env.AddInterface (syncSubInterfacesTaggedVlans env fmcs r w).2.log
          (syncSubInterfacesArg fmcs nb r (w.Name2NBInterface r.ParentName) vlans))] := by
  rw [syncSubInterfacesBody_calls, hv, ofKind_append,
    ofKind_eq_nil _ _ (fun e he => by
      have := syncSubInterfacesTaggedVlans_kinds env fmcs r w e he
      intro hk
      rw [hk] at this
      simp [vlanKinds] at this),
    List.nil_append]
  show ofKind .AddInterface (Event.AddInterface _ _ :: _) = _
  rw [ofKind_addInterface_cons]
  congr 1
  apply ofKind_eq_nil
  intro e he hk
  split at he
  · simp at he
  · have := syncSubInterfacesIP_kinds env fmcs r _ vlans _ e he
    rw [hk] at this
    simp at this

theorem syncSubInterfacesBody_addVlan (env : Env) (fmcs : FMCSource) (nb : Device)
    (r : SubInterface) (w : World) :
    ofKind .AddVlan (callsOf (syncSubInterfacesBody env fmcs nb r) w) =
      ofKind .AddVlan (callsOf (syncSubInterfacesTaggedVlans env fmcs r) w) := by
  rw [syncSubInterfacesBody_calls, ofKind_append]
  suffices h : ∀ l, (∀ e ∈ l, e.kind ≠ .AddVlan) → ofKind .AddVlan
      (callsOf (syncSubInterfacesTaggedVlans env fmcs r) w) ++ ofKind .AddVlan l =
      ofKind .AddVlan (callsOf (syncSubInterfacesTaggedVlans env fmcs r) w) by
    apply h
    intro e he hk
    split at he
    · simp at he
    · rcases List.mem_cons.1 he with h1 | h2
      · rw [h1] at hk
        simp [Event.kind] at hk
      · split at h2
        · simp at h2
        · have := syncSubInterfacesIP_kinds env fmcs r _ _ _ e h2
          rw [hk] at this
          simp at this
  intro l hl
  rw [ofKind_eq_nil _ l hl, List.append_nil]

theorem syncSubInterfacesTaggedVlans_ok_of_calls (env : Env) (fmcs : FMCSource)
    (r : SubInterface) (w : World)
    (h : ∀ e ∈ callsOf (syncSubInterfacesTaggedVlans env fmcs r) w, e.failed = false) :
    ∃ vlans, (syncSubInterfacesTaggedVlans env fmcs r w).1 = .ok vlans := by
  cases hv : (syncSubInterfacesTaggedVlans env fmcs r w).1 with
  | ok vlans => exact ⟨vlans, rfl⟩
  | error msg =>
    obtain ⟨e, he, hf⟩ := syncSubInterfacesTaggedVlans_error env fmcs r w msg hv
    rw [h e he] at hf
    exact absurd hf (by decide)

/-- C3. A VLAN-interface record with `VID = 0`, and a sub-interface record with `VlanID ≤ 1`:
no `AddVlan` call is made for the record, and the one `AddInterface` call made for it carries an
empty `TaggedVlans`.  Any other `VID` / `VlanID`, when no VLAN resolver and no `AddVlan` answered
with an error: exactly one `AddVlan` call is made, it carries that ID, and the one `AddInterface`
call carries as `TaggedVlans` exactly the VLAN that `AddVlan` answered with. -/
theorem vlan_id_tagging (env : Env) (fmcs : FMCSource) (nb : Device) (w : World) :
    (∀ r : VlanInterface, r.VID = 0 →
      ofKind .AddVlan (callsOf (syncVlanInterfacesBody env fmcs nb r) w) = [] ∧
      ∃ arg res,
        ofKind .AddInterface (callsOf (syncVlanInterfacesBody env fmcs nb r) w) =
          [Event.AddInterface arg res] ∧
        arg.TaggedVlans = []) ∧
    (∀ r : SubInterface, r.VlanID ≤ 1 →
      ofKind .AddVlan (callsOf (syncSubInterfacesBody env fmcs nb r) w) = [] ∧
      ∃ arg res,
        ofKind .AddInterface (callsOf (syncSubInterfacesBody env fmcs nb r) w) =
          [Event.AddInterface arg res] ∧
        arg.TaggedVlans = []) ∧
    (∀ r : VlanInterface, r.VID ≠ 0 →
      (∀ e ∈ callsOf (syncVlanInterfacesBody env fmcs nb r) w,
        e.kind ∈ vlanKinds → e.failed = false) →
      ∃ varg v iarg res,
        ofKind .AddVlan (callsOf (syncVlanInterfacesBody env fmcs nb r) w) =
          [Event.AddVlan varg (.ok v)] ∧
        varg.Vid = r.VID ∧
        ofKind .AddInterface (callsOf (syncVlanInterfacesBody env fmcs nb r) w) =
          [Event.AddInterface iarg res] ∧
        iarg.TaggedVlans = [v]) ∧
    (∀ r : SubInterface, 1 < r.VlanID →
      (∀ e ∈ callsOf (syncSubInterfacesBody env fmcs nb r) w,
        e.kind ∈ vlanKinds → e.failed = false) →
      ∃ varg v iarg res,
        ofKind .AddVlan (callsOf (syncSubInterfacesBody env fmcs nb r) w) =
          [Event.AddVlan varg (.ok v)] ∧
        varg.Vid = r.VlanID ∧
        ofKind .AddInterface (callsOf (syncSubInterfacesBody env fmcs nb r) w) =
          [Event.AddInterface iarg res] ∧
        iarg.TaggedVlans = [v]) := by
  refine ⟨?_, ?_, ?_, ?_⟩
  · intro r h0
    have hz := syncVlanInterfacesTaggedVlans_zero env fmcs r w h0
    have hv : (syncVlanInterfacesTaggedVlans env fmcs r w).1 = .ok [] := by rw [hz]
    refine ⟨?_, _, _, syncVlanInterfacesBody_addInterface env fmcs nb r w [] hv, rfl⟩
    rw [syncVlanInterfacesBody_addVlan]
    simp [callsOf, hz, ofKind]
  · intro r h0
    have hz := syncSubInterfacesTaggedVlans_low env fmcs r w h0
    have hv : (syncSubInterfacesTaggedVlans env fmcs r w).1 = .ok [] := by rw [hz]
    refine ⟨?_, _, _, syncSubInterfacesBody_addInterface env fmcs nb r w [] hv, rfl⟩
    rw [syncSubInterfacesBody_addVlan]
    simp [callsOf, hz, ofKind]
  · intro r hvid hno
    obtain ⟨vlans, hv⟩ := syncVlanInterfacesTaggedVlans_ok_of_calls env fmcs r w (fun e he =>
      hno e (by rw [syncVlanInterfacesBody_calls]; exact List.mem_append_left _ he)
        (syncVlanInterfacesTaggedVlans_kinds env fmcs r w e he))
    obtain ⟨varg, v, hvl, hk, hid, _⟩ :=
      syncVlanInterfacesTaggedVlans_vlan env fmcs r w vlans hvid hv
    refine ⟨varg, v, _, _, ?_, hid, syncVlanInterfacesBody_addInterface env fmcs nb r w vlans hv,
      ?_⟩
    · rw [syncVlanInterfacesBody_addVlan, hk]
    · rw [hvl]
      rfl
  · intro r hvid hno
    obtain ⟨vlans, hv⟩ := syncSubInterfacesTaggedVlans_ok_of_calls env fmcs r w (fun e he =>
      hno e (by rw [syncSubInterfacesBody_calls]; exact List.mem_append_left _ he)
        (syncSubInterfacesTaggedVlans_kinds env fmcs r w e he))
    obtain ⟨varg, v, hvl, hk, hid, _⟩ :=
      syncSubInterfacesTaggedVlans_vlan env fmcs r w vlans hvid hv
    refine ⟨varg, v, _, _, ?_, hid, syncSubInterfacesBody_addInterface env fmcs nb r w vlans hv,
      ?_⟩
    · rw [syncSubInterfacesBody_addVlan, hk]
    · rw [hvl]
      rfl

/-- Witness of C3 on the record `exampleVlanIface` (VLAN ID 10), with collaborators that never
fail. -/
theorem vlan_id_tagging_witness :
    ∃ varg v iarg res,
      ofKind .AddVlan (callsOf (syncVlanInterfacesBody exampleEnv exampleSource exampleNBDeviceA
        exampleVlanIface) {}) = [Event.AddVlan varg (.ok v)] ∧
      varg.Vid = 10 ∧
      ofKind .AddInterface (callsOf (syncVlanInterfacesBody exampleEnv exampleSource
        exampleNBDeviceA exampleVlanIface) {}) = [Event.AddInterface iarg res] ∧
      iarg.TaggedVlans = [v] :=
  (vlan_id_tagging exampleEnv exampleSource exampleNBDeviceA {}).2.2.1 exampleVlanIface
    (by decide) (by decide)

/-! ## C4: one IP address, and a prefix unless the mask is 32 -/

theorem drop_record (w : World) (e : Event) : (w.record e).log.drop w.log.length = [e] :=
  drop_log w.log [e]

theorem drop_record_record (w : World) (e1 e2 : Event) :
    ((w.record e1).record e2).log.drop w.log.length = [e1, e2] := by
  simp [log_record, drop_log]

theorem syncVlanInterfacesIP_attach (env : Env) (fmcs : FMCSource) (r : VlanInterface)
    (nbIface : Interface) (vlans : List Vlan) (w : World) (a : String) (pfx : String)
    (mask : Int)
    (hne : getIPAddressForIface env r.IPv4 ≠ "")
    (hperm : env.IsPermittedIPAddress (getIPAddressForIface env r.IPv4)
      fmcs.SourceConfig.PermittedSubnets fmcs.SourceConfig.IgnoredSubnets = true)
    (hst : staticAddress r.IPv4 = some a)
    (hx : env.GetPrefixAndMaskFromIPAddress (getIPAddressForIface env r.IPv4) = .ok (pfx, mask)) :
    ∃ ip res, ip.Address = getIPAddressForIface env r.IPv4 ∧
      ((isError res = true ∧
          callsOf (syncVlanInterfacesIP env fmcs r nbIface vlans) w =
            [Event.AddIPAddress ip res]) ∨
        (isError res = false ∧ mask = MaxIPv4MaskBits ∧
          callsOf (syncVlanInterfacesIP env fmcs r nbIface vlans) w =
            [Event.AddIPAddress ip res]) ∨
        (isError res = false ∧ mask ≠ MaxIPv4MaskBits ∧ ∃ p res2, p.Prefix = pfx ∧
          callsOf (syncVlanInterfacesIP env fmcs r nbIface vlans) w =
            [Event.AddIPAddress ip res, Event.AddPrefix p res2])) := by
  unfold callsOf syncVlanInterfacesIP
  by_cases hm : mask = MaxIPv4MaskBits
  · simp only [hne, hperm, hst, hx, hm, ne_eq, not_false_eq_true, if_true, not_true_eq_false,
      if_false]
    split
    · rename_i h
      apply Exists.intro
      apply Exists.intro
      refine ⟨?_, Or.inl ⟨?_, ?_⟩⟩
      pick_goal 3
      · exact drop_record _ _
      · rfl
      · rw [h]
        rfl
    · rename_i hok
      apply Exists.intro
      apply Exists.intro
      refine ⟨?_, Or.inr (Or.inl ⟨?_, trivial, ?_⟩)⟩
      pick_goal 3
      · exact drop_record _ _
      · rfl
      · rw [hok]
        rfl
  · simp only [hne, hperm, hst, hx, hm, ne_eq, not_false_eq_true, if_true]
    split
    · rename_i h
      apply Exists.intro
      apply Exists.intro
      refine ⟨?_, Or.inl ⟨?_, ?_⟩⟩
      pick_goal 3
      · exact drop_record _ _
      · rfl
      · rw [h]
        rfl
    · rename_i hok
      split
      all_goals
        apply Exists.intro
        apply Exists.intro
        refine ⟨?_, Or.inr (Or.inr ⟨?_, trivial, ?_⟩)⟩
        pick_goal 3
        · apply Exists.intro
          apply Exists.intro
          refine ⟨?_, ?_⟩
          pick_goal 2
          · exact drop_record_record _ _ _
          · rfl
        · rfl
        · rw [hok]
          rfl

theorem syncSubInterfacesIP_attach (env : Env) (fmcs : FMCSource) (r : SubInterface)
    (nbIface : Interface) (vlans : List Vlan) (w : World) (a : String) (pfx : String)
    (mask : Int)
    (hne : getIPAddressForIface env r.IPv4 ≠ "")
    (hperm : env.IsPermittedIPAddress (getIPAddressForIface env r.IPv4)
      fmcs.SourceConfig.PermittedSubnets fmcs.SourceConfig.IgnoredSubnets = true)
    (hst : staticAddress r.IPv4 = some a)
    (hx : env.GetPrefixAndMaskFromIPAddress (getIPAddressForIface env r.IPv4) = .ok (pfx, mask)) :
    ∃ ip res, ip.Address = getIPAddressForIface env r.IPv4 ∧
      ((isError res = true ∧
          callsOf (syncSubInterfacesIP env fmcs r nbIface vlans) w =
            [Event.AddIPAddress ip res]) ∨
        (isError res = false ∧ mask = MaxIPv4MaskBits ∧
          callsOf (syncSubInterfacesIP env fmcs r nbIface vlans) w =
            [Event.AddIPAddress ip res]) ∨
        (isError res = false ∧ mask ≠ MaxIPv4MaskBits ∧ ∃ p res2, p.Prefix = pfx ∧
          callsOf (syncSubInterfacesIP env fmcs r nbIface vlans) w =
            [Event.AddIPAddress ip res, Event.AddPrefix p res2])) := by
  unfold callsOf syncSubInterfacesIP
  by_cases hm : mask = MaxIPv4MaskBits
  · simp only [hne, hperm, hst, hx, hm, ne_eq, not_false_eq_true, if_true, not_true_eq_false,
      if_false]
    split
    · rename_i h
      apply Exists.intro
      apply Exists.intro
      refine ⟨?_, Or.inl ⟨?_, ?_⟩⟩
      pick_goal 3
      · exact drop_record _ _
      · rfl
      · rw [h]
        rfl
    · rename_i hok
      apply Exists.intro
      apply Exists.intro
      refine ⟨?_, Or.inr (Or.inl ⟨?_, trivial, ?_⟩)⟩
      pick_goal 3
      · exact drop_record _ _
      · rfl
      · rw [hok]
        rfl
  · simp only [hne, hperm, hst, hx, hm, ne_eq, not_false_eq_true, if_true]
    split
    · rename_i h
      apply Exists.intro
      apply Exists.intro
      refine ⟨?_, Or.inl ⟨?_, ?_⟩⟩
      pick_goal 3
      · exact drop_record _ _
      · rfl
      · rw [h]
        rfl
    · rename_i hok
      split
      all_goals
        apply Exists.intro
        apply Exists.intro
        refine ⟨?_, Or.inr (Or.inr ⟨?_, trivial, ?_⟩)⟩
        pick_goal 3
        · apply Exists.intro
          apply Exists.intro
          refine ⟨?_, ?_⟩
          pick_goal 2
          · exact drop_record_record _ _ _
          · rfl
        · rfl
        · rw [hok]
          rfl

theorem syncVlanInterfacesBody_created (env : Env) (fmcs : FMCSource) (nb : Device)
    (r : VlanInterface) (w : World)
    (hno : ∀ e ∈ callsOf (syncVlanInterfacesBody env fmcs nb r) w,
      e.kind ∈ vlanKinds ∨ e.kind = .AddInterface → e.failed = false) :
    ∃ vlans nbIface,
      (syncVlanInterfacesTaggedVlans env fmcs r w).1 = .ok vlans ∧
      env.AddInterface (syncVlanInterfacesTaggedVlans env fmcs r w).2.log
        (syncVlanInterfacesArg fmcs nb r vlans) = .ok nbIface ∧
      callsOf (syncVlanInterfacesBody env fmcs nb r) w =
        callsOf (syncVlanInterfacesTaggedVlans env fmcs r) w ++
          Event.AddInterface (syncVlanInterfacesArg fmcs nb r vlans) (.ok nbIface) ::
            callsOf (syncVlanInterfacesIP env fmcs r nbIface vlans)
              ((syncVlanInterfacesTaggedVlans env fmcs r w).2.record
                (.AddInterface (syncVlanInterfacesArg fmcs nb r vlans) (.ok nbIface))) := by
  obtain ⟨vlans, hv⟩ := syncVlanInterfacesTaggedVlans_ok_of_calls env fmcs r w (fun e he =>
    hno e (by rw [syncVlanInterfacesBody_calls]; exact List.mem_append_left _ he)
      (Or.inl (syncVlanInterfacesTaggedVlans_kinds env fmcs r w e he)))
  have hc := syncVlanInterfacesBody_calls env fmcs nb r w
  rw [hv] at hc
  simp only [] at hc
  cases ha : env.AddInterface (syncVlanInterfacesTaggedVlans env fmcs r w).2.log
      (syncVlanInterfacesArg fmcs nb r vlans) with
  | error e =>
    rw [ha] at hc
    have := hno (Event.AddInterface (syncVlanInterfacesArg fmcs nb r vlans) (.error e))
      (by rw [hc]; exact List.mem_append_right _ (List.mem_cons_self _ _)) (Or.inr rfl)
    simp [Event.failed, isError] at this
  | ok nbIface =>
    rw [ha] at hc
    exact ⟨vlans, nbIface, hv, ha, hc⟩

theorem syncSubInterfacesBody_created (env : Env) (fmcs : FMCSource) (nb : Device)
    (r : SubInterface) (w : World)
    (hno : ∀ e ∈ callsOf (syncSubInterfacesBody env fmcs nb r) w,
      e.kind ∈ vlanKinds ∨ e.kind = .AddInterface → e.failed = false) :
    ∃ vlans nbIface,
      (syncSubInterfacesTaggedVlans env fmcs r w).1 = .ok vlans ∧
      env.AddInterface (syncSubInterfacesTaggedVlans env fmcs r w).2.log
        (syncSubInterfacesArg fmcs nb r (w.Name2NBInterface r.ParentName) vlans) = .ok nbIface ∧
      callsOf (syncSubInterfacesBody env fmcs nb r) w =
        callsOf (syncSubInterfacesTaggedVlans env fmcs r) w ++
          Event.AddInterface (syncSubInterfacesArg fmcs nb r (w.Name2NBInterface r.ParentName) vlans) (.ok nbIface) ::
            callsOf (syncSubInterfacesIP env fmcs r nbIface vlans)
              ((syncSubInterfacesTaggedVlans env fmcs r w).2.record
                (.AddInterface (syncSubInterfacesArg fmcs nb r (w.Name2NBInterface r.ParentName) vlans) (.ok nbIface))) := by
  obtain ⟨vlans, hv⟩ := syncSubInterfacesTaggedVlans_ok_of_calls env fmcs r w (fun e he =>
    hno e (by rw [syncSubInterfacesBody_calls]; exact List.mem_append_left _ he)
      (Or.inl (syncSubInterfacesTaggedVlans_kinds env fmcs r w e he)))
  have hc := syncSubInterfacesBody_calls env fmcs nb r w
  rw [hv] at hc
  simp only [] at hc
  cases ha : env.AddInterface (syncSubInterfacesTaggedVlans env fmcs r w).2.log
      (syncSubInterfacesArg fmcs nb r (w.Name2NBInterface r.ParentName) vlans) with
  | error e =>
    rw [ha] at hc
    have := hno (Event.AddInterface (syncSubInterfacesArg fmcs nb r (w.Name2NBInterface r.ParentName) vlans) (.error e))
      (by rw [hc]; exact List.mem_append_right _ (List.mem_cons_self _ _)) (Or.inr rfl)
    simp [Event.failed, isError] at this
  | ok nbIface =>
    rw [ha] at hc
    exact ⟨vlans, nbIface, hv, ha, hc⟩

theorem ofKind_ip_of_created (k : CallKind) (hk : k = .AddIPAddress ∨ k = .AddPrefix)
    (tv ip : List Event) (arg : Interface) (res : Except Err Interface)
    (htv : ∀ e ∈ tv, e.kind ∈ vlanKinds) :
    ofKind k (tv ++ Event.AddInterface arg res :: ip) = ofKind k ip := by
  rw [ofKind_append, ofKind_eq_nil k tv, List.nil_append, ofKind_cons_other]
  · rcases hk with h | h <;> simp [h, Event.kind]
  · intro e he h
    have := htv e he
    rw [h] at this
    rcases hk with h | h <;> simp [h, vlanKinds] at this

/-- C4, as amended. In the VLAN-interface and the sub-interface stage, take a record for which no
VLAN resolver, no `AddVlan` and no `AddInterface` answered with an error, which has a static
IPv4 entry, whose address is not empty and passes the subnet filter, and whose prefix extraction
succeeds with `(pfx, mask)`.  Then exactly one `AddIPAddress` call is made, with that address;
and when that call is answered without an error, `AddPrefix` is called exactly once, with `pfx`,
if the mask is not 32, and not at all if the mask is 32. -/
theorem ip_prefix_derivation (env : Env) (fmcs : FMCSource) (nb : Device) (w : World) :
    (∀ (r : VlanInterface) (pfx : String) (mask : Int),
      (∀ e ∈ callsOf (syncVlanInterfacesBody env fmcs nb r) w,
        e.kind ∈ vlanKinds ∨ e.kind = .AddInterface → e.failed = false) →
      (staticAddress r.IPv4).isSome = true →
      getIPAddressForIface env r.IPv4 ≠ "" →
      env.IsPermittedIPAddress (getIPAddressForIface env r.IPv4)
        fmcs.SourceConfig.PermittedSubnets fmcs.SourceConfig.IgnoredSubnets = true →
      env.GetPrefixAndMaskFromIPAddress (getIPAddressForIface env r.IPv4) = .ok (pfx, mask) →
      ∃ ip res,
        ofKind .AddIPAddress (callsOf (syncVlanInterfacesBody env fmcs nb r) w) =
          [Event.AddIPAddress ip res] ∧
        ip.Address = getIPAddressForIface env r.IPv4 ∧
        (isError res = false →
          (mask ≠ MaxIPv4MaskBits → ∃ p res2,
            ofKind .AddPrefix (callsOf (syncVlanInterfacesBody env fmcs nb r) w) =
              [Event.AddPrefix p res2] ∧ p.Prefix = pfx) ∧
          (mask = MaxIPv4MaskBits →
            ofKind .AddPrefix (callsOf (syncVlanInterfacesBody env fmcs nb r) w) = []))) ∧
    (∀ (r : SubInterface) (pfx : String) (mask : Int),
      (∀ e ∈ callsOf (syncSubInterfacesBody env fmcs nb r) w,
        e.kind ∈ vlanKinds ∨ e.kind = .AddInterface → e.failed = false) →
      (staticAddress r.IPv4).isSome = true →
      getIPAddressForIface env r.IPv4 ≠ "" →
      env.IsPermittedIPAddress (getIPAddressForIface env r.IPv4)
        fmcs.SourceConfig.PermittedSubnets fmcs.SourceConfig.IgnoredSubnets = true →
      env.GetPrefixAndMaskFromIPAddress (getIPAddressForIface env r.IPv4) = .ok (pfx, mask) →
      ∃ ip res,
        ofKind .AddIPAddress (callsOf (syncSubInterfacesBody env fmcs nb r) w) =
          [Event.AddIPAddress ip res] ∧
        ip.Address = getIPAddressForIface env r.IPv4 ∧
        (isError res = false →
          (mask ≠ MaxIPv4MaskBits → ∃ p res2,
            ofKind .AddPrefix (callsOf (syncSubInterfacesBody env fmcs nb r) w) =
              [Event.AddPrefix p res2] ∧ p.Prefix = pfx) ∧
          (mask = MaxIPv4MaskBits →
            ofKind .AddPrefix (callsOf (syncSubInterfacesBody env fmcs nb r) w) = []))) := by
  refine ⟨?_, ?_⟩
  · intro r pfx mask hno hst hne hperm hx
    obtain ⟨vlans, nbIface, _, _, hc⟩ := syncVlanInterfacesBody_created env fmcs nb r w hno
    obtain ⟨a, ha⟩ := Option.isSome_iff_exists.1 hst
    obtain ⟨ip, res, hip, hcases⟩ := syncVlanInterfacesIP_attach env fmcs r nbIface vlans
      _ a pfx mask hne hperm ha hx
    have hk := syncVlanInterfacesTaggedVlans_kinds env fmcs r w
    rw [hc, ofKind_ip_of_created .AddIPAddress (Or.inl rfl) _ _ _ _ hk,
      ofKind_ip_of_created .AddPrefix (Or.inr rfl) _ _ _ _ hk]
    refine ⟨ip, res, ?_, hip, ?_⟩
    · rcases hcases with ⟨_, h⟩ | ⟨_, _, h⟩ | ⟨_, _, p, res2, _, h⟩ <;> rw [h] <;> rfl
    · intro hres
      rcases hcases with ⟨he, _⟩ | ⟨_, hm, h⟩ | ⟨_, hm, p, res2, hp, h⟩
      · rw [hres] at he
        exact absurd he (by decide)
      · exact ⟨fun hm2 => absurd hm hm2, fun _ => by rw [h]; rfl⟩
      · exact ⟨fun _ => ⟨p, res2, by rw [h]; rfl, hp⟩, fun hm2 => absurd hm2 hm⟩
  · intro r pfx mask hno hst hne hperm hx
    obtain ⟨vlans, nbIface, _, _, hc⟩ := syncSubInterfacesBody_created env fmcs nb r w hno
    obtain ⟨a, ha⟩ := Option.isSome_iff_exists.1 hst
    obtain ⟨ip, res, hip, hcases⟩ := syncSubInterfacesIP_attach env fmcs r nbIface vlans
      _ a pfx mask hne hperm ha hx
    have hk := syncSubInterfacesTaggedVlans_kinds env fmcs r w
    rw [hc, ofKind_ip_of_created .AddIPAddress (Or.inl rfl) _ _ _ _ hk,
      ofKind_ip_of_created .AddPrefix (Or.inr rfl) _ _ _ _ hk]
    refine ⟨ip, res, ?_, hip, ?_⟩
    · rcases hcases with ⟨_, h⟩ | ⟨_, _, h⟩ | ⟨_, _, p, res2, _, h⟩ <;> rw [h] <;> rfl
    · intro hres
      rcases hcases with ⟨he, _⟩ | ⟨_, hm, h⟩ | ⟨_, hm, p, res2, hp, h⟩
      · rw [hres] at he
        exact absurd he (by decide)
      · exact ⟨fun hm2 => absurd hm hm2, fun _ => by rw [h]; rfl⟩
      · exact ⟨fun _ => ⟨p, res2, by rw [h]; rfl, hp⟩, fun hm2 => absurd hm2 hm⟩

/-- Counterexample to C4 as stated: the address `10.0.0.5/24` of `exampleVlanIface` passes the
filter and its prefix extraction succeeds with mask 24, but `AddIPAddress` answers with an error,
the stage returns at once and `AddPrefix` is never called. -/
theorem ip_prefix_counterexample :
    getIPAddressForIface exampleEnvNoIP exampleVlanIface.IPv4 = "10.0.0.5/24" ∧
    exampleEnvNoIP.IsPermittedIPAddress "10.0.0.5/24" exampleSource.SourceConfig.PermittedSubnets
      exampleSource.SourceConfig.IgnoredSubnets = true ∧
    exampleEnvNoIP.GetPrefixAndMaskFromIPAddress "10.0.0.5/24" = .ok ("10.0.0.0/24", 24) ∧
    (24 : Int) ≠ MaxIPv4MaskBits ∧
    (ofKind .AddPrefix (callsOf (syncVlanInterfacesBody exampleEnvNoIP exampleSource
      exampleNBDeviceA exampleVlanIface) {})).length = 0 ∧
    (syncVlanInterfacesBody exampleEnvNoIP exampleSource exampleNBDeviceA exampleVlanIface {}).1
      = .error "add ip address" :=
  ⟨by decide, rfl, rfl, by decide, by decide, by decide⟩

/-- Witness of the amended C4 on `exampleVlanIface` (`10.0.0.5/24`): one IP address and the
prefix `10.0.0.0/24`. -/
theorem ip_prefix_derivation_witness :
    ∃ ip res,
      ofKind .AddIPAddress (callsOf (syncVlanInterfacesBody exampleEnv exampleSource
        exampleNBDeviceA exampleVlanIface) {}) = [Event.AddIPAddress ip res] ∧
      ip.Address = getIPAddressForIface exampleEnv exampleVlanIface.IPv4 ∧
      (isError res = false →
        ((24 : Int) ≠ MaxIPv4MaskBits → ∃ p res2,
          ofKind .AddPrefix (callsOf (syncVlanInterfacesBody exampleEnv exampleSource
            exampleNBDeviceA exampleVlanIface) {}) = [Event.AddPrefix p res2] ∧
          p.Prefix = "10.0.0.0/24") ∧
        ((24 : Int) = MaxIPv4MaskBits →
          ofKind .AddPrefix (callsOf (syncVlanInterfacesBody exampleEnv exampleSource
            exampleNBDeviceA exampleVlanIface) {}) = [])) :=
  (ip_prefix_derivation exampleEnv exampleSource exampleNBDeviceA {}).1 exampleVlanIface
    "10.0.0.0/24" 24 (by decide) (by decide) (by decide) rfl rfl

/-! ## C5: an address that is empty or filtered out -/

theorem callsOf_of_eq {ρ : Type} (f : World → ρ × World) (w : World) (x : ρ)
    (h : f w = (x, w)) : callsOf f w = [] := by
  simp [callsOf, h]

theorem syncPhysicalInterfacesBody_skip (env : Env) (fmcs : FMCSource) (nb : Device)
    (r : PhysicalInterface) (w : World)
    (hskip : getIPAddressForIface env r.IPv4 = "" ∨
      env.IsPermittedIPAddress (getIPAddressForIface env r.IPv4)
        fmcs.SourceConfig.PermittedSubnets fmcs.SourceConfig.IgnoredSubnets = false) :
    callsOf (syncPhysicalInterfacesBody env fmcs nb r) w =
        [Event.AddInterface (syncPhysicalInterfacesArg fmcs nb r)
          (env.AddInterface w.log (syncPhysicalInterfacesArg fmcs nb r))] ∧
      ∀ nbIface, env.AddInterface w.log (syncPhysicalInterfacesArg fmcs nb r) = .ok nbIface →
        syncPhysicalInterfacesBody env fmcs nb r w =
          (.ok, (w.record (.AddInterface (syncPhysicalInterfacesArg fmcs nb r)
            (.ok nbIface))).register r.Name nbIface) := by
  constructor
  · rw [syncPhysicalInterfacesBody_calls]
    cases h : env.AddInterface w.log (syncPhysicalInterfacesArg fmcs nb r) with
    | error e => rfl
    | ok nbIface =>
      simp only []
      rw [callsOf_of_eq _ _ _ (syncPhysicalInterfacesIP_skip env fmcs r nbIface _ hskip)]
  · intro nbIface h
    unfold syncPhysicalInterfacesBody
    simp only [h, syncPhysicalInterfacesIP_skip env fmcs r nbIface _ hskip]

theorem syncEtherChannelInterfacesBody_skip (env : Env) (fmcs : FMCSource) (nb : Device)
    (r : EtherChannelInterface) (w : World)
    (hskip : getIPAddressForIface env r.IPv4 = "" ∨
      env.IsPermittedIPAddress (getIPAddressForIface env r.IPv4)
        fmcs.SourceConfig.PermittedSubnets fmcs.SourceConfig.IgnoredSubnets = false) :
    callsOf (syncEtherChannelInterfacesBody env fmcs nb r) w =
        [Event.AddInterface (syncEtherChannelInterfacesArg fmcs nb r)
          (env.AddInterface w.log (syncEtherChannelInterfacesArg fmcs nb r))] ∧
      ∀ nbIface, env.AddInterface w.log (syncEtherChannelInterfacesArg fmcs nb r) = .ok nbIface →
        syncEtherChannelInterfacesBody env fmcs nb r w =
          (.ok, (w.record (.AddInterface (syncEtherChannelInterfacesArg fmcs nb r)
            (.ok nbIface))).register r.Name nbIface) := by
  constructor
  · rw [syncEtherChannelInterfacesBody_calls]
    cases h : env.AddInterface w.log (syncEtherChannelInterfacesArg fmcs nb r) with
    | error e => rfl
    | ok nbIface =>
      simp only []
      rw [callsOf_of_eq _ _ _ (syncEtherChannelInterfacesIP_skip env fmcs r nbIface _ hskip)]
  · intro nbIface h
    unfold syncEtherChannelInterfacesBody
    simp only [h, syncEtherChannelInterfacesIP_skip env fmcs r nbIface _ hskip]

theorem syncPhysicalInterfacesBody_skip_kinds (env : Env) (fmcs : FMCSource) (nb : Device)
    (r : PhysicalInterface) (w : World)
    (hskip : getIPAddressForIface env r.IPv4 = "" ∨
      env.IsPermittedIPAddress (getIPAddressForIface env r.IPv4)
        fmcs.SourceConfig.PermittedSubnets fmcs.SourceConfig.IgnoredSubnets = false) :
    ∀ e ∈ callsOf (syncPhysicalInterfacesBody env fmcs nb r) w,
      e.kind ∈ vlanKinds ∨ e.kind = .AddInterface := by
  intro e he
  rw [(syncPhysicalInterfacesBody_skip env fmcs nb r w hskip).1] at he
  rw [List.mem_singleton.1 he]
  exact Or.inr rfl

theorem syncEtherChannelInterfacesBody_skip_kinds (env : Env) (fmcs : FMCSource) (nb : Device)
    (r : EtherChannelInterface) (w : World)
    (hskip : getIPAddressForIface env r.IPv4 = "" ∨
      env.IsPermittedIPAddress (getIPAddressForIface env r.IPv4)
        fmcs.SourceConfig.PermittedSubnets fmcs.SourceConfig.IgnoredSubnets = false) :
    ∀ e ∈ callsOf (syncEtherChannelInterfacesBody env fmcs nb r) w,
      e.kind ∈ vlanKinds ∨ e.kind = .AddInterface := by
  intro e he
  rw [(syncEtherChannelInterfacesBody_skip env fmcs nb r w hskip).1] at he
  rw [List.mem_singleton.1 he]
  exact Or.inr rfl

theorem syncVlanInterfacesBody_skip_kinds (env : Env) (fmcs : FMCSource) (nb : Device)
    (r : VlanInterface) (w : World)
    (hskip : getIPAddressForIface env r.IPv4 = "" ∨
      env.IsPermittedIPAddress (getIPAddressForIface env r.IPv4)
        fmcs.SourceConfig.PermittedSubnets fmcs.SourceConfig.IgnoredSubnets = false) :
    ∀ e ∈ callsOf (syncVlanInterfacesBody env fmcs nb r) w,
      e.kind ∈ vlanKinds ∨ e.kind = .AddInterface := by
  intro e he
  rw [syncVlanInterfacesBody_calls] at he
  rcases List.mem_append.1 he with h1 | h2
  · exact Or.inl (syncVlanInterfacesTaggedVlans_kinds env fmcs r w e h1)
  · cases hv : (syncVlanInterfacesTaggedVlans env fmcs r w).1 with
    | error msg => rw [hv] at h2; simp at h2
    | ok vlans =>
      rw [hv] at h2
      rcases List.mem_cons.1 h2 with h3 | h4
      · rw [h3]
        exact Or.inr rfl
      · cases ha : env.AddInterface (syncVlanInterfacesTaggedVlans env fmcs r w).2.log
            (syncVlanInterfacesArg fmcs nb r vlans) with
        | error msg => rw [ha] at h4; simp at h4
        | ok nbIface =>
          rw [ha] at h4
          simp only [] at h4
          rw [callsOf_of_eq _ _ _ (syncVlanInterfacesIP_skip env fmcs r nbIface vlans _ hskip)] at h4
          simp at h4

theorem syncVlanInterfacesBody_skip (env : Env) (fmcs : FMCSource) (nb : Device)
    (r : VlanInterface) (w : World)
    (hskip : getIPAddressForIface env r.IPv4 = "" ∨
      env.IsPermittedIPAddress (getIPAddressForIface env r.IPv4)
        fmcs.SourceConfig.PermittedSubnets fmcs.SourceConfig.IgnoredSubnets = false)
    (vlans : List Vlan) (nbIface : Interface)
    (hv : (syncVlanInterfacesTaggedVlans env fmcs r w).1 = .ok vlans)
    (ha : env.AddInterface (syncVlanInterfacesTaggedVlans env fmcs r w).2.log
      (syncVlanInterfacesArg fmcs nb r vlans) = .ok nbIface) :
    syncVlanInterfacesBody env fmcs nb r w =
      (.ok, ((((syncVlanInterfacesTaggedVlans env fmcs r w).2.record
            (.AddInterface (syncVlanInterfacesArg fmcs nb r vlans) (.ok nbIface))).register r.Name nbIface))) := by
  have ht := syncVlanInterfacesTaggedVlans_table env fmcs r w
  unfold syncVlanInterfacesBody
  simp only [ht, hv, ha, syncVlanInterfacesIP_skip env fmcs r nbIface vlans _ hskip]

theorem syncSubInterfacesBody_skip_kinds (env : Env) (fmcs : FMCSource) (nb : Device)
    (r : SubInterface) (w : World)
    (hskip : getIPAddressForIface env r.IPv4 = "" ∨
      env.IsPermittedIPAddress (getIPAddressForIface env r.IPv4)
        fmcs.SourceConfig.PermittedSubnets fmcs.SourceConfig.IgnoredSubnets = false) :
    ∀ e ∈ callsOf (syncSubInterfacesBody env fmcs nb r) w,
      e.kind ∈ vlanKinds ∨ e.kind = .AddInterface := by
  intro e he
  rw [syncSubInterfacesBody_calls] at he
  rcases List.mem_append.1 he with h1 | h2
  · exact Or.inl (syncSubInterfacesTaggedVlans_kinds env fmcs r w e h1)
  · cases hv : (syncSubInterfacesTaggedVlans env fmcs r w).1 with
    | error msg => rw [hv] at h2; simp at h2
    | ok vlans =>
      rw [hv] at h2
      rcases List.mem_cons.1 h2 with h3 | h4
      · rw [h3]
        exact Or.inr rfl
      · cases ha : env.AddInterface (syncSubInterfacesTaggedVlans env fmcs r w).2.log
            (syncSubInterfacesArg fmcs nb r (w.Name2NBInterface r.ParentName) vlans) with
        | error msg => rw [ha] at h4; simp at h4
        | ok nbIface =>
          rw [ha] at h4
          simp only [] at h4
          rw [callsOf_of_eq _ _ _ (syncSubInterfacesIP_skip env fmcs r nbIface vlans _ hskip)] at h4
          simp at h4

theorem syncSubInterfacesBody_skip (env : Env) (fmcs : FMCSource) (nb : Device)
    (r : SubInterface) (w : World)
    (hskip : getIPAddressForIface env r.IPv4 = "" ∨
      env.IsPermittedIPAddress (getIPAddressForIface env r.IPv4)
        fmcs.SourceConfig.PermittedSubnets fmcs.SourceConfig.IgnoredSubnets = false)
    (vlans : List Vlan) (nbIface : Interface)
    (hv : (syncSubInterfacesTaggedVlans env fmcs r w).1 = .ok vlans)
    (ha : env.AddInterface (syncSubInterfacesTaggedVlans env fmcs r w).2.log
      (syncSubInterfacesArg fmcs nb r (w.Name2NBInterface r.ParentName) vlans) = .ok nbIface) :
    syncSubInterfacesBody env fmcs nb r w =
      (.ok, ((syncSubInterfacesTaggedVlans env fmcs r w).2.record
            (.AddInterface (syncSubInterfacesArg fmcs nb r (w.Name2NBInterface r.ParentName) vlans) (.ok nbIface)))) := by
  have ht := syncSubInterfacesTaggedVlans_table env fmcs r w
  unfold syncSubInterfacesBody
  simp only [ht, hv, ha, syncSubInterfacesIP_skip env fmcs r nbIface vlans _ hskip]

/-- C5, as amended. In each of the four stages, take a record whose address is empty or does not
pass the subnet filter.  No `AddIPAddress` and no `AddPrefix` call is made for it.  When no call
made for the record is answered with an error, the record ends without an error and exactly one
`AddInterface` call was made for it; the physical, the VLAN and the ether-channel stage then
hold the interface the inventory answered with under the name of the record in the
name-to-interface table, and the sub-interface stage leaves the table as it was. -/
theorem filtered_address_skipped (env : Env) (fmcs : FMCSource) (nb : Device) (w : World) :
    (∀ r : PhysicalInterface,
      (getIPAddressForIface env r.IPv4 = "" ∨
        env.IsPermittedIPAddress (getIPAddressForIface env r.IPv4)
          fmcs.SourceConfig.PermittedSubnets fmcs.SourceConfig.IgnoredSubnets = false) →
      ofKind .AddIPAddress (callsOf (syncPhysicalInterfacesBody env fmcs nb r) w) = [] ∧
      ofKind .AddPrefix (callsOf (syncPhysicalInterfacesBody env fmcs nb r) w) = [] ∧
      ((∀ e ∈ callsOf (syncPhysicalInterfacesBody env fmcs nb r) w, e.failed = false) →
        (syncPhysicalInterfacesBody env fmcs nb r w).1 = .ok ∧
        ∃ arg nbIface,
          ofKind .AddInterface (callsOf (syncPhysicalInterfacesBody env fmcs nb r) w) =
            [Event.AddInterface arg (.ok nbIface)] ∧
          (syncPhysicalInterfacesBody env fmcs nb r w).2.Name2NBInterface r.Name = some nbIface)) ∧
    (∀ r : VlanInterface,
      (getIPAddressForIface env r.IPv4 = "" ∨
        env.IsPermittedIPAddress (getIPAddressForIface env r.IPv4)
          fmcs.SourceConfig.PermittedSubnets fmcs.SourceConfig.IgnoredSubnets = false) →
      ofKind .AddIPAddress (callsOf (syncVlanInterfacesBody env fmcs nb r) w) = [] ∧
      ofKind .AddPrefix (callsOf (syncVlanInterfacesBody env fmcs nb r) w) = [] ∧
      ((∀ e ∈ callsOf (syncVlanInterfacesBody env fmcs nb r) w, e.failed = false) →
        (syncVlanInterfacesBody env fmcs nb r w).1 = .ok ∧
        ∃ arg nbIface,
          ofKind .AddInterface (callsOf (syncVlanInterfacesBody env fmcs nb r) w) =
            [Event.AddInterface arg (.ok nbIface)] ∧
          (syncVlanInterfacesBody env fmcs nb r w).2.Name2NBInterface r.Name = some nbIface)) ∧
    (∀ r : EtherChannelInterface,
      (getIPAddressForIface env r.IPv4 = "" ∨
        env.IsPermittedIPAddress (getIPAddressForIface env r.IPv4)
          fmcs.SourceConfig.PermittedSubnets fmcs.SourceConfig.IgnoredSubnets = false) →
      ofKind .AddIPAddress (callsOf (syncEtherChannelInterfacesBody env fmcs nb r) w) = [] ∧
      ofKind .AddPrefix (callsOf (syncEtherChannelInterfacesBody env fmcs nb r) w) = [] ∧
      ((∀ e ∈ callsOf (syncEtherChannelInterfacesBody env fmcs nb r) w, e.failed = false) →
        (syncEtherChannelInterfacesBody env fmcs nb r w).1 = .ok ∧
        ∃ arg nbIface,
          ofKind .AddInterface (callsOf (syncEtherChannelInterfacesBody env fmcs nb r) w) =
            [Event.AddInterface arg (.ok nbIface)] ∧
          (syncEtherChannelInterfacesBody env fmcs nb r w).2.Name2NBInterface r.Name = some nbIface)) ∧
    (∀ r : SubInterface,
      (getIPAddressForIface env r.IPv4 = "" ∨
        env.IsPermittedIPAddress (getIPAddressForIface env r.IPv4)
          fmcs.SourceConfig.PermittedSubnets fmcs.SourceConfig.IgnoredSubnets = false) →
      ofKind .AddIPAddress (callsOf (syncSubInterfacesBody env fmcs nb r) w) = [] ∧
      ofKind .AddPrefix (callsOf (syncSubInterfacesBody env fmcs nb r) w) = [] ∧
      ((∀ e ∈ callsOf (syncSubInterfacesBody env fmcs nb r) w, e.failed = false) →
        (syncSubInterfacesBody env fmcs nb r w).1 = .ok ∧
        ∃ arg nbIface,
          ofKind .AddInterface (callsOf (syncSubInterfacesBody env fmcs nb r) w) =
            [Event.AddInterface arg (.ok nbIface)] ∧
          (syncSubInterfacesBody env fmcs nb r w).2.Name2NBInterface = w.Name2NBInterface)) := by
  refine ⟨?_, ?_, ?_, ?_⟩
  · intro r hskip
    have hk := syncPhysicalInterfacesBody_skip_kinds env fmcs nb r w hskip
    refine ⟨ofKind_eq_nil _ _ (fun e he h => ?_), ofKind_eq_nil _ _ (fun e he h => ?_),
      fun hno => ?_⟩
    · have := hk e he
      rw [h] at this
      simp [vlanKinds] at this
    · have := hk e he
      rw [h] at this
      simp [vlanKinds] at this
    · obtain ⟨hc, hb⟩ := syncPhysicalInterfacesBody_skip env fmcs nb r w hskip
      cases ha : env.AddInterface w.log (syncPhysicalInterfacesArg fmcs nb r) with
      | error msg =>
        have := hno (Event.AddInterface (syncPhysicalInterfacesArg fmcs nb r) (.error msg))
          (by rw [hc, ha]; exact List.mem_singleton.2 rfl)
        simp [Event.failed, isError] at this
      | ok nbIface =>
        rw [hb nbIface ha, hc, ha]
        exact ⟨rfl, _, nbIface, rfl, by simp [World.register]⟩
  · intro r hskip
    have hk := syncVlanInterfacesBody_skip_kinds env fmcs nb r w hskip
    refine ⟨ofKind_eq_nil _ _ (fun e he h => ?_), ofKind_eq_nil _ _ (fun e he h => ?_),
      fun hno => ?_⟩
    · have := hk e he
      rw [h] at this
      simp [vlanKinds] at this
    · have := hk e he
      rw [h] at this
      simp [vlanKinds] at this
    · obtain ⟨vlans, nbIface, hv, ha, _⟩ :=
        syncVlanInterfacesBody_created env fmcs nb r w (fun e he _ => hno e he)
      rw [syncVlanInterfacesBody_addInterface env fmcs nb r w vlans hv, ha,
        syncVlanInterfacesBody_skip env fmcs nb r w hskip vlans nbIface hv ha]
      exact ⟨rfl, _, nbIface, rfl, by simp [World.register]⟩
  · intro r hskip
    have hk := syncEtherChannelInterfacesBody_skip_kinds env fmcs nb r w hskip
    refine ⟨ofKind_eq_nil _ _ (fun e he h => ?_), ofKind_eq_nil _ _ (fun e he h => ?_),
      fun hno => ?_⟩
    · have := hk e he
      rw [h] at this
      simp [vlanKinds] at this
    · have := hk e he
      rw [h] at this
      simp [vlanKinds] at this
    · obtain ⟨hc, hb⟩ := syncEtherChannelInterfacesBody_skip env fmcs nb r w hskip
      cases ha : env.AddInterface w.log (syncEtherChannelInterfacesArg fmcs nb r) with
      | error msg =>
        have := hno (Event.AddInterface (syncEtherChannelInterfacesArg fmcs nb r) (.error msg))
          (by rw [hc, ha]; exact List.mem_singleton.2 rfl)
        simp [Event.failed, isError] at this
      | ok nbIface =>
        rw [hb nbIface ha, hc, ha]
        exact ⟨rfl, _, nbIface, rfl, by simp [World.register]⟩
  · intro r hskip
    have hk := syncSubInterfacesBody_skip_kinds env fmcs nb r w hskip
    refine ⟨ofKind_eq_nil _ _ (fun e he h => ?_), ofKind_eq_nil _ _ (fun e he h => ?_),
      fun hno => ?_⟩
    · have := hk e he
      rw [h] at this
      simp [vlanKinds] at this
    · have := hk e he
      rw [h] at this
      simp [vlanKinds] at this
    · obtain ⟨vlans, nbIface, hv, ha, _⟩ :=
        syncSubInterfacesBody_created env fmcs nb r w (fun e he _ => hno e he)
      rw [syncSubInterfacesBody_addInterface env fmcs nb r w vlans hv, ha,
        syncSubInterfacesBody_skip env fmcs nb r w hskip vlans nbIface hv ha]
      exact ⟨rfl, _, nbIface, rfl, syncSubInterfacesTaggedVlans_table env fmcs r w⟩

/-- Counterexample to C5 as stated: on `exampleSource` the sub-interface `Ethernet1/1.100` has no
address, its interface is created and the sync returns no error, but the sub-interface stage
registers nothing: the table holds the physical interface `Ethernet1/1` and no entry for the
sub-interface. -/
theorem filtered_address_counterexample :
    getIPAddressForIface exampleEnv exampleSub.IPv4 = "" ∧
    (syncDevices exampleEnv exampleSource {}).1 = .ok ∧
    (ofKind .AddInterface (callsOf (syncSubInterfacesBody exampleEnv exampleSource
      exampleNBDeviceA exampleSub) {})).length = 1 ∧
    ((syncDevices exampleEnv exampleSource {}).2.Name2NBInterface "Ethernet1/1").isSome = true ∧
    ((syncDevices exampleEnv exampleSource {}).2.Name2NBInterface exampleSub.Name).isNone
      = true :=
  ⟨by decide, by decide, by decide, by decide, by decide⟩

/-- Witness of the amended C5 on `examplePhysical`, which has no address. -/
theorem filtered_address_skipped_witness :
    (syncPhysicalInterfacesBody exampleEnv exampleSource exampleNBDeviceA examplePhysical {}).1
      = .ok ∧
    ∃ arg nbIface,
      ofKind .AddInterface (callsOf (syncPhysicalInterfacesBody exampleEnv exampleSource
        exampleNBDeviceA examplePhysical) {}) = [Event.AddInterface arg (.ok nbIface)] ∧
      (syncPhysicalInterfacesBody exampleEnv exampleSource exampleNBDeviceA
        examplePhysical {}).2.Name2NBInterface examplePhysical.Name = some nbIface :=
  ((filtered_address_skipped exampleEnv exampleSource exampleNBDeviceA {}).1 examplePhysical
    (Or.inl (by decide))).2.2 (by decide)

/-! ## C6: nothing is created after a failure -/

theorem syncDevicesDeviceRole_kinds (env : Env) (fmcs : FMCSource) (name : String) (w : World) :
    ∀ e ∈ callsOf (syncDevicesDeviceRole env fmcs name) w, e.kind ∈ dependencyKinds := by
  unfold callsOf syncDevicesDeviceRole
  simp only []
  repeat' split
  all_goals simp_all [log_record, List.append_assoc, drop_log, Event.kind, dependencyKinds]

theorem syncDevicesDeviceRole_ok (env : Env) (fmcs : FMCSource) (name : String) (w : World)
    (role : DeviceRole) (h : (syncDevicesDeviceRole env fmcs name w).1 = .ok role) :
    ∀ e ∈ callsOf (syncDevicesDeviceRole env fmcs name) w, e.failed = false := by
  revert h
  unfold callsOf syncDevicesDeviceRole
  simp only []
  repeat' split
  all_goals simp_all [log_record, List.append_assoc, drop_log, Event.failed, isError]

theorem syncDevicesTypeAndTenant_kinds (env : Env) (fmcs : FMCSource) (d : SrcDevice)
    (w : World) :
    ∀ e ∈ callsOf (syncDevicesTypeAndTenant env fmcs d) w, e.kind ∈ dependencyKinds := by
  unfold callsOf syncDevicesTypeAndTenant
  simp only []
  repeat' split
  all_goals simp_all [log_record, List.append_assoc, drop_log, Event.kind, dependencyKinds]

theorem syncDevicesTypeAndTenant_ok (env : Env) (fmcs : FMCSource) (d : SrcDevice) (w : World)
    (x : Manufacturer × DeviceType × Option Tenant)
    (h : (syncDevicesTypeAndTenant env fmcs d w).1 = .ok x) :
    ∀ e ∈ callsOf (syncDevicesTypeAndTenant env fmcs d) w, e.failed = false := by
  revert h
  unfold callsOf syncDevicesTypeAndTenant
  simp only []
  repeat' split
  all_goals simp_all [log_record, List.append_assoc, drop_log, Event.failed, isError]

theorem syncDevicesSiteAndPlatform_kinds (env : Env) (fmcs : FMCSource) (d : SrcDevice)
    (m : Manufacturer) (w : World) :
    ∀ e ∈ callsOf (syncDevicesSiteAndPlatform env fmcs d m) w, e.kind ∈ dependencyKinds := by
  unfold callsOf syncDevicesSiteAndPlatform
  simp only []
  repeat' split
  all_goals simp_all [log_record, List.append_assoc, drop_log, Event.kind, dependencyKinds]

theorem syncDevicesSiteAndPlatform_ok (env : Env) (fmcs : FMCSource) (d : SrcDevice)
    (m : Manufacturer) (w : World) (x : Option Site × Platform)
    (h : (syncDevicesSiteAndPlatform env fmcs d m w).1 = .ok x) :
    ∀ e ∈ callsOf (syncDevicesSiteAndPlatform env fmcs d m) w, e.failed = false := by
  revert h
  unfold callsOf syncDevicesSiteAndPlatform
  simp only []
  repeat' split
  all_goals simp_all [log_record, List.append_assoc, drop_log, Event.failed, isError]

/-- When a call for something the device refers to is answered with an error, lines 21-119
return an error and have made no call but those for what the device refers to. -/
theorem syncDevicesAddDevice_dependency_failed (env : Env) (fmcs : FMCSource) (uuid : String)
    (d : SrcDevice) (w : World) (e : Event)
    (he : e ∈ callsOf (syncDevicesAddDevice env fmcs uuid d) w)
    (hk : e.kind ∈ dependencyKinds) (hf : e.failed = true) :
    (∃ msg, (syncDevicesAddDevice env fmcs uuid d w).1 = .error msg) ∧
      ∀ e' ∈ callsOf (syncDevicesAddDevice env fmcs uuid d) w, e'.kind ∈ dependencyKinds := by
  have hT := syncDevicesTypeAndTenant_kinds env fmcs d w
  rw [syncDevicesAddDevice_calls] at he ⊢
  unfold syncDevicesAddDevice
  simp only []
  cases ht : (syncDevicesTypeAndTenant env fmcs d w).1 with
  | error msg =>
    refine ⟨⟨msg, rfl⟩, fun e' he' => ?_⟩
    simp only [List.append_nil] at he'
    exact hT e' he'
  | ok x =>
    obtain ⟨man, type, tenant⟩ := x
    have hTok := syncDevicesTypeAndTenant_ok env fmcs d w _ ht
    have hR := syncDevicesDeviceRole_kinds env fmcs d.Name
      (syncDevicesTypeAndTenant env fmcs d w).2
    rw [ht] at he
    simp only [] at he ⊢
    cases hr : (syncDevicesDeviceRole env fmcs d.Name
        (syncDevicesTypeAndTenant env fmcs d w).2).1 with
    | error msg =>
      refine ⟨⟨msg, rfl⟩, fun e' he' => ?_⟩
      simp only [List.append_nil] at he'
      rcases List.mem_append.1 he' with h | h
      · exact hT e' h
      · exact hR e' h
    | ok role =>
      have hRok := syncDevicesDeviceRole_ok env fmcs d.Name _ _ hr
      have hS := syncDevicesSiteAndPlatform_kinds env fmcs d man
        (syncDevicesDeviceRole env fmcs d.Name (syncDevicesTypeAndTenant env fmcs d w).2).2
      rw [hr] at he
      simp only [] at he ⊢
      cases hs : (syncDevicesSiteAndPlatform env fmcs d man
          (syncDevicesDeviceRole env fmcs d.Name
            (syncDevicesTypeAndTenant env fmcs d w).2).2).1 with
      | error msg =>
        refine ⟨⟨msg, rfl⟩, fun e' he' => ?_⟩
        simp only [List.append_nil] at he'
        rcases List.mem_append.1 he' with h | h
        · exact hT e' h
        · rcases List.mem_append.1 h with h | h
          · exact hR e' h
          · exact hS e' h
      | ok y =>
        obtain ⟨site, platform⟩ := y
        have hSok := syncDevicesSiteAndPlatform_ok env fmcs d man _ _ hs
        rw [hs] at he
        simp only [] at he
        exfalso
        rcases List.mem_append.1 he with h | h
        · rw [hTok e h] at hf
          exact absurd hf (by decide)
        · rcases List.mem_append.1 h with h | h
          · rw [hRok e h] at hf
            exact absurd hf (by decide)
          · rcases List.mem_append.1 h with h | h
            · rw [hSok e h] at hf
              exact absurd hf (by decide)
            · rw [List.mem_singleton.1 h] at hk
              simp [Event.kind, dependencyKinds] at hk
theorem syncDevicesInterfaces_forall (env : Env) (fmcs : FMCSource) (nb : Device)
    (uuid : String) (P : Event → Prop)
    (hp : ∀ w, ∀ e ∈ callsOf (syncPhysicalInterfaces env fmcs nb uuid) w, P e)
    (hv : ∀ w, ∀ e ∈ callsOf (syncVlanInterfaces env fmcs nb uuid) w, P e)
    (he : ∀ w, ∀ e ∈ callsOf (syncEtherChannelInterfaces env fmcs nb uuid) w, P e)
    (hs : ∀ w, ∀ e ∈ callsOf (syncSubInterfaces env fmcs nb uuid) w, P e) :
    ∀ w, ∀ e ∈ callsOf (syncDevicesInterfaces env fmcs nb uuid) w, P e := by
  intro w e hmem
  have hlog := syncDevicesInterfaces_log env fmcs nb uuid w
  rw [List.append_assoc] at hlog
  rw [callsOf_eq_of_log hlog] at hmem
  rcases List.mem_append.1 hmem with h | h
  · exact hp _ e h
  · split at h
    · rcases List.mem_append.1 h with h | h
      · exact hv _ e h
      · split at h
        · rcases List.mem_append.1 h with h | h
          · exact he _ e h
          · split at h
            · exact hs _ e h
            · simp at h
        · simp at h
    · simp at h

theorem syncDevicesBody_calls (env : Env) (fmcs : FMCSource) (entry : String × SrcDevice)
    (w : World) :
    callsOf (syncDevicesBody env fmcs entry) w =
      if entry.2.Name = "" then []
      else
        callsOf (syncDevicesAddDevice env fmcs entry.1 entry.2) w ++
          (match (syncDevicesAddDevice env fmcs entry.1 entry.2 w).1 with
            | .error _ => []
            | .ok nb =>
              callsOf (syncDevicesInterfaces env fmcs nb entry.1)
                (syncDevicesAddDevice env fmcs entry.1 entry.2 w).2) := by
  apply callsOf_eq_of_log
  have h1 := syncDevicesAddDevice_appends env fmcs entry.1 entry.2 w
  unfold syncDevicesBody
  simp only []
  split
  · simp
  · cases hd : (syncDevicesAddDevice env fmcs entry.1 entry.2 w).1 with
    | error msg => simp [h1]
    | ok nb =>
      simp only []
      rw [syncDevicesInterfaces_appends env fmcs nb entry.1 _, h1, List.append_assoc]

theorem syncPhysicalInterfacesBody_kinds (env : Env) (fmcs : FMCSource) (nb : Device)
    (r : PhysicalInterface) (w : World) :
    ∀ e ∈ callsOf (syncPhysicalInterfacesBody env fmcs nb r) w, e.kind ∈ interfaceStageKinds := by
  intro e he
  rw [syncPhysicalInterfacesBody_calls] at he
  rcases List.mem_cons.1 he with h | h
  · rw [h]
    simp [Event.kind, interfaceStageKinds]
  · split at h
    · simp at h
    · have := syncPhysicalInterfacesIP_kinds env fmcs r _ _ e h
      simp [this, interfaceStageKinds]

theorem syncPhysicalInterfacesBody_interface_failed (env : Env) (fmcs : FMCSource) (nb : Device)
    (r : PhysicalInterface) (w : World) (e : Event)
    (he : e ∈ callsOf (syncPhysicalInterfacesBody env fmcs nb r) w)
    (hk : e.kind = .AddInterface) (hf : e.failed = true) :
    ∀ e' ∈ callsOf (syncPhysicalInterfacesBody env fmcs nb r) w,
      e'.kind ≠ .AddIPAddress ∧ e'.kind ≠ .AddPrefix := by
  rw [syncPhysicalInterfacesBody_calls] at he ⊢
  cases ha : env.AddInterface w.log (syncPhysicalInterfacesArg fmcs nb r) with
  | error msg =>
    intro e' he'
    rw [List.mem_singleton.1 he']
    simp [Event.kind]
  | ok nbIface =>
    exfalso
    rw [ha] at he
    rcases List.mem_cons.1 he with h | h
    · rw [h] at hf
      simp [Event.failed, isError] at hf
    · have := syncPhysicalInterfacesIP_kinds env fmcs r _ _ e h
      rw [hk] at this
      simp at this

theorem syncPhysicalInterfaces_kinds (env : Env) (fmcs : FMCSource) (nb : Device) (uuid : String)
    (w : World) :
    ∀ e ∈ callsOf (syncPhysicalInterfaces env fmcs nb uuid) w, e.kind ∈ interfaceStageKinds := by
  unfold callsOf syncPhysicalInterfaces
  split
  · exact forEach_calls_forall _ (syncPhysicalInterfacesBody_appends env fmcs nb) _ _
      (fun r _ w => syncPhysicalInterfacesBody_kinds env fmcs nb r w) w
  · simp

theorem syncEtherChannelInterfacesBody_kinds (env : Env) (fmcs : FMCSource) (nb : Device)
    (r : EtherChannelInterface) (w : World) :
    ∀ e ∈ callsOf (syncEtherChannelInterfacesBody env fmcs nb r) w, e.kind ∈ interfaceStageKinds := by
  intro e he
  rw [syncEtherChannelInterfacesBody_calls] at he
  rcases List.mem_cons.1 he with h | h
  · rw [h]
    simp [Event.kind, interfaceStageKinds]
  · split at h
    · simp at h
    · have := syncEtherChannelInterfacesIP_kinds env fmcs r _ _ e h
      simp [this, interfaceStageKinds]

theorem syncEtherChannelInterfacesBody_interface_failed (env : Env) (fmcs : FMCSource) (nb : Device)
    (r : EtherChannelInterface) (w : World) (e : Event)
    (he : e ∈ callsOf (syncEtherChannelInterfacesBody env fmcs nb r) w)
    (hk : e.kind = .AddInterface) (hf : e.failed = true) :
    ∀ e' ∈ callsOf (syncEtherChannelInterfacesBody env fmcs nb r) w,
      e'.kind ≠ .AddIPAddress ∧ e'.kind ≠ .AddPrefix := by
  rw [syncEtherChannelInterfacesBody_calls] at he ⊢
  cases ha : env.AddInterface w.log (syncEtherChannelInterfacesArg fmcs nb r) with
  | error msg =>
    intro e' he'
    rw [List.mem_singleton.1 he']
    simp [Event.kind]
  | ok nbIface =>
    exfalso
    rw [ha] at he
    rcases List.mem_cons.1 he with h | h
    · rw [h] at hf
      simp [Event.failed, isError] at hf
    · have := syncEtherChannelInterfacesIP_kinds env fmcs r _ _ e h
      rw [hk] at this
      simp at this

theorem syncEtherChannelInterfaces_kinds (env : Env) (fmcs : FMCSource) (nb : Device) (uuid : String)
    (w : World) :
    ∀ e ∈ callsOf (syncEtherChannelInterfaces env fmcs nb uuid) w, e.kind ∈ interfaceStageKinds := by
  unfold callsOf syncEtherChannelInterfaces
  split
  · exact forEach_calls_forall _ (syncEtherChannelInterfacesBody_appends env fmcs nb) _ _
      (fun r _ w => syncEtherChannelInterfacesBody_kinds env fmcs nb r w) w
  · simp

theorem syncVlanInterfacesBody_kinds (env : Env) (fmcs : FMCSource) (nb : Device)
    (r : VlanInterface) (w : World) :
    ∀ e ∈ callsOf (syncVlanInterfacesBody env fmcs nb r) w, e.kind ∈ interfaceStageKinds := by
  intro e he
  rw [syncVlanInterfacesBody_calls] at he
  rcases List.mem_append.1 he with h | h
  · have := syncVlanInterfacesTaggedVlans_kinds env fmcs r w e h
    simp only [vlanKinds, List.mem_cons, List.mem_singleton, List.not_mem_nil, or_false] at this
    rcases this with h | h | h | h <;> simp [h, interfaceStageKinds]
  · split at h
    · simp at h
    · rcases List.mem_cons.1 h with h | h
      · rw [h]
        simp [Event.kind, interfaceStageKinds]
      · split at h
        · simp at h
        · rcases syncVlanInterfacesIP_kinds env fmcs r _ _ _ e h with h | h <;>
            simp [h, interfaceStageKinds]

theorem syncVlanInterfacesBody_vlan_failed (env : Env) (fmcs : FMCSource) (nb : Device)
    (r : VlanInterface) (w : World) (e : Event)
    (he : e ∈ callsOf (syncVlanInterfacesBody env fmcs nb r) w)
    (hk : e.kind ∈ vlanKinds) (hf : e.failed = true) :
    ∀ e' ∈ callsOf (syncVlanInterfacesBody env fmcs nb r) w, e'.kind ≠ .AddInterface := by
  rw [syncVlanInterfacesBody_calls] at he ⊢
  cases hv : (syncVlanInterfacesTaggedVlans env fmcs r w).1 with
  | error msg =>
    intro e' he' h
    simp only [List.append_nil] at he'
    have := syncVlanInterfacesTaggedVlans_kinds env fmcs r w e' he'
    rw [h] at this
    simp [vlanKinds] at this
  | ok vlans =>
    exfalso
    rw [hv] at he
    rcases List.mem_append.1 he with h | h
    · rw [syncVlanInterfacesTaggedVlans_ok env fmcs r w vlans hv e h] at hf
      exact absurd hf (by decide)
    · rcases List.mem_cons.1 h with h | h
      · rw [h] at hk
        simp [Event.kind, vlanKinds] at hk
      · split at h
        · simp at h
        · rcases syncVlanInterfacesIP_kinds env fmcs r _ _ _ e h with h | h <;>
            (rw [h] at hk; simp [vlanKinds] at hk)

theorem syncVlanInterfacesBody_interface_failed (env : Env) (fmcs : FMCSource) (nb : Device)
    (r : VlanInterface) (w : World) (e : Event)
    (he : e ∈ callsOf (syncVlanInterfacesBody env fmcs nb r) w)
    (hk : e.kind = .AddInterface) (hf : e.failed = true) :
    ∀ e' ∈ callsOf (syncVlanInterfacesBody env fmcs nb r) w,
      e'.kind ≠ .AddIPAddress ∧ e'.kind ≠ .AddPrefix := by
  have hT := syncVlanInterfacesTaggedVlans_kinds env fmcs r w
  rw [syncVlanInterfacesBody_calls] at he ⊢
  cases hv : (syncVlanInterfacesTaggedVlans env fmcs r w).1 with
  | error msg =>
    intro e' he'
    simp only [List.append_nil] at he'
    have := hT e' he'
    constructor <;> (intro h; rw [h] at this; simp [vlanKinds] at this)
  | ok vlans =>
    rw [hv] at he
    simp only [] at he ⊢
    cases ha : env.AddInterface (syncVlanInterfacesTaggedVlans env fmcs r w).2.log
        (syncVlanInterfacesArg fmcs nb r vlans) with
    | error msg =>
      intro e' he'
      rcases List.mem_append.1 he' with h | h
      · have := hT e' h
        constructor <;> (intro h; rw [h] at this; simp [vlanKinds] at this)
      · rw [List.mem_singleton.1 h]
        simp [Event.kind]
    | ok nbIface =>
      exfalso
      rw [ha] at he
      rcases List.mem_append.1 he with h | h
      · have := hT e h
        rw [hk] at this
        simp [vlanKinds] at this
      · rcases List.mem_cons.1 h with h | h
        · rw [h] at hf
          simp [Event.failed, isError] at hf
        · rcases syncVlanInterfacesIP_kinds env fmcs r _ _ _ e h with h | h <;>
            (rw [hk] at h; simp at h)

theorem syncVlanInterfaces_kinds (env : Env) (fmcs : FMCSource) (nb : Device) (uuid : String)
    (w : World) :
    ∀ e ∈ callsOf (syncVlanInterfaces env fmcs nb uuid) w, e.kind ∈ interfaceStageKinds := by
  unfold callsOf syncVlanInterfaces
  split
  · exact forEach_calls_forall _ (syncVlanInterfacesBody_appends env fmcs nb) _ _
      (fun r _ w => syncVlanInterfacesBody_kinds env fmcs nb r w) w
  · simp

theorem syncSubInterfacesBody_kinds (env : Env) (fmcs : FMCSource) (nb : Device)
    (r : SubInterface) (w : World) :
    ∀ e ∈ callsOf (syncSubInterfacesBody env fmcs nb r) w, e.kind ∈ interfaceStageKinds := by
  intro e he
  rw [syncSubInterfacesBody_calls] at he
  rcases List.mem_append.1 he with h | h
  · have := syncSubInterfacesTaggedVlans_kinds env fmcs r w e h
    simp only [vlanKinds, List.mem_cons, List.mem_singleton, List.not_mem_nil, or_false] at this
    rcases this with h | h | h | h <;> simp [h, interfaceStageKinds]
  · split at h
    · simp at h
    · rcases List.mem_cons.1 h with h | h
      · rw [h]
        simp [Event.kind, interfaceStageKinds]
      · split at h
        · simp at h
        · rcases syncSubInterfacesIP_kinds env fmcs r _ _ _ e h with h | h <;>
            simp [h, interfaceStageKinds]

theorem syncSubInterfacesBody_vlan_failed (env : Env) (fmcs : FMCSource) (nb : Device)
    (r : SubInterface) (w : World) (e : Event)
    (he : e ∈ callsOf (syncSubInterfacesBody env fmcs nb r) w)
    (hk : e.kind ∈ vlanKinds) (hf : e.failed = true) :
    ∀ e' ∈ callsOf (syncSubInterfacesBody env fmcs nb r) w, e'.kind ≠ .AddInterface := by
  rw [syncSubInterfacesBody_calls] at he ⊢
  cases hv : (syncSubInterfacesTaggedVlans env fmcs r w).1 with
  | error msg =>
    intro e' he' h
    simp only [List.append_nil] at he'
    have := syncSubInterfacesTaggedVlans_kinds env fmcs r w e' he'
    rw [h] at this
    simp [vlanKinds] at this
  | ok vlans =>
    exfalso
    rw [hv] at he
    rcases List.mem_append.1 he with h | h
    · rw [syncSubInterfacesTaggedVlans_ok env fmcs r w vlans hv e h] at hf
      exact absurd hf (by decide)
    · rcases List.mem_cons.1 h with h | h
      · rw [h] at hk
        simp [Event.kind, vlanKinds] at hk
      · split at h
        · simp at h
        · rcases syncSubInterfacesIP_kinds env fmcs r _ _ _ e h with h | h <;>
            (rw [h] at hk; simp [vlanKinds] at hk)

theorem syncSubInterfacesBody_interface_failed (env : Env) (fmcs : FMCSource) (nb : Device)
    (r : SubInterface) (w : World) (e : Event)
    (he : e ∈ callsOf (syncSubInterfacesBody env fmcs nb r) w)
    (hk : e.kind = .AddInterface) (hf : e.failed = true) :
    ∀ e' ∈ callsOf (syncSubInterfacesBody env fmcs nb r) w,
      e'.kind ≠ .AddIPAddress ∧ e'.kind ≠ .AddPrefix := by
  have hT := syncSubInterfacesTaggedVlans_kinds env fmcs r w
  rw [syncSubInterfacesBody_calls] at he ⊢
  cases hv : (syncSubInterfacesTaggedVlans env fmcs r w).1 with
  | error msg =>
    intro e' he'
    simp only [List.append_nil] at he'
    have := hT e' he'
    constructor <;> (intro h; rw [h] at this; simp [vlanKinds] at this)
  | ok vlans =>
    rw [hv] at he
    simp only [] at he ⊢
    cases ha : env.AddInterface (syncSubInterfacesTaggedVlans env fmcs r w).2.log
        (syncSubInterfacesArg fmcs nb r (w.Name2NBInterface r.ParentName) vlans) with
    | error msg =>
      intro e' he'
      rcases List.mem_append.1 he' with h | h
      · have := hT e' h
        constructor <;> (intro h; rw [h] at this; simp [vlanKinds] at this)
      · rw [List.mem_singleton.1 h]
        simp [Event.kind]
    | ok nbIface =>
      exfalso
      rw [ha] at he
      rcases List.mem_append.1 he with h | h
      · have := hT e h
        rw [hk] at this
        simp [vlanKinds] at this
      · rcases List.mem_cons.1 h with h | h
        · rw [h] at hf
          simp [Event.failed, isError] at hf
        · rcases syncSubInterfacesIP_kinds env fmcs r _ _ _ e h with h | h <;>
            (rw [hk] at h; simp at h)

theorem syncSubInterfaces_kinds (env : Env) (fmcs : FMCSource) (nb : Device) (uuid : String)
    (w : World) :
    ∀ e ∈ callsOf (syncSubInterfaces env fmcs nb uuid) w, e.kind ∈ interfaceStageKinds := by
  unfold callsOf syncSubInterfaces
  split
  · exact forEach_calls_forall _ (syncSubInterfacesBody_appends env fmcs nb) _ _
      (fun r _ w => syncSubInterfacesBody_kinds env fmcs nb r w) w
  · simp

theorem syncDevicesInterfaces_kinds (env : Env) (fmcs : FMCSource) (nb : Device)
    (uuid : String) (w : World) :
    ∀ e ∈ callsOf (syncDevicesInterfaces env fmcs nb uuid) w, e.kind ∈ interfaceStageKinds :=
  syncDevicesInterfaces_forall env fmcs nb uuid (fun e => e.kind ∈ interfaceStageKinds)
    (syncPhysicalInterfaces_kinds env fmcs nb uuid)
    (syncVlanInterfaces_kinds env fmcs nb uuid)
    (syncEtherChannelInterfaces_kinds env fmcs nb uuid)
    (syncSubInterfaces_kinds env fmcs nb uuid) w

/-- When a call for something the device refers to fails, the loop body of that device ends
in an error, having made only calls for what the device refers to. -/
theorem syncDevicesBody_dependency_failed (env : Env) (fmcs : FMCSource)
    (entry : String × SrcDevice) (w : World) (e : Event)
    (he : e ∈ callsOf (syncDevicesBody env fmcs entry) w)
    (hk : e.kind ∈ dependencyKinds) (hf : e.failed = true) :
    (∃ msg, (syncDevicesBody env fmcs entry w).1 = .error msg) ∧
      ∀ e' ∈ callsOf (syncDevicesBody env fmcs entry) w, e'.kind ∈ dependencyKinds := by
  rw [syncDevicesBody_calls] at he ⊢
  unfold syncDevicesBody
  by_cases hn : entry.2.Name = ""
  · simp [hn] at he
  · simp only [hn, if_false] at he ⊢
    have hin : e ∈ callsOf (syncDevicesAddDevice env fmcs entry.1 entry.2) w := by
      rcases List.mem_append.1 he with h | h
      · exact h
      · exfalso
        split at h
        · simp at h
        · have := syncDevicesInterfaces_kinds env fmcs _ entry.1 _ e h
          simp only [interfaceStageKinds, List.mem_cons, List.mem_singleton, List.not_mem_nil,
            or_false] at this
          rcases this with h | h | h | h | h | h | h <;>
            (rw [h] at hk; simp [dependencyKinds] at hk)
    obtain ⟨⟨msg, hmsg⟩, hall⟩ :=
      syncDevicesAddDevice_dependency_failed env fmcs entry.1 entry.2 w e hin hk hf
    rw [hmsg]
    exact ⟨⟨msg, rfl⟩, fun e' he' => hall e' (by simpa using he')⟩

/-- C6. (1) Take a device that `syncDevices` reaches.  If a call that creates or resolves
something the device refers to (manufacturer, device type, tenant, role, site, platform) is
answered with an error, `syncDevices` returns an error, the history ends with the calls made
for that device, and none of them is an `AddDevice`, `AddInterface`, `AddVlan`,
`AddIPAddress` or `AddPrefix` call.  (2) In the VLAN and the sub-interface stage, if a VLAN
resolver or `AddVlan` is answered with an error for a record, no `AddInterface` call is made
for that record.  (3) In each of the four stages, if `AddInterface` is answered with an error
for a record, no `AddIPAddress` and no `AddPrefix` call is made for it. -/
theorem no_creation_after_failure (env : Env) (fmcs : FMCSource) :
    (∀ (w w0 : World) (pre post : List (String × SrcDevice)) (entry : String × SrcDevice),
      fmcs.Devices = pre ++ entry :: post →
      forEach (syncDevicesBody env fmcs) pre w = (.ok, w0) →
      (∃ e ∈ callsOf (syncDevicesBody env fmcs entry) w0,
        e.kind ∈ dependencyKinds ∧ e.failed = true) →
      (∃ msg, (syncDevices env fmcs w).1 = .error msg) ∧
      (syncDevices env fmcs w).2.log = w0.log ++ callsOf (syncDevicesBody env fmcs entry) w0 ∧
      ∀ e ∈ callsOf (syncDevicesBody env fmcs entry) w0, e.kind ∉ creationKinds) ∧
    (∀ (nb : Device) (w : World),
      (∀ (r : VlanInterface), ∀ e ∈ callsOf (syncVlanInterfacesBody env fmcs nb r) w,
        e.kind ∈ vlanKinds → e.failed = true →
        ∀ e' ∈ callsOf (syncVlanInterfacesBody env fmcs nb r) w, e'.kind ≠ .AddInterface) ∧
      (∀ (r : SubInterface), ∀ e ∈ callsOf (syncSubInterfacesBody env fmcs nb r) w,
        e.kind ∈ vlanKinds → e.failed = true →
        ∀ e' ∈ callsOf (syncSubInterfacesBody env fmcs nb r) w, e'.kind ≠ .AddInterface)) ∧
    (∀ (nb : Device) (w : World),
      (∀ (r : PhysicalInterface), ∀ e ∈ callsOf (syncPhysicalInterfacesBody env fmcs nb r) w,
        e.kind = .AddInterface → e.failed = true →
        ∀ e' ∈ callsOf (syncPhysicalInterfacesBody env fmcs nb r) w,
          e'.kind ≠ .AddIPAddress ∧ e'.kind ≠ .AddPrefix) ∧
      (∀ (r : VlanInterface), ∀ e ∈ callsOf (syncVlanInterfacesBody env fmcs nb r) w,
        e.kind = .AddInterface → e.failed = true →
        ∀ e' ∈ callsOf (syncVlanInterfacesBody env fmcs nb r) w,
          e'.kind ≠ .AddIPAddress ∧ e'.kind ≠ .AddPrefix) ∧
      (∀ (r : EtherChannelInterface),
        ∀ e ∈ callsOf (syncEtherChannelInterfacesBody env fmcs nb r) w,
        e.kind = .AddInterface → e.failed = true →
        ∀ e' ∈ callsOf (syncEtherChannelInterfacesBody env fmcs nb r) w,
          e'.kind ≠ .AddIPAddress ∧ e'.kind ≠ .AddPrefix) ∧
      (∀ (r : SubInterface), ∀ e ∈ callsOf (syncSubInterfacesBody env fmcs nb r) w,
        e.kind = .AddInterface → e.failed = true →
        ∀ e' ∈ callsOf (syncSubInterfacesBody env fmcs nb r) w,
          e'.kind ≠ .AddIPAddress ∧ e'.kind ≠ .AddPrefix)) := by
  refine ⟨?_, fun nb w => ⟨?_, ?_⟩, fun nb w => ⟨?_, ?_, ?_, ?_⟩⟩
  · intro w w0 pre post entry hdev hpre ⟨e, he, hk, hf⟩
    obtain ⟨⟨msg, hmsg⟩, hall⟩ :=
      syncDevicesBody_dependency_failed env fmcs entry w0 e he hk hf
    have hstop : (syncDevicesBody env fmcs entry w0).1 ≠ .ok := by
      rw [hmsg]
      exact fun h => Outcome.noConfusion h
    have hrun : syncDevices env fmcs w = syncDevicesBody env fmcs entry w0 := by
      unfold syncDevices
      rw [hdev, forEach_append_cons _ pre entry post w w0 hpre, forEach_cons_stop _ _ _ _ hstop]
    rw [hrun]
    refine ⟨⟨msg, hmsg⟩, syncDevicesBody_appends env fmcs entry w0, fun e' he' hc => ?_⟩
    have := hall e' he'
    simp only [creationKinds, List.mem_cons, List.mem_singleton, List.not_mem_nil,
      or_false] at hc
    rcases hc with h | h | h | h | h <;> (rw [h] at this; simp [dependencyKinds] at this)
  · exact fun r e he hk hf => syncVlanInterfacesBody_vlan_failed env fmcs nb r w e he hk hf
  · exact fun r e he hk hf => syncSubInterfacesBody_vlan_failed env fmcs nb r w e he hk hf
  · exact fun r e he hk hf =>
      syncPhysicalInterfacesBody_interface_failed env fmcs nb r w e he hk hf
  · exact fun r e he hk hf => syncVlanInterfacesBody_interface_failed env fmcs nb r w e he hk hf
  · exact fun r e he hk hf =>
      syncEtherChannelInterfacesBody_interface_failed env fmcs nb r w e he hk hf
  · exact fun r e he hk hf => syncSubInterfacesBody_interface_failed env fmcs nb r w e he hk hf

/-- Witness of C6 on `exampleSource` when `AddPlatform` fails: `syncDevices` returns an error and
no device, interface, VLAN, address or prefix was passed to the inventory. -/
theorem no_creation_after_failure_witness :
    (∃ msg, (syncDevices exampleEnvNoPlatform exampleSource {}).1 = .error msg) ∧
    (syncDevices exampleEnvNoPlatform exampleSource {}).2.log =
      ({} : World).log ++
        callsOf (syncDevicesBody exampleEnvNoPlatform exampleSource ("uuid-a", exampleDeviceA))
          {} ∧
    ∀ e ∈ callsOf (syncDevicesBody exampleEnvNoPlatform exampleSource
        ("uuid-a", exampleDeviceA)) {},
      e.kind ∉ creationKinds :=
  (no_creation_after_failure exampleEnvNoPlatform exampleSource).1 {} {} [] []
    ("uuid-a", exampleDeviceA) rfl rfl (by decide)

/-! ## C1: the order of the four stages -/

theorem Outcome.wrap_eq_ok (msg : String) (o : Outcome) : o.wrap msg = .ok ↔ o = .ok := by
  cases o <;> simp [Outcome.wrap]

/-- The four stages of one device return no error exactly when each of them does, and the state
they leave is then the one the sub-interface stage leaves. -/
theorem syncDevicesInterfaces_ok_iff (env : Env) (fmcs : FMCSource) (nb : Device)
    (uuid : String) (w : World) :
    let rp := syncPhysicalInterfaces env fmcs nb uuid w
    let rv := syncVlanInterfaces env fmcs nb uuid rp.2
    let re := syncEtherChannelInterfaces env fmcs nb uuid rv.2
    let rs := syncSubInterfaces env fmcs nb uuid re.2
    ((syncDevicesInterfaces env fmcs nb uuid w).1 = .ok ↔
      rp.1 = .ok ∧ rv.1 = .ok ∧ re.1 = .ok ∧ rs.1 = .ok) ∧
    ((syncDevicesInterfaces env fmcs nb uuid w).1 = .ok →
      (syncDevicesInterfaces env fmcs nb uuid w).2 = rs.2) := by
  intro rp rv re rs
  unfold syncDevicesInterfaces
  simp only []
  by_cases h1 : rp.1 = .ok
  · by_cases h2 : rv.1 = .ok
    · by_cases h3 : re.1 = .ok
      · simp only [rp, rv, re] at h1 h2 h3
        simp [rp, rv, re, rs, h1, h2, h3, Outcome.wrap_eq_ok]
      · simp only [rp, rv, re] at h1 h2 h3
        simp only [rp, rv, re, rs, h1, h2, h3]
        simp [Outcome.wrap_eq_ok, h3]
    · simp only [rp, rv] at h1 h2
      simp only [rp, rv, re, rs, h1, h2]
      simp [Outcome.wrap_eq_ok, h2]
  · simp only [rp] at h1
    simp only [rp, rv, re, rs]
    simp [Outcome.wrap_eq_ok, h1]

/-- The calls of the creation of a device (lines 21-119) are calls for what the device refers
to, and `AddDevice`: none of them is a call of an interface stage. -/
theorem syncDevicesAddDevice_kinds (env : Env) (fmcs : FMCSource) (uuid : String)
    (d : SrcDevice) (w : World) :
    ∀ e ∈ callsOf (syncDevicesAddDevice env fmcs uuid d) w,
      e.kind ∈ dependencyKinds ∨ e.kind = .AddDevice := by
  intro e he
  rw [syncDevicesAddDevice_calls] at he
  rcases List.mem_append.1 he with h | h
  · exact Or.inl (syncDevicesTypeAndTenant_kinds env fmcs d w e h)
  · split at h
    · simp at h
    · rcases List.mem_append.1 h with h | h
      · exact Or.inl (syncDevicesDeviceRole_kinds env fmcs d.Name _ e h)
      · split at h
        · simp at h
        · rcases List.mem_append.1 h with h | h
          · exact Or.inl (syncDevicesSiteAndPlatform_kinds env fmcs d _ _ e h)
          · split at h
            · simp at h
            · rw [List.mem_singleton.1 h]
              exact Or.inr rfl

/-- C1. Take any device that `syncDevices` reaches (the devices before it in the iteration
returned no error, `hpre`).
(1) If the device has a name and is created, then from the moment it is created the history of
calls is exactly: the calls of the physical stage, then those of the VLAN stage, then those of
the ether-channel stage, then those of the sub-interface stage, then the calls for the devices
that follow.  The calls of a stage are there only if every earlier stage of the device returned
no error, otherwise the stage makes no call at all; and the devices that follow are processed
only if the four stages all returned no error, otherwise nothing at all follows the calls of the
stage that failed.
(2) If the device has no name or its creation returns an error, no stage is started: none of the
calls made for the device is a call of an interface stage. -/
theorem syncDevices_stage_order (env : Env) (fmcs : FMCSource) (w : World)
    (pre : List (String × SrcDevice)) (entry : String × SrcDevice)
    (post : List (String × SrcDevice)) (w0 : World)
    (hdev : fmcs.Devices = pre ++ entry :: post)
    (hpre : forEach (syncDevicesBody env fmcs) pre w = (.ok, w0)) :
    (∀ NBDevice wd, entry.2.Name ≠ "" →
      syncDevicesAddDevice env fmcs entry.1 entry.2 w0 = (.ok NBDevice, wd) →
      let rp := syncPhysicalInterfaces env fmcs NBDevice entry.1 wd
      let rv := syncVlanInterfaces env fmcs NBDevice entry.1 rp.2
      let re := syncEtherChannelInterfaces env fmcs NBDevice entry.1 rv.2
      let rs := syncSubInterfaces env fmcs NBDevice entry.1 re.2
      (syncDevices env fmcs w).2.log =
        wd.log ++ callsOf (syncPhysicalInterfaces env fmcs NBDevice entry.1) wd
          ++ (if rp.1 = .ok then callsOf (syncVlanInterfaces env fmcs NBDevice entry.1) rp.2
              else [])
          ++ (if rp.1 = .ok ∧ rv.1 = .ok then
                callsOf (syncEtherChannelInterfaces env fmcs NBDevice entry.1) rv.2 else [])
          ++ (if rp.1 = .ok ∧ rv.1 = .ok ∧ re.1 = .ok then
                callsOf (syncSubInterfaces env fmcs NBDevice entry.1) re.2 else [])
          ++ (if rp.1 = .ok ∧ rv.1 = .ok ∧ re.1 = .ok ∧ rs.1 = .ok then
                callsOf (forEach (syncDevicesBody env fmcs) post) rs.2 else [])) ∧
    ((entry.2.Name = "" ∨
        ∃ m, (syncDevicesAddDevice env fmcs entry.1 entry.2 w0).1 = .error m) →
      ∀ e ∈ callsOf (syncDevicesBody env fmcs entry) w0, e.kind ∉ interfaceStageKinds) := by
  constructor
  · intro NBDevice wd hname hadd rp rv re rs
    have hbody : syncDevicesBody env fmcs entry w0 =
        syncDevicesInterfaces env fmcs NBDevice entry.1 wd := by
      unfold syncDevicesBody
      simp only [hname, if_false, hadd]
    have hlog := syncDevicesInterfaces_stages env fmcs NBDevice entry.1 wd
    have hiff := syncDevicesInterfaces_ok_iff env fmcs NBDevice entry.1 wd
    simp only [] at hlog hiff
    unfold syncDevices
    rw [hdev, forEach_append_cons _ pre entry post w w0 hpre]
    by_cases hok : (syncDevicesBody env fmcs entry w0).1 = .ok
    · have hall := hok
      rw [hbody] at hall
      have hw := hiff.2 hall
      rw [forEach_cons_ok _ _ _ _ hok,
        forEach_appends _ (syncDevicesBody_appends env fmcs) post, hbody, hlog,
        if_pos (hiff.1.1 hall), hw]
    · have hall := hok
      rw [hbody] at hall
      rw [forEach_cons_stop _ _ _ _ hok, hbody, hlog, if_neg (fun h => hall (hiff.1.2 h)),
        List.append_nil]
  · intro h e he hk
    rw [syncDevicesBody_calls] at he
    rcases h with h | ⟨m, hm⟩
    · simp [h] at he
    · split at he
      · simp at he
      · rw [hm] at he
        simp only [List.append_nil] at he
        rcases syncDevicesAddDevice_kinds env fmcs entry.1 entry.2 w0 e he with h1 | h1
        · revert hk h1
          cases e.kind <;> simp [dependencyKinds, interfaceStageKinds]
        · rw [h1] at hk
          simp [interfaceStageKinds] at hk

/-- Witness of C1 on `exampleSource` with collaborators whose `AddIPAddress` fails: the physical
stage returns no error, the VLAN stage fails on the address of `Vlan10`, and the history ends
there: the ether-channel stage and the sub-interface stage make no call. -/
theorem syncDevices_stage_order_witness :
    (let NBDevice := exampleNBDeviceA
     let wd := (syncDevicesAddDevice exampleEnvNoIP exampleSource "uuid-a" exampleDeviceA {}).2
     let rp := syncPhysicalInterfaces exampleEnvNoIP exampleSource NBDevice "uuid-a" wd
     let rv := syncVlanInterfaces exampleEnvNoIP exampleSource NBDevice "uuid-a" rp.2
     let re := syncEtherChannelInterfaces exampleEnvNoIP exampleSource NBDevice "uuid-a" rv.2
     let rs := syncSubInterfaces exampleEnvNoIP exampleSource NBDevice "uuid-a" re.2
     (syncDevices exampleEnvNoIP exampleSource {}).2.log =
       wd.log
         ++ callsOf (syncPhysicalInterfaces exampleEnvNoIP exampleSource NBDevice "uuid-a") wd
         ++ (if rp.1 = .ok then
               callsOf (syncVlanInterfaces exampleEnvNoIP exampleSource NBDevice "uuid-a") rp.2
             else [])
         ++ (if rp.1 = .ok ∧ rv.1 = .ok then
               callsOf (syncEtherChannelInterfaces exampleEnvNoIP exampleSource NBDevice "uuid-a")
                 rv.2
             else [])
         ++ (if rp.1 = .ok ∧ rv.1 = .ok ∧ re.1 = .ok then
               callsOf (syncSubInterfaces exampleEnvNoIP exampleSource NBDevice "uuid-a") re.2
             else [])
         ++ (if rp.1 = .ok ∧ rv.1 = .ok ∧ re.1 = .ok ∧ rs.1 = .ok then
               callsOf (forEach (syncDevicesBody exampleEnvNoIP exampleSource) []) rs.2
             else [])) ∧
    (syncDevices exampleEnvNoIP exampleSource {}).1 =
      .error "sync vlan interfaces: add ip address" ∧
    ((syncDevices exampleEnvNoIP exampleSource {}).2.log.drop
        (syncDevicesAddDevice exampleEnvNoIP exampleSource "uuid-a" exampleDeviceA {}).2.log.length
      ).map Event.kind =
      [.AddInterface, .MatchVlanToSite, .MatchVlanToGroup, .MatchVlanToTenant, .AddVlan,
        .AddInterface, .AddIPAddress] :=
  ⟨(syncDevices_stage_order exampleEnvNoIP exampleSource {} [] ("uuid-a", exampleDeviceA) [] {}
      rfl rfl).1 exampleNBDeviceA
      (syncDevicesAddDevice exampleEnvNoIP exampleSource "uuid-a" exampleDeviceA {}).2
      (by decide) rfl,
    by decide, by decide⟩

/-! ## C7: a hard error ends the whole loop over the devices -/

/-- Counterexample to C7 as stated: `AddDevice` fails for `fw-a`, the first of two devices.
`syncDevices` returns that error and the only `AddDevice` call in the history is the one for
`fw-a`: the device `fw-b`, which is synced without error when it comes first, is not processed. -/
theorem hard_error_counterexample :
    (syncDevices exampleEnvRejectA exampleTwoDevices {}).1 = .error "add device: rejected" ∧
    (syncDevices exampleEnvRejectA exampleTwoDevices {}).2.log.filterMap Event.addedDevice
      = ["fw-a"] ∧
    (syncDevicesBody exampleEnvRejectA exampleTwoDevices ("uuid-b", exampleDeviceB) {}).1
      = .ok :=
  ⟨by decide, by decide, by decide⟩

/-- C7, as amended. When the loop body of a device that `syncDevices` reaches returns an error,
`syncDevices` returns that error at once: the history is the calls made for the devices earlier
in the iteration, then the calls made for that device, and nothing else, so no device later in
the iteration is processed.  The calls made for the failing device stop where it failed: if the
creation of the device failed (lines 21-119), no interface stage made a call; otherwise one of
the four stages did not return normally, and the calls are those of the creation of the device,
then those of the physical stage, then those of each later stage only if every stage before it
returned no error, so the stages after the failing one make no call. -/
theorem hard_error_stops_sync (env : Env) (fmcs : FMCSource) (w w0 : World)
    (pre post : List (String × SrcDevice)) (entry : String × SrcDevice) (msg : Err)
    (hdev : fmcs.Devices = pre ++ entry :: post)
    (hpre : forEach (syncDevicesBody env fmcs) pre w = (.ok, w0))
    (herr : (syncDevicesBody env fmcs entry w0).1 = .error msg) :
    (syncDevices env fmcs w).1 = .error msg ∧
    (syncDevices env fmcs w).2.log =
      w.log ++ callsOf (forEach (syncDevicesBody env fmcs) pre) w ++
        callsOf (syncDevicesBody env fmcs entry) w0 ∧
    (∀ m, (syncDevicesAddDevice env fmcs entry.1 entry.2 w0).1 = .error m →
      callsOf (syncDevicesBody env fmcs entry) w0 =
        callsOf (syncDevicesAddDevice env fmcs entry.1 entry.2) w0) ∧
    (∀ nb, (syncDevicesAddDevice env fmcs entry.1 entry.2 w0).1 = .ok nb →
      let wd := (syncDevicesAddDevice env fmcs entry.1 entry.2 w0).2
      let rp := syncPhysicalInterfaces env fmcs nb entry.1 wd
      let rv := syncVlanInterfaces env fmcs nb entry.1 rp.2
      let re := syncEtherChannelInterfaces env fmcs nb entry.1 rv.2
      let rs := syncSubInterfaces env fmcs nb entry.1 re.2
      ¬ (rp.1 = .ok ∧ rv.1 = .ok ∧ re.1 = .ok ∧ rs.1 = .ok) ∧
      callsOf (syncDevicesBody env fmcs entry) w0 =
        callsOf (syncDevicesAddDevice env fmcs entry.1 entry.2) w0
          ++ callsOf (syncPhysicalInterfaces env fmcs nb entry.1) wd
          ++ (if rp.1 = .ok then callsOf (syncVlanInterfaces env fmcs nb entry.1) rp.2 else [])
          ++ (if rp.1 = .ok ∧ rv.1 = .ok then
                callsOf (syncEtherChannelInterfaces env fmcs nb entry.1) rv.2 else [])
          ++ (if rp.1 = .ok ∧ rv.1 = .ok ∧ re.1 = .ok then
                callsOf (syncSubInterfaces env fmcs nb entry.1) re.2 else [])) := by
  have hstop : (syncDevicesBody env fmcs entry w0).1 ≠ .ok := by
    rw [herr]
    exact fun h => Outcome.noConfusion h
  have hrun : syncDevices env fmcs w = syncDevicesBody env fmcs entry w0 := by
    unfold syncDevices
    rw [hdev, forEach_append_cons _ pre entry post w w0 hpre, forEach_cons_stop _ _ _ _ hstop]
  have h0 := forEach_appends _ (syncDevicesBody_appends env fmcs) pre w
  rw [hpre] at h0
  have hname : entry.2.Name ≠ "" := by
    intro hn
    apply hstop
    unfold syncDevicesBody
    simp [hn]
  refine ⟨by rw [hrun]; exact herr, ?_, ?_, ?_⟩
  · rw [hrun, syncDevicesBody_appends env fmcs entry w0, ← h0]
  · intro m hm
    rw [syncDevicesBody_calls, if_neg hname, hm]
    simp
  · intro nb hnb wd rp rv re rs
    have hbody : syncDevicesBody env fmcs entry w0 =
        syncDevicesInterfaces env fmcs nb entry.1 wd := by
      unfold syncDevicesBody
      simp only [hname, if_false, hnb]
    have hiff := syncDevicesInterfaces_ok_iff env fmcs nb entry.1 wd
    have hlog := syncDevicesInterfaces_stages env fmcs nb entry.1 wd
    simp only [] at hiff hlog
    refine ⟨fun hall => hstop (by rw [hbody]; exact hiff.1.2 hall), ?_⟩
    rw [syncDevicesBody_calls, if_neg hname, hnb]
    simp only []
    have hc : callsOf (syncDevicesInterfaces env fmcs nb entry.1) wd =
        callsOf (syncPhysicalInterfaces env fmcs nb entry.1) wd
          ++ (if rp.1 = .ok then callsOf (syncVlanInterfaces env fmcs nb entry.1) rp.2 else [])
          ++ (if rp.1 = .ok ∧ rv.1 = .ok then
                callsOf (syncEtherChannelInterfaces env fmcs nb entry.1) rv.2 else [])
          ++ (if rp.1 = .ok ∧ rv.1 = .ok ∧ re.1 = .ok then
                callsOf (syncSubInterfaces env fmcs nb entry.1) re.2 else []) :=
      callsOf_eq_of_log (by rw [hlog]; simp only [List.append_assoc])
    rw [hc]
    simp only [List.append_assoc]

/-- Witness of the amended C7 on `exampleTwoDevices` with collaborators whose `AddInterface`
fails: the device `fw-a` is created, its physical stage fails on `Ethernet1/1`, and the history
ends with that `AddInterface` call: the three later stages of `fw-a` make no call and `fw-b` is
not processed. -/
theorem hard_error_stops_sync_witness :
    (syncDevices exampleEnvNoInterface exampleTwoDevices {}).1 =
      .error "sync physical interfaces: add physical interface Ethernet1/1: interface rejected" ∧
    (let wd :=
       (syncDevicesAddDevice exampleEnvNoInterface exampleTwoDevices "uuid-a" exampleDeviceA {}).2
     let rp := syncPhysicalInterfaces exampleEnvNoInterface exampleTwoDevices exampleNBDeviceA
       "uuid-a" wd
     let rv := syncVlanInterfaces exampleEnvNoInterface exampleTwoDevices exampleNBDeviceA
       "uuid-a" rp.2
     let re := syncEtherChannelInterfaces exampleEnvNoInterface exampleTwoDevices exampleNBDeviceA
       "uuid-a" rv.2
     let rs := syncSubInterfaces exampleEnvNoInterface exampleTwoDevices exampleNBDeviceA
       "uuid-a" re.2
     ¬ (rp.1 = .ok ∧ rv.1 = .ok ∧ re.1 = .ok ∧ rs.1 = .ok) ∧
     callsOf (syncDevicesBody exampleEnvNoInterface exampleTwoDevices ("uuid-a", exampleDeviceA))
         {} =
       callsOf (syncDevicesAddDevice exampleEnvNoInterface exampleTwoDevices "uuid-a"
           exampleDeviceA) {}
         ++ callsOf (syncPhysicalInterfaces exampleEnvNoInterface exampleTwoDevices
             exampleNBDeviceA "uuid-a") wd
         ++ (if rp.1 = .ok then
               callsOf (syncVlanInterfaces exampleEnvNoInterface exampleTwoDevices
                 exampleNBDeviceA "uuid-a") rp.2
             else [])
         ++ (if rp.1 = .ok ∧ rv.1 = .ok then
               callsOf (syncEtherChannelInterfaces exampleEnvNoInterface exampleTwoDevices
                 exampleNBDeviceA "uuid-a") rv.2
             else [])
         ++ (if rp.1 = .ok ∧ rv.1 = .ok ∧ re.1 = .ok then
               callsOf (syncSubInterfaces exampleEnvNoInterface exampleTwoDevices
                 exampleNBDeviceA "uuid-a") re.2
             else [])) ∧
    (syncDevices exampleEnvNoInterface exampleTwoDevices {}).2.log.map Event.kind =
      [.AddManufacturer, .AddDeviceType, .MatchHostToTenant, .AddFirewallDeviceRole,
        .MatchHostToSite, .AddPlatform, .AddDevice, .AddInterface] :=
  have h := hard_error_stops_sync exampleEnvNoInterface exampleTwoDevices {} {} []
    [("uuid-b", exampleDeviceB)] ("uuid-a", exampleDeviceA)
    "sync physical interfaces: add physical interface Ethernet1/1: interface rejected" rfl rfl
    (by decide)
  ⟨h.1, h.2.2.2 exampleNBDeviceA rfl, by decide⟩

/-! ## C9: the name-to-interface table is shared by all devices of the source -/

/-- C9 fails on the code. On `exampleTwoDevices` the sub-interface `Ethernet1/1.100` of `fw-b`
names the parent `Ethernet1/1`; `fw-b` has no such interface, but `fw-a`, synced before it,
registered one, and the table is never emptied between two devices: the sub-interface of
`fw-b` is created with the interface of `fw-a` as its parent. -/
theorem parent_from_other_device :
    (syncDevices exampleEnv exampleTwoDevices {}).1 = .ok ∧
    (syncDevices exampleEnv exampleTwoDevices {}).2.log.filterMap Event.interfaceLink =
      [("fw-a", "Ethernet1/1", none), ("fw-b", "Ethernet1/1.100", some "fw-a")] :=
  ⟨by decide, by decide⟩

/-! ## C10: the role of a device -/

theorem syncDevicesDeviceRole_no_rules (env : Env) (fmcs : FMCSource) (name : String)
    (w : World) (h : fmcs.SourceConfig.HostRoleRelations = []) :
    ofKind .MatchHostToRole (callsOf (syncDevicesDeviceRole env fmcs name) w) = [] ∧
    ∀ role, (syncDevicesDeviceRole env fmcs name w).1 = .ok role →
      ofKind .AddFirewallDeviceRole (callsOf (syncDevicesDeviceRole env fmcs name) w) =
        [Event.AddFirewallDeviceRole (.ok role)] := by
  unfold callsOf syncDevicesDeviceRole
  simp only [h, List.length_nil, gt_iff_lt, lt_self_iff_false, if_false]
  split <;> simp_all [log_record, drop_log, ofKind, Event.kind]

theorem syncDevicesDeviceRole_no_match (env : Env) (fmcs : FMCSource) (name : String)
    (w : World) (n : String) (rs : Relations)
    (h : Event.MatchHostToRole n rs (.ok none) ∈ callsOf (syncDevicesDeviceRole env fmcs name) w) :
    ∀ role, (syncDevicesDeviceRole env fmcs name w).1 = .ok role →
      ofKind .AddFirewallDeviceRole (callsOf (syncDevicesDeviceRole env fmcs name) w) =
        [Event.AddFirewallDeviceRole (.ok role)] := by
  revert h
  unfold callsOf syncDevicesDeviceRole
  simp only []
  repeat' split
  all_goals simp_all [log_record, List.append_assoc, drop_log, ofKind, Event.kind]

theorem syncDevicesDeviceRole_match (env : Env) (fmcs : FMCSource) (name : String)
    (w : World) (n : String) (rs : Relations) (role : DeviceRole)
    (h : Event.MatchHostToRole n rs (.ok (some role)) ∈
      callsOf (syncDevicesDeviceRole env fmcs name) w) :
    (syncDevicesDeviceRole env fmcs name w).1 = .ok role ∧
      ofKind .AddFirewallDeviceRole (callsOf (syncDevicesDeviceRole env fmcs name) w) = [] := by
  revert h
  unfold callsOf syncDevicesDeviceRole
  simp only []
  repeat' split
  all_goals simp_all [log_record, List.append_assoc, drop_log, ofKind, Event.kind]

theorem syncDevicesTypeAndTenant_not_role (env : Env) (fmcs : FMCSource) (d : SrcDevice)
    (w : World) :
    ∀ e ∈ callsOf (syncDevicesTypeAndTenant env fmcs d) w,
      e.kind ≠ .MatchHostToRole ∧ e.kind ≠ .AddFirewallDeviceRole ∧ e.kind ≠ .AddDevice := by
  unfold callsOf syncDevicesTypeAndTenant
  simp only []
  repeat' split
  all_goals simp_all [log_record, List.append_assoc, drop_log, Event.kind]

theorem syncDevicesSiteAndPlatform_not_role (env : Env) (fmcs : FMCSource) (d : SrcDevice)
    (m : Manufacturer) (w : World) :
    ∀ e ∈ callsOf (syncDevicesSiteAndPlatform env fmcs d m) w,
      e.kind ≠ .MatchHostToRole ∧ e.kind ≠ .AddFirewallDeviceRole ∧ e.kind ≠ .AddDevice := by
  unfold callsOf syncDevicesSiteAndPlatform
  simp only []
  repeat' split
  all_goals simp_all [log_record, List.append_assoc, drop_log, Event.kind]

theorem syncDevicesDeviceRole_role_kinds (env : Env) (fmcs : FMCSource) (name : String)
    (w : World) :
    ∀ e ∈ callsOf (syncDevicesDeviceRole env fmcs name) w,
      e.kind = .MatchHostToRole ∨ e.kind = .AddFirewallDeviceRole := by
  unfold callsOf syncDevicesDeviceRole
  simp only []
  repeat' split
  all_goals simp_all [log_record, List.append_assoc, drop_log, Event.kind]

/-- The calls of lines 21-119 that concern the role are those of lines 55-74, and the device
passed to `AddDevice` carries the role that lines 55-74 produced. -/
theorem syncDevicesAddDevice_role (env : Env) (fmcs : FMCSource) (uuid : String)
    (d : SrcDevice) (w : World) :
    (∀ k, k = CallKind.MatchHostToRole ∨ k = CallKind.AddFirewallDeviceRole →
      ofKind k (callsOf (syncDevicesAddDevice env fmcs uuid d) w) =
        match (syncDevicesTypeAndTenant env fmcs d w).1 with
        | .error _ => []
        | .ok _ => ofKind k (callsOf (syncDevicesDeviceRole env fmcs d.Name)
            (syncDevicesTypeAndTenant env fmcs d w).2)) ∧
    (∀ arg res, Event.AddDevice arg res ∈ callsOf (syncDevicesAddDevice env fmcs uuid d) w →
      ∃ tt role, (syncDevicesTypeAndTenant env fmcs d w).1 = .ok tt ∧
        (syncDevicesDeviceRole env fmcs d.Name (syncDevicesTypeAndTenant env fmcs d w).2).1 =
          .ok role ∧
        arg.DeviceRole = role) := by
  have hT := syncDevicesTypeAndTenant_not_role env fmcs d w
  have hR := syncDevicesDeviceRole_role_kinds env fmcs d.Name
    (syncDevicesTypeAndTenant env fmcs d w).2
  rw [syncDevicesAddDevice_calls]
  have hTnil : ∀ k, k = CallKind.MatchHostToRole ∨ k = CallKind.AddFirewallDeviceRole →
      ofKind k (callsOf (syncDevicesTypeAndTenant env fmcs d) w) = [] := by
    intro k hk
    apply ofKind_eq_nil
    intro e he h
    have := hT e he
    rcases hk with hk | hk <;> simp_all
  cases ht : (syncDevicesTypeAndTenant env fmcs d w).1 with
  | error msg =>
    refine ⟨fun k hk => by simp [hTnil k hk], fun arg res hmem => ?_⟩
    simp only [List.append_nil] at hmem
    exact absurd rfl (hT _ hmem).2.2
  | ok x =>
    obtain ⟨man, type, tenant⟩ := x
    simp only []
    cases hr : (syncDevicesDeviceRole env fmcs d.Name
        (syncDevicesTypeAndTenant env fmcs d w).2).1 with
    | error msg =>
      refine ⟨fun k hk => by simp [ofKind_append, hTnil k hk], fun arg res hmem => ?_⟩
      simp only [List.append_nil] at hmem
      rcases List.mem_append.1 hmem with h | h
      · exact absurd rfl (hT _ h).2.2
      · have := hR _ h
        simp [Event.kind] at this
    | ok role =>
      simp only []
      have hS := syncDevicesSiteAndPlatform_not_role env fmcs d man
        (syncDevicesDeviceRole env fmcs d.Name (syncDevicesTypeAndTenant env fmcs d w).2).2
      have hSnil : ∀ k, k = CallKind.MatchHostToRole ∨ k = CallKind.AddFirewallDeviceRole →
          ofKind k (callsOf (syncDevicesSiteAndPlatform env fmcs d man)
            (syncDevicesDeviceRole env fmcs d.Name
              (syncDevicesTypeAndTenant env fmcs d w).2).2) = [] := by
        intro k hk
        apply ofKind_eq_nil
        intro e he h
        have := hS e he
        rcases hk with hk | hk <;> simp_all
      cases hs : (syncDevicesSiteAndPlatform env fmcs d man
          (syncDevicesDeviceRole env fmcs d.Name
            (syncDevicesTypeAndTenant env fmcs d w).2).2).1 with
      | error msg =>
        refine ⟨fun k hk => by simp [ofKind_append, hTnil k hk, hSnil k hk],
          fun arg res hmem => ?_⟩
        simp only [List.append_nil] at hmem
        rcases List.mem_append.1 hmem with h | h
        · exact absurd rfl (hT _ h).2.2
        · rcases List.mem_append.1 h with h | h
          · have := hR _ h
            simp [Event.kind] at this
          · exact absurd rfl (hS _ h).2.2
      | ok y =>
        obtain ⟨site, platform⟩ := y
        simp only []
        refine ⟨fun k hk => ?_, fun arg res hmem => ?_⟩
        · rw [ofKind_append, ofKind_append, ofKind_append, hTnil k hk, hSnil k hk]
          rcases hk with hk | hk <;> simp [hk, ofKind, Event.kind]
        · rcases List.mem_append.1 hmem with h | h
          · exact absurd rfl (hT _ h).2.2
          · rcases List.mem_append.1 h with h | h
            · have := hR _ h
              simp [Event.kind] at this
            · rcases List.mem_append.1 h with h | h
              · exact absurd rfl (hS _ h).2.2
              · rw [List.mem_singleton] at h
                injection h with h1 _
                exact ⟨_, role, rfl, rfl, by rw [h1]; rfl⟩

theorem mem_ofKind (k : CallKind) (l : List Event) (e : Event) :
    e ∈ ofKind k l ↔ e ∈ l ∧ e.kind = k := by
  simp [ofKind, List.mem_filter]

theorem syncDevicesTypeAndTenant_error (env : Env) (fmcs : FMCSource) (d : SrcDevice)
    (w : World) (msg : Err) (h : (syncDevicesTypeAndTenant env fmcs d w).1 = .error msg) :
    ∃ e ∈ callsOf (syncDevicesTypeAndTenant env fmcs d) w, e.failed = true := by
  revert h
  unfold callsOf syncDevicesTypeAndTenant
  simp only []
  repeat' split
  all_goals simp_all [log_record, List.append_assoc, drop_log, Event.failed, isError]

theorem syncDevicesDeviceRole_error (env : Env) (fmcs : FMCSource) (name : String)
    (w : World) (msg : Err) (h : (syncDevicesDeviceRole env fmcs name w).1 = .error msg) :
    ∃ e ∈ callsOf (syncDevicesDeviceRole env fmcs name) w, e.failed = true := by
  revert h
  unfold callsOf syncDevicesDeviceRole
  simp only []
  repeat' split
  all_goals simp_all [log_record, List.append_assoc, drop_log, Event.failed, isError]

theorem syncDevicesSiteAndPlatform_error (env : Env) (fmcs : FMCSource) (d : SrcDevice)
    (m : Manufacturer) (w : World) (msg : Err)
    (h : (syncDevicesSiteAndPlatform env fmcs d m w).1 = .error msg) :
    ∃ e ∈ callsOf (syncDevicesSiteAndPlatform env fmcs d m) w, e.failed = true := by
  revert h
  unfold callsOf syncDevicesSiteAndPlatform
  simp only []
  repeat' split
  all_goals simp_all [log_record, List.append_assoc, drop_log, Event.failed, isError]

/-- When every call for what the device refers to is answered without an error, lines 21-119
reach the `AddDevice` call. -/
theorem syncDevicesAddDevice_reached (env : Env) (fmcs : FMCSource) (uuid : String)
    (d : SrcDevice) (w : World)
    (hno : ∀ e ∈ callsOf (syncDevicesAddDevice env fmcs uuid d) w,
      e.kind ∈ dependencyKinds → e.failed = false) :
    ∃ arg res, Event.AddDevice arg res ∈ callsOf (syncDevicesAddDevice env fmcs uuid d) w := by
  rw [syncDevicesAddDevice_calls] at hno ⊢
  cases ht : (syncDevicesTypeAndTenant env fmcs d w).1 with
  | error msg =>
    exfalso
    obtain ⟨e, he, hf⟩ := syncDevicesTypeAndTenant_error env fmcs d w msg ht
    rw [hno e (List.mem_append_left _ he) (syncDevicesTypeAndTenant_kinds env fmcs d w e he)]
      at hf
    exact absurd hf (by decide)
  | ok x =>
    obtain ⟨man, type, tenant⟩ := x
    rw [ht] at hno
    simp only [] at hno ⊢
    cases hr : (syncDevicesDeviceRole env fmcs d.Name
        (syncDevicesTypeAndTenant env fmcs d w).2).1 with
    | error msg =>
      exfalso
      obtain ⟨e, he, hf⟩ := syncDevicesDeviceRole_error env fmcs d.Name _ msg hr
      rw [hno e (List.mem_append_right _ (List.mem_append_left _ he))
        (syncDevicesDeviceRole_kinds env fmcs d.Name _ e he)] at hf
      exact absurd hf (by decide)
    | ok role =>
      rw [hr] at hno
      simp only [] at hno ⊢
      cases hs : (syncDevicesSiteAndPlatform env fmcs d man
          (syncDevicesDeviceRole env fmcs d.Name
            (syncDevicesTypeAndTenant env fmcs d w).2).2).1 with
      | error msg =>
        exfalso
        obtain ⟨e, he, hf⟩ := syncDevicesSiteAndPlatform_error env fmcs d man _ msg hs
        rw [hno e (List.mem_append_right _ (List.mem_append_right _ (List.mem_append_left _ he)))
          (syncDevicesSiteAndPlatform_kinds env fmcs d man _ e he)] at hf
        exact absurd hf (by decide)
      | ok y =>
        obtain ⟨site, platform⟩ := y
        exact ⟨_, _, List.mem_append_right _ (List.mem_append_right _
          (List.mem_append_right _ (List.mem_singleton.2 rfl)))⟩

/-- Among the calls made for one device, those that are not made by the interface stages are
the calls of lines 21-119. -/
theorem syncDevicesBody_ofKind (env : Env) (fmcs : FMCSource) (entry : String × SrcDevice)
    (w : World) (k : CallKind) (hk : k ∉ interfaceStageKinds) :
    ofKind k (callsOf (syncDevicesBody env fmcs entry) w) =
      if entry.2.Name = "" then []
      else ofKind k (callsOf (syncDevicesAddDevice env fmcs entry.1 entry.2) w) := by
  rw [syncDevicesBody_calls]
  split
  · rfl
  · rw [ofKind_append]
    conv_rhs => rw [← List.append_nil (ofKind k _)]
    congr 1
    apply ofKind_eq_nil
    intro e he h
    split at he
    · simp at he
    · have := syncDevicesInterfaces_kinds env fmcs _ entry.1 _ e he
      rw [h] at this
      exact hk this

/-- A call about the role, or the `AddDevice` call, among the calls made for one device: the
device has a name, lines 21-53 succeeded, and for a call about the role the call is one of
lines 55-74. -/
theorem syncDevicesBody_role_call (env : Env) (fmcs : FMCSource) (entry : String × SrcDevice)
    (w : World) (e : Event) (he : e ∈ callsOf (syncDevicesBody env fmcs entry) w)
    (hk : e.kind = .MatchHostToRole ∨ e.kind = .AddFirewallDeviceRole) :
    e ∈ callsOf (syncDevicesDeviceRole env fmcs entry.2.Name)
      (syncDevicesTypeAndTenant env fmcs entry.2 w).2 := by
  have h1 : e ∈ ofKind e.kind (callsOf (syncDevicesBody env fmcs entry) w) :=
    (mem_ofKind _ _ _).2 ⟨he, rfl⟩
  rw [syncDevicesBody_ofKind env fmcs entry w e.kind
    (by rcases hk with h | h <;> simp [h, interfaceStageKinds])] at h1
  split at h1
  · simp at h1
  · rw [(syncDevicesAddDevice_role env fmcs entry.1 entry.2 w).1 e.kind hk] at h1
    split at h1
    · simp at h1
    · exact ((mem_ofKind _ _ _).1 h1).1

theorem syncDevicesBody_role_ofKind (env : Env) (fmcs : FMCSource)
    (entry : String × SrcDevice) (w : World) (k : CallKind)
    (hk : k = .MatchHostToRole ∨ k = .AddFirewallDeviceRole)
    (tt : Manufacturer × DeviceType × Option Tenant) (hn : entry.2.Name ≠ "")
    (ht : (syncDevicesTypeAndTenant env fmcs entry.2 w).1 = .ok tt) :
    ofKind k (callsOf (syncDevicesBody env fmcs entry) w) =
      ofKind k (callsOf (syncDevicesDeviceRole env fmcs entry.2.Name)
        (syncDevicesTypeAndTenant env fmcs entry.2 w).2) := by
  rw [syncDevicesBody_ofKind env fmcs entry w k
    (by rcases hk with h | h <;> simp [h, interfaceStageKinds]), if_neg hn,
    (syncDevicesAddDevice_role env fmcs entry.1 entry.2 w).1 k hk, ht]

theorem syncDevicesBody_device_call (env : Env) (fmcs : FMCSource)
    (entry : String × SrcDevice) (w : World) (arg : Device) (res : Except Err Device)
    (he : Event.AddDevice arg res ∈ callsOf (syncDevicesBody env fmcs entry) w) :
    entry.2.Name ≠ "" ∧
    ∃ tt role, (syncDevicesTypeAndTenant env fmcs entry.2 w).1 = .ok tt ∧
      (syncDevicesDeviceRole env fmcs entry.2.Name
        (syncDevicesTypeAndTenant env fmcs entry.2 w).2).1 = .ok role ∧
      arg.DeviceRole = role := by
  have h1 : Event.AddDevice arg res ∈
      ofKind .AddDevice (callsOf (syncDevicesBody env fmcs entry) w) :=
    (mem_ofKind _ _ _).2 ⟨he, rfl⟩
  rw [syncDevicesBody_ofKind env fmcs entry w .AddDevice (by simp [interfaceStageKinds])] at h1
  split at h1
  · simp at h1
  · rename_i hn
    exact ⟨hn, (syncDevicesAddDevice_role env fmcs entry.1 entry.2 w).2 arg res
      ((mem_ofKind _ _ _).1 h1).1⟩

/-- Counterexample to C10 as stated: no host-role rule is configured and `AddPlatform` fails.
`MatchHostToRole` is not called and `AddFirewallDeviceRole` returns the role `Firewall`, but the
device is not created with that role: `syncDevices` returns the error of `AddPlatform` and
makes no `AddDevice` call. -/
theorem device_role_counterexample :
    exampleSource.SourceConfig.HostRoleRelations = [] ∧
    (syncDevices exampleEnvNoPlatform exampleSource {}).1
      = .error "add platform: platform rejected" ∧
    (syncDevices exampleEnvNoPlatform exampleSource {}).2.log.map Event.kind
      = [.AddManufacturer, .AddDeviceType, .MatchHostToTenant, .AddFirewallDeviceRole,
          .MatchHostToSite, .AddPlatform] :=
  ⟨rfl, by decide, by decide⟩

/-- C10, as amended. The calls made for one device of `fmcs.Devices`, started in any
state.
(1) No host-role rules configured: `MatchHostToRole` is not called, and a device passed to
`AddDevice` carries the role that the one `AddFirewallDeviceRole` call answered with.
(2) `MatchHostToRole` answered with no role and no error: the same.
(3) `MatchHostToRole` answered with a role: `AddFirewallDeviceRole` is not called and a device
passed to `AddDevice` carries that role.
(4) The device is passed to `AddDevice` whenever it has a name and no call for what it refers to
is answered with an error. -/
theorem device_role (env : Env) (fmcs : FMCSource) (entry : String × SrcDevice) (w : World) :
    (fmcs.SourceConfig.HostRoleRelations = [] →
      ofKind .MatchHostToRole (callsOf (syncDevicesBody env fmcs entry) w) = [] ∧
      ∀ arg res, Event.AddDevice arg res ∈ callsOf (syncDevicesBody env fmcs entry) w →
        ofKind .AddFirewallDeviceRole (callsOf (syncDevicesBody env fmcs entry) w) =
          [Event.AddFirewallDeviceRole (.ok arg.DeviceRole)]) ∧
    (∀ n rs, Event.MatchHostToRole n rs (.ok none) ∈
        callsOf (syncDevicesBody env fmcs entry) w →
      ∀ arg res, Event.AddDevice arg res ∈ callsOf (syncDevicesBody env fmcs entry) w →
        ofKind .AddFirewallDeviceRole (callsOf (syncDevicesBody env fmcs entry) w) =
          [Event.AddFirewallDeviceRole (.ok arg.DeviceRole)]) ∧
    (∀ n rs role, Event.MatchHostToRole n rs (.ok (some role)) ∈
        callsOf (syncDevicesBody env fmcs entry) w →
      ofKind .AddFirewallDeviceRole (callsOf (syncDevicesBody env fmcs entry) w) = [] ∧
      ∀ arg res, Event.AddDevice arg res ∈ callsOf (syncDevicesBody env fmcs entry) w →
        arg.DeviceRole = role) ∧
    (entry.2.Name ≠ "" →
      (∀ e ∈ callsOf (syncDevicesBody env fmcs entry) w,
        e.kind ∈ dependencyKinds → e.failed = false) →
      ∃ arg res, Event.AddDevice arg res ∈ callsOf (syncDevicesBody env fmcs entry) w) := by
  refine ⟨fun hrules => ⟨?_, fun arg res hdev => ?_⟩, fun n rs hm arg res hdev => ?_,
    fun n rs role hm => ?_, fun hn hno => ?_⟩
  · apply ofKind_eq_nil
    intro e he hk
    have hR := syncDevicesBody_role_call env fmcs entry w e he (Or.inl hk)
    have := (mem_ofKind _ _ _).2 ⟨hR, hk⟩
    rw [(syncDevicesDeviceRole_no_rules env fmcs _ _ hrules).1] at this
    simp at this
  · obtain ⟨hn, tt, role, ht, hr, hrole⟩ := syncDevicesBody_device_call env fmcs entry w arg res hdev
    rw [syncDevicesBody_role_ofKind env fmcs entry w _ (Or.inr rfl) tt hn ht, hrole]
    exact (syncDevicesDeviceRole_no_rules env fmcs _ _ hrules).2 role hr
  · obtain ⟨hn, tt, role, ht, hr, hrole⟩ := syncDevicesBody_device_call env fmcs entry w arg res hdev
    have hR := syncDevicesBody_role_call env fmcs entry w _ hm (Or.inl rfl)
    rw [syncDevicesBody_role_ofKind env fmcs entry w _ (Or.inr rfl) tt hn ht, hrole]
    exact syncDevicesDeviceRole_no_match env fmcs _ _ n rs hR role hr
  · have hR := syncDevicesBody_role_call env fmcs entry w _ hm (Or.inl rfl)
    obtain ⟨hr, hnil⟩ := syncDevicesDeviceRole_match env fmcs _ _ n rs role hR
    constructor
    · apply ofKind_eq_nil
      intro e he hk
      have hR2 := syncDevicesBody_role_call env fmcs entry w e he (Or.inr hk)
      have := (mem_ofKind _ _ _).2 ⟨hR2, hk⟩
      rw [hnil] at this
      simp at this
    · intro arg res hdev
      obtain ⟨_, tt, role2, _, hr2, hrole⟩ :=
        syncDevicesBody_device_call env fmcs entry w arg res hdev
      rw [hr] at hr2
      injection hr2 with h
      rw [hrole, ← h]
  · rw [syncDevicesBody_calls, if_neg hn] at hno ⊢
    obtain ⟨arg, res, h⟩ := syncDevicesAddDevice_reached env fmcs entry.1 entry.2 w
      (fun e he => hno e (List.mem_append_left _ he))
    exact ⟨arg, res, List.mem_append_left _ h⟩

/-- Witness of the amended C10: on `exampleSource`, which configures no host-role rule, the device is
created with the role of `AddFirewallDeviceRole`; on `exampleSourceWithRoles`, where the rule
yields the role `Edge firewall`, `AddFirewallDeviceRole` is not called and the device is created
with that role. -/
theorem device_role_witness :
    (ofKind .MatchHostToRole
        (callsOf (syncDevicesBody exampleEnv exampleSource ("uuid-a", exampleDeviceA)) {}) = [] ∧
      ∀ arg res, Event.AddDevice arg res ∈
          callsOf (syncDevicesBody exampleEnv exampleSource ("uuid-a", exampleDeviceA)) {} →
        ofKind .AddFirewallDeviceRole
            (callsOf (syncDevicesBody exampleEnv exampleSource ("uuid-a", exampleDeviceA)) {}) =
          [Event.AddFirewallDeviceRole (.ok arg.DeviceRole)]) ∧
    (∃ arg res, Event.AddDevice arg res ∈
      callsOf (syncDevicesBody exampleEnv exampleSource ("uuid-a", exampleDeviceA)) {}) ∧
    (ofKind .AddFirewallDeviceRole
        (callsOf (syncDevicesBody exampleEnvEdgeRole exampleSourceWithRoles
          ("uuid-a", exampleDeviceA)) {}) = [] ∧
      ∀ arg res, Event.AddDevice arg res ∈
          callsOf (syncDevicesBody exampleEnvEdgeRole exampleSourceWithRoles
            ("uuid-a", exampleDeviceA)) {} →
        arg.DeviceRole = { Name := "Edge firewall" }) :=
  ⟨(device_role exampleEnv exampleSource ("uuid-a", exampleDeviceA) {}).1 rfl,
    (device_role exampleEnv exampleSource ("uuid-a", exampleDeviceA) {}).2.2.2
      (by decide) (by decide),
    (device_role exampleEnvEdgeRole exampleSourceWithRoles ("uuid-a", exampleDeviceA) {}).2.2.1
      "fw-a" ["fw-.* = Edge firewall"] { Name := "Edge firewall" }
      (List.Mem.tail _ (List.Mem.tail _ (List.Mem.tail _ (List.Mem.head _))))⟩

/-! ## C8: the custom field `source-id` -/

theorem Traced.mono {arp : String} {PD PD2 : Device → Prop} {PI PI2 : Interface → Prop}
    {e : Event} (h : Traced arp PD PI e) (hd : ∀ a, PD a → PD2 a) (hi : ∀ a, PI a → PI2 a) :
    Traced arp PD2 PI2 e := by
  cases e <;> simp_all [Traced]

theorem syncVlanInterfacesTaggedVlans_traced (env : Env) (fmcs : FMCSource) (r : VlanInterface)
    (w : World) (arp : String) (PD : Device → Prop) (PI : Interface → Prop) :
    ∀ e ∈ callsOf (syncVlanInterfacesTaggedVlans env fmcs r) w, Traced arp PD PI e := by
  unfold callsOf syncVlanInterfacesTaggedVlans
  simp only []
  repeat' split
  all_goals simp_all [log_record, List.append_assoc, drop_log, Traced]

theorem syncSubInterfacesTaggedVlans_traced (env : Env) (fmcs : FMCSource) (r : SubInterface)
    (w : World) (arp : String) (PD : Device → Prop) (PI : Interface → Prop) :
    ∀ e ∈ callsOf (syncSubInterfacesTaggedVlans env fmcs r) w, Traced arp PD PI e := by
  unfold callsOf syncSubInterfacesTaggedVlans
  simp only []
  repeat' split
  all_goals simp_all [log_record, List.append_assoc, drop_log, Traced]

theorem syncPhysicalInterfacesIP_traced (env : Env) (fmcs : FMCSource) (r : PhysicalInterface)
    (nbIface : Interface) (w : World) (PD : Device → Prop) (PI : Interface → Prop) :
    ∀ e ∈ callsOf (syncPhysicalInterfacesIP env fmcs r nbIface) w,
      Traced env.consts.CustomFieldArpEntryName PD PI e := by
  unfold callsOf syncPhysicalInterfacesIP
  simp only []
  repeat' split
  all_goals simp_all [log_record, List.append_assoc, drop_log, Traced]

theorem syncEtherChannelInterfacesIP_traced (env : Env) (fmcs : FMCSource) (r : EtherChannelInterface)
    (nbIface : Interface) (w : World) (PD : Device → Prop) (PI : Interface → Prop) :
    ∀ e ∈ callsOf (syncEtherChannelInterfacesIP env fmcs r nbIface) w,
      Traced env.consts.CustomFieldArpEntryName PD PI e := by
  unfold callsOf syncEtherChannelInterfacesIP
  simp only []
  repeat' split
  all_goals simp_all [log_record, List.append_assoc, drop_log, Traced]

theorem syncVlanInterfacesIP_traced (env : Env) (fmcs : FMCSource) (r : VlanInterface)
    (nbIface : Interface) (vlans : List Vlan) (w : World) (PD : Device → Prop) (PI : Interface → Prop) :
    ∀ e ∈ callsOf (syncVlanInterfacesIP env fmcs r nbIface vlans) w,
      Traced env.consts.CustomFieldArpEntryName PD PI e := by
  unfold callsOf syncVlanInterfacesIP
  simp only []
  repeat' split
  all_goals simp_all [log_record, List.append_assoc, drop_log, Traced]

theorem syncSubInterfacesIP_traced (env : Env) (fmcs : FMCSource) (r : SubInterface)
    (nbIface : Interface) (vlans : List Vlan) (w : World) (PD : Device → Prop) (PI : Interface → Prop) :
    ∀ e ∈ callsOf (syncSubInterfacesIP env fmcs r nbIface vlans) w,
      Traced env.consts.CustomFieldArpEntryName PD PI e := by
  unfold callsOf syncSubInterfacesIP
  simp only []
  repeat' split
  all_goals simp_all [log_record, List.append_assoc, drop_log, Traced]

theorem syncPhysicalInterfacesBody_traced (env : Env) (fmcs : FMCSource) (nb : Device)
    (r : PhysicalInterface) (w : World) (PD : Device → Prop) :
    ∀ e ∈ callsOf (syncPhysicalInterfacesBody env fmcs nb r) w,
      Traced env.consts.CustomFieldArpEntryName PD
        (fun arg => arg = syncPhysicalInterfacesArg fmcs nb r ∧
          sourceID arg.NetboxObject = some (.str r.ID)) e := by
  intro e he
  rw [syncPhysicalInterfacesBody_calls] at he
  rcases List.mem_cons.1 he with h | h
  · rw [h]
    exact ⟨rfl, by
      simp [syncPhysicalInterfacesArg, sourceID, NetboxObject.customField, List.lookup]⟩
  · split at h
    · simp at h
    · exact syncPhysicalInterfacesIP_traced env fmcs r _ _ _ _ e h

theorem syncEtherChannelInterfacesBody_traced (env : Env) (fmcs : FMCSource) (nb : Device)
    (r : EtherChannelInterface) (w : World) (PD : Device → Prop) :
    ∀ e ∈ callsOf (syncEtherChannelInterfacesBody env fmcs nb r) w,
      Traced env.consts.CustomFieldArpEntryName PD
        (fun arg => arg = syncEtherChannelInterfacesArg fmcs nb r ∧
          sourceID arg.NetboxObject = some (.str r.ID)) e := by
  intro e he
  rw [syncEtherChannelInterfacesBody_calls] at he
  rcases List.mem_cons.1 he with h | h
  · rw [h]
    exact ⟨rfl, by
      simp [syncEtherChannelInterfacesArg, sourceID, NetboxObject.customField, List.lookup]⟩
  · split at h
    · simp at h
    · exact syncEtherChannelInterfacesIP_traced env fmcs r _ _ _ _ e h

theorem syncVlanInterfacesBody_traced (env : Env) (fmcs : FMCSource) (nb : Device)
    (r : VlanInterface) (w : World) (PD : Device → Prop) :
    ∀ e ∈ callsOf (syncVlanInterfacesBody env fmcs nb r) w,
      Traced env.consts.CustomFieldArpEntryName PD
        (fun arg => (∃ vlans, arg = syncVlanInterfacesArg fmcs nb r vlans) ∧
          sourceID arg.NetboxObject = some (.str r.ID)) e := by
  intro e he
  rw [syncVlanInterfacesBody_calls] at he
  rcases List.mem_append.1 he with h | h
  · exact syncVlanInterfacesTaggedVlans_traced env fmcs r w _ _ _ e h
  · split at h
    · simp at h
    · rcases List.mem_cons.1 h with h | h
      · rw [h]
        exact ⟨⟨_, rfl⟩, by
          simp [syncVlanInterfacesArg, sourceID, NetboxObject.customField, List.lookup]⟩
      · split at h
        · simp at h
        · exact syncVlanInterfacesIP_traced env fmcs r _ _ _ _ _ e h

theorem syncSubInterfacesBody_traced (env : Env) (fmcs : FMCSource) (nb : Device)
    (r : SubInterface) (w : World) (PD : Device → Prop) :
    ∀ e ∈ callsOf (syncSubInterfacesBody env fmcs nb r) w,
      Traced env.consts.CustomFieldArpEntryName PD
        (fun arg => (∃ parent vlans, arg = syncSubInterfacesArg fmcs nb r parent vlans) ∧
          sourceID arg.NetboxObject = some (.str r.ID)) e := by
  intro e he
  rw [syncSubInterfacesBody_calls] at he
  rcases List.mem_append.1 he with h | h
  · exact syncSubInterfacesTaggedVlans_traced env fmcs r w _ _ _ e h
  · split at h
    · simp at h
    · rcases List.mem_cons.1 h with h | h
      · rw [h]
        exact ⟨⟨_, _, rfl⟩, by
          simp [syncSubInterfacesArg, sourceID, NetboxObject.customField, List.lookup]⟩
      · split at h
        · simp at h
        · exact syncSubInterfacesIP_traced env fmcs r _ _ _ _ _ e h

theorem syncPhysicalInterfaces_traced (env : Env) (fmcs : FMCSource) (nb : Device)
    (uuid : String) (w : World) (PD : Device → Prop) :
    ∀ e ∈ callsOf (syncPhysicalInterfaces env fmcs nb uuid) w,
      Traced env.consts.CustomFieldArpEntryName PD (InterfaceFromDevice fmcs uuid nb) e := by
  unfold callsOf syncPhysicalInterfaces
  split
  · rename_i l hl
    exact forEach_calls_forall _ (syncPhysicalInterfacesBody_appends env fmcs nb) _ l
      (fun r hr w e he => (syncPhysicalInterfacesBody_traced env fmcs nb r w PD e he).mono
        (fun _ h => h) (fun a h => Or.inl ⟨l, hl, r, hr, h⟩)) w
  · simp

theorem syncVlanInterfaces_traced (env : Env) (fmcs : FMCSource) (nb : Device)
    (uuid : String) (w : World) (PD : Device → Prop) :
    ∀ e ∈ callsOf (syncVlanInterfaces env fmcs nb uuid) w,
      Traced env.consts.CustomFieldArpEntryName PD (InterfaceFromDevice fmcs uuid nb) e := by
  unfold callsOf syncVlanInterfaces
  split
  · rename_i l hl
    exact forEach_calls_forall _ (syncVlanInterfacesBody_appends env fmcs nb) _ l
      (fun r hr w e he => (syncVlanInterfacesBody_traced env fmcs nb r w PD e he).mono
        (fun _ h => h) (fun a h => Or.inr <| Or.inl ⟨l, hl, r, hr, h⟩)) w
  · simp

theorem syncEtherChannelInterfaces_traced (env : Env) (fmcs : FMCSource) (nb : Device)
    (uuid : String) (w : World) (PD : Device → Prop) :
    ∀ e ∈ callsOf (syncEtherChannelInterfaces env fmcs nb uuid) w,
      Traced env.consts.CustomFieldArpEntryName PD (InterfaceFromDevice fmcs uuid nb) e := by
  unfold callsOf syncEtherChannelInterfaces
  split
  · rename_i l hl
    exact forEach_calls_forall _ (syncEtherChannelInterfacesBody_appends env fmcs nb) _ l
      (fun r hr w e he => (syncEtherChannelInterfacesBody_traced env fmcs nb r w PD e he).mono
        (fun _ h => h) (fun a h => Or.inr <| Or.inr <| Or.inl ⟨l, hl, r, hr, h⟩)) w
  · simp

theorem syncSubInterfaces_traced (env : Env) (fmcs : FMCSource) (nb : Device)
    (uuid : String) (w : World) (PD : Device → Prop) :
    ∀ e ∈ callsOf (syncSubInterfaces env fmcs nb uuid) w,
      Traced env.consts.CustomFieldArpEntryName PD (InterfaceFromDevice fmcs uuid nb) e := by
  unfold callsOf syncSubInterfaces
  split
  · rename_i l hl
    exact forEach_calls_forall _ (syncSubInterfacesBody_appends env fmcs nb) _ l
      (fun r hr w e he => (syncSubInterfacesBody_traced env fmcs nb r w PD e he).mono
        (fun _ h => h) (fun a h => Or.inr <| Or.inr <| Or.inr ⟨l, hl, r, hr, h⟩)) w
  · simp

theorem traced_of_dependency (arp : String) (PD : Device → Prop) (PI : Interface → Prop)
    (e : Event) (h : e.kind ∈ dependencyKinds) : Traced arp PD PI e := by
  cases e <;> simp_all [Traced, Event.kind, dependencyKinds]

theorem syncDevicesAddDevice_traced (env : Env) (fmcs : FMCSource) (uuid : String)
    (d : SrcDevice) (w : World) (arp : String) (PI : Interface → Prop) :
    ∀ e ∈ callsOf (syncDevicesAddDevice env fmcs uuid d) w,
      Traced arp (DeviceFromEntry (uuid, d)) PI e := by
  intro e he
  rw [syncDevicesAddDevice_calls] at he
  rcases List.mem_append.1 he with h | h
  · exact traced_of_dependency _ _ _ e (syncDevicesTypeAndTenant_kinds env fmcs d w e h)
  · split at h
    · simp at h
    · rcases List.mem_append.1 h with h | h
      · exact traced_of_dependency _ _ _ e (syncDevicesDeviceRole_kinds env fmcs d.Name _ e h)
      · split at h
        · simp at h
        · rcases List.mem_append.1 h with h | h
          · exact traced_of_dependency _ _ _ e
              (syncDevicesSiteAndPlatform_kinds env fmcs d _ _ e h)
          · split at h
            · simp at h
            · rw [List.mem_singleton.1 h]
              exact ⟨rfl, by
                simp [syncDevicesArg, sourceID, NetboxObject.customField, List.lookup]⟩

/-- The calls made for one entry of `fmcs.Devices`, from any state. -/
theorem syncDevicesBody_traced (env : Env) (fmcs : FMCSource) (entry : String × SrcDevice)
    (w : World) :
    ∀ e ∈ callsOf (syncDevicesBody env fmcs entry) w, TracedEntry env fmcs entry w e := by
  intro e he
  rw [syncDevicesBody_calls] at he
  split at he
  · simp at he
  · rcases List.mem_append.1 he with h | h
    · exact syncDevicesAddDevice_traced env fmcs entry.1 entry.2 w _ _ e h
    · cases hd : (syncDevicesAddDevice env fmcs entry.1 entry.2 w).1 with
      | error m => rw [hd] at h; simp at h
      | ok nb =>
        rw [hd] at h
        simp only [] at h
        exact (syncDevicesInterfaces_forall env fmcs nb entry.1
          (Traced env.consts.CustomFieldArpEntryName (DeviceFromEntry entry)
            (InterfaceFromDevice fmcs entry.1 nb))
          (fun w => syncPhysicalInterfaces_traced env fmcs nb entry.1 w _)
          (fun w => syncVlanInterfaces_traced env fmcs nb entry.1 w _)
          (fun w => syncEtherChannelInterfaces_traced env fmcs nb entry.1 w _)
          (fun w => syncSubInterfaces_traced env fmcs nb entry.1 w _) _ e h).mono
          (fun _ ha => ha) (fun a ha => ⟨nb, hd, ha⟩)

/-- Every call of a loop is a call of the body for one of the records, reached without error. -/
theorem forEach_calls_block {α : Type} (body : α → World → Outcome × World)
    (hb : ∀ x, Appends (body x)) (xs : List α) :
    ∀ w, ∀ e ∈ callsOf (forEach body xs) w,
      ∃ pre x post w0, xs = pre ++ x :: post ∧ forEach body pre w = (.ok, w0) ∧
        e ∈ callsOf (body x) w0 := by
  induction xs with
  | nil => intro w e he; simp [callsOf, forEach] at he
  | cons x xs ih =>
    intro w e he
    rw [callsOf_forEach_cons body hb] at he
    rcases List.mem_append.1 he with h1 | h2
    · exact ⟨[], x, xs, w, rfl, rfl, h1⟩
    · split at h2
      · rename_i hok
        obtain ⟨pre, y, post, w0, hxs, hpre, hmem⟩ := ih _ e h2
        refine ⟨x :: pre, y, post, w0, by rw [hxs]; rfl, ?_, hmem⟩
        rw [forEach_cons_ok body x pre w hok]
        exact hpre
      · simp at h2

/-- C8, as amended. Take any call made while an entry of `fmcs.Devices` is processed.  If it
passes a device, the device was built from that entry and carries its UUID as
`CustomFields["source-id"]`.  If it passes an interface, of any of the four kinds, the interface
is the literal the stage builds from an interface record of that very device (looked up under
the UUID of the entry) for the inventory device that `AddDevice` returned for the entry, and it
carries the ID of that record as `source-id`.  If it passes a VLAN or a prefix, the object has
no custom field at all, hence no `source-id`; if it passes an IP address, the only custom field
of the object is the ARP-entry flag.  And every call of `syncDevices` is such a call: it is made
while an entry that `syncDevices` reaches is processed. -/
theorem source_id_traced (env : Env) (fmcs : FMCSource) (w : World) :
    (∀ entry w0, ∀ e ∈ callsOf (syncDevicesBody env fmcs entry) w0,
      TracedEntry env fmcs entry w0 e) ∧
    (∀ e ∈ callsOf (syncDevices env fmcs) w,
      ∃ pre entry post w0, fmcs.Devices = pre ++ entry :: post ∧
        forEach (syncDevicesBody env fmcs) pre w = (.ok, w0) ∧
        e ∈ callsOf (syncDevicesBody env fmcs entry) w0 ∧
        TracedEntry env fmcs entry w0 e) := by
  refine ⟨fun entry w0 => syncDevicesBody_traced env fmcs entry w0, fun e he => ?_⟩
  unfold syncDevices at he
  obtain ⟨pre, entry, post, w0, h1, h2, h3⟩ :=
    forEach_calls_block _ (syncDevicesBody_appends env fmcs) fmcs.Devices w e he
  exact ⟨pre, entry, post, w0, h1, h2, h3, syncDevicesBody_traced env fmcs entry w0 e h3⟩

/-- Counterexample to C8 as stated: in the sync of `exampleSource`, which passes one device,
four interfaces, two VLANs, one IP address and one prefix to the inventory, the only objects
with a `source-id` are the device and the four interfaces. -/
theorem source_id_counterexample :
    (syncDevices exampleEnv exampleSource {}).2.log.filterMap
        (fun e => if e.kind ∈ creationKinds then some (e.kind, e.sourceIDText) else none) =
      [(.AddDevice, some "uuid-a"), (.AddInterface, some "p1"), (.AddVlan, none),
        (.AddInterface, some "v1"), (.AddIPAddress, none), (.AddPrefix, none),
        (.AddInterface, some "e1"), (.AddVlan, none), (.AddInterface, some "s1")] := by
  decide

/-- Witness of the amended C8: the `AddInterface` call for the physical interface `Ethernet1/1`
in the sync of `exampleSource`. -/
theorem source_id_traced_witness :
    TracedEntry exampleEnv exampleSource ("uuid-a", exampleDeviceA) {}
      (Event.AddInterface
        (syncPhysicalInterfacesArg exampleSource exampleNBDeviceA examplePhysical)
        (.ok (syncPhysicalInterfacesArg exampleSource exampleNBDeviceA examplePhysical))) :=
  (source_id_traced exampleEnv exampleSource {}).1 ("uuid-a", exampleDeviceA) {} _
    (List.Mem.tail _ (List.Mem.tail _ (List.Mem.tail _ (List.Mem.tail _ (List.Mem.tail _
      (List.Mem.tail _ (List.Mem.tail _ (List.Mem.head _))))))))

/-! ## C11: records with an empty name -/

theorem address_with_mask_ne_empty (a m : String) : a ++ "/" ++ m ≠ "" := by
  intro h
  have h1 := congrArg String.length h
  rw [String.length_append, String.length_append] at h1
  have h2 : "/".length = 1 := by decide
  have h3 : "".length = 0 := by decide
  omega

/-- C16. `getIPAddressForIface` returns the empty string exactly when there is no IPv4 block or
neither the static nor the DHCP entry has a non-empty address.  Otherwise the result is
`<address>/<serialized netmask>`: of the static entry when that has a non-empty address, and of
the DHCP entry when the static entry is absent or has an empty address. -/
theorem getIPAddressForIface_spec (env : Env) (ipv4 : Option InterfaceIPv4) :
    (getIPAddressForIface env ipv4 = "" ↔
      (ipv4 = none ∨ ∃ v4, ipv4 = some v4 ∧
        (∀ st, v4.Static = some st → st.Address = "") ∧
        (∀ dh, v4.Dhcp = some dh → dh.Address = ""))) ∧
    (∀ v4 st, ipv4 = some v4 → v4.Static = some st → st.Address ≠ "" →
      getIPAddressForIface env ipv4 = st.Address ++ "/" ++ env.SerializeMask st.Netmask) ∧
    (∀ v4 dh, ipv4 = some v4 → (∀ st, v4.Static = some st → st.Address = "") →
      v4.Dhcp = some dh → dh.Address ≠ "" →
      getIPAddressForIface env ipv4 = dh.Address ++ "/" ++ env.SerializeMask dh.Netmask) := by
  have hne := address_with_mask_ne_empty
  refine ⟨?_, ?_, ?_⟩
  · cases ipv4 with
    | none => simp [getIPAddressForIface]
    | some v4 =>
      obtain ⟨st, dh⟩ := v4
      cases st with
      | none =>
        cases dh with
        | none => simp [getIPAddressForIface]
        | some d =>
          by_cases hd : d.Address = "" <;> simp [getIPAddressForIface, hd, hne]
      | some s =>
        cases dh with
        | none =>
          by_cases hs : s.Address = "" <;> simp [getIPAddressForIface, hs, hne]
        | some d =>
          by_cases hs : s.Address = "" <;> by_cases hd : d.Address = "" <;>
            simp [getIPAddressForIface, hs, hd, hne]
  · intro v4 st h1 h2 h3
    subst h1
    simp [getIPAddressForIface, h2, h3]
  · intro v4 dh h1 h2 h3 h4
    subst h1
    cases hs : v4.Static with
    | none => simp [getIPAddressForIface, hs, h3, h4]
    | some s => simp [getIPAddressForIface, hs, h3, h4, h2 s hs]

/-- Witness of C16: a block whose static entry has no address and whose DHCP entry has one. -/
theorem getIPAddressForIface_spec_witness :
    getIPAddressForIface exampleEnv
        (some { Static := some { Address := "", Netmask := "255.255.255.0" }
                Dhcp := some { Address := "10.0.0.7", Netmask := "255.255.255.0" } }) =
      "10.0.0.7" ++ "/" ++ exampleEnv.SerializeMask "255.255.255.0" :=
  (getIPAddressForIface_spec exampleEnv _).2.2 _ { Address := "10.0.0.7", Netmask := "255.255.255.0" }
    rfl (fun st h => by cases h; rfl) rfl (by decide)

/-! ## C17: the DNS lookup reads the static entry, whatever entry the address came from -/

/-- Without a static entry, an address that is attached (non-empty and permitted) stops the
program: `PhysicalInterface.IPv4.Static.Address` dereferences nil before `AddIPAddress`. -/
theorem syncPhysicalInterfacesIP_panics (env : Env) (fmcs : FMCSource) (r : PhysicalInterface)
    (nbIface : Interface) (w : World)
    (hst : staticAddress r.IPv4 = none)
    (hne : getIPAddressForIface env r.IPv4 ≠ "")
    (hperm : env.IsPermittedIPAddress (getIPAddressForIface env r.IPv4)
      fmcs.SourceConfig.PermittedSubnets fmcs.SourceConfig.IgnoredSubnets = true) :
    syncPhysicalInterfacesIP env fmcs r nbIface w = (.panic, w) := by
  unfold syncPhysicalInterfacesIP
  simp [hst, hne, hperm]

/-- Without a static entry, an address that is attached (non-empty and permitted) stops the
program: `VlanInterface.IPv4.Static.Address` dereferences nil before `AddIPAddress`. -/
theorem syncVlanInterfacesIP_panics (env : Env) (fmcs : FMCSource) (r : VlanInterface)
    (nbIface : Interface) (vlans : List Vlan) (w : World)
    (hst : staticAddress r.IPv4 = none)
    (hne : getIPAddressForIface env r.IPv4 ≠ "")
    (hperm : env.IsPermittedIPAddress (getIPAddressForIface env r.IPv4)
      fmcs.SourceConfig.PermittedSubnets fmcs.SourceConfig.IgnoredSubnets = true) :
    syncVlanInterfacesIP env fmcs r nbIface vlans w = (.panic, w) := by
  unfold syncVlanInterfacesIP
  simp [hst, hne, hperm]

/-- Without a static entry, an address that is attached (non-empty and permitted) stops the
program: `EtherChannelInterface.IPv4.Static.Address` dereferences nil before `AddIPAddress`. -/
theorem syncEtherChannelInterfacesIP_panics (env : Env) (fmcs : FMCSource) (r : EtherChannelInterface)
    (nbIface : Interface) (w : World)
    (hst : staticAddress r.IPv4 = none)
    (hne : getIPAddressForIface env r.IPv4 ≠ "")
    (hperm : env.IsPermittedIPAddress (getIPAddressForIface env r.IPv4)
      fmcs.SourceConfig.PermittedSubnets fmcs.SourceConfig.IgnoredSubnets = true) :
    syncEtherChannelInterfacesIP env fmcs r nbIface w = (.panic, w) := by
  unfold syncEtherChannelInterfacesIP
  simp [hst, hne, hperm]

/-- Without a static entry, an address that is attached (non-empty and permitted) stops the
program: `SubInterface.IPv4.Static.Address` dereferences nil before `AddIPAddress`. -/
theorem syncSubInterfacesIP_panics (env : Env) (fmcs : FMCSource) (r : SubInterface)
    (nbIface : Interface) (vlans : List Vlan) (w : World)
    (hst : staticAddress r.IPv4 = none)
    (hne : getIPAddressForIface env r.IPv4 ≠ "")
    (hperm : env.IsPermittedIPAddress (getIPAddressForIface env r.IPv4)
      fmcs.SourceConfig.PermittedSubnets fmcs.SourceConfig.IgnoredSubnets = true) :
    syncSubInterfacesIP env fmcs r nbIface vlans w = (.panic, w) := by
  unfold syncSubInterfacesIP
  simp [hst, hne, hperm]

/-- C17 fails on the code. A record whose address comes from the DHCP entry and that has no
static entry: in each of the four stages the interface is created and then the program stops
with a nil-pointer dereference, before any `AddIPAddress` call.  A record whose static entry is
present with an empty address: the DHCP address `10.0.0.7/24` is attached, with the DNS name
looked up for the empty string. -/
theorem dhcp_address_lookup :
    (syncPhysicalInterfacesBody exampleEnv exampleSource exampleNBDeviceA
      { ID := "p7", Name := "Ethernet1/7", IPv4 := exampleDhcpOnly } {}).1 = .panic ∧
    (syncVlanInterfacesBody exampleEnv exampleSource exampleNBDeviceA
      { ID := "v7", Name := "Vlan7", VID := 7, IPv4 := exampleDhcpOnly } {}).1 = .panic ∧
    (syncEtherChannelInterfacesBody exampleEnv exampleSource exampleNBDeviceA
      { ID := "e7", Name := "Port-channel7", IPv4 := exampleDhcpOnly } {}).1 = .panic ∧
    (syncSubInterfacesBody exampleEnv exampleSource exampleNBDeviceA
      { ID := "s7", Name := "Ethernet1/7.7", ParentName := "Ethernet1/7", VlanID := 7,
        IPv4 := exampleDhcpOnly } {}).1 = .panic ∧
    (callsOf (syncPhysicalInterfacesBody exampleEnv exampleSource exampleNBDeviceA
      { ID := "p7", Name := "Ethernet1/7", IPv4 := exampleDhcpOnly }) {}).map Event.kind =
        [.AddInterface] ∧
    (callsOf (syncPhysicalInterfacesBody exampleEnvLookup exampleSource exampleNBDeviceA
      { ID := "p8", Name := "Ethernet1/8", IPv4 := exampleStaticEmpty }) {}).filterMap
        Event.attachedAddress = [("10.0.0.7/24", "name-of-")] :=
  ⟨by decide, by decide, by decide, by decide, by decide, by decide⟩

/-! ## C15: the ether-channel stage against the physical stage -/

theorem syncEtherChannelInterfacesIP_eq (env : Env) (fmcs : FMCSource)
    (e : EtherChannelInterface) (nbIface : Interface) (w : World) :
    syncEtherChannelInterfacesIP env fmcs e nbIface w =
      syncPhysicalInterfacesIP env fmcs e.toPhysical nbIface w := rfl

theorem syncEtherChannelInterfacesArg_eq (fmcs : FMCSource) (nb : Device)
    (e : EtherChannelInterface) :
    syncEtherChannelInterfacesArg fmcs nb e = syncPhysicalInterfacesArg fmcs nb e.toPhysical :=
  rfl

theorem syncEtherChannelInterfacesBody_eq (env : Env) (fmcs : FMCSource) (nb : Device)
    (e : EtherChannelInterface) (w : World) :
    (syncEtherChannelInterfacesBody env fmcs nb e w).2 =
        (syncPhysicalInterfacesBody env fmcs nb e.toPhysical w).2 ∧
      ((syncEtherChannelInterfacesBody env fmcs nb e w).1 = .ok ↔
        (syncPhysicalInterfacesBody env fmcs nb e.toPhysical w).1 = .ok) := by
  unfold syncEtherChannelInterfacesBody syncPhysicalInterfacesBody
  simp only [syncEtherChannelInterfacesArg_eq, syncEtherChannelInterfacesIP_eq]
  cases env.AddInterface w.log (syncPhysicalInterfacesArg fmcs nb e.toPhysical) with
  | error msg => simp
  | ok nbIface =>
    simp only []
    split
    · exact ⟨rfl, Iff.rfl⟩
    · exact ⟨rfl, Iff.rfl⟩

theorem forEach_map_eq {α β : Type} (f : α → World → Outcome × World)
    (g : β → World → Outcome × World) (h : α → β)
    (hfg : ∀ x w, (f x w).2 = (g (h x) w).2 ∧ ((f x w).1 = .ok ↔ (g (h x) w).1 = .ok))
    (xs : List α) (w : World) :
    (forEach f xs w).2 = (forEach g (xs.map h) w).2 ∧
      ((forEach f xs w).1 = .ok ↔ (forEach g (xs.map h) w).1 = .ok) := by
  induction xs generalizing w with
  | nil => exact ⟨rfl, Iff.rfl⟩
  | cons x xs ih =>
    obtain ⟨h2, h1⟩ := hfg x w
    by_cases hok : (f x w).1 = .ok
    · rw [List.map_cons, forEach_cons_ok f x xs w hok, forEach_cons_ok g (h x) _ w (h1.1 hok),
        ← h2]
      exact ih _
    · rw [List.map_cons, forEach_cons_stop f x xs w hok,
        forEach_cons_stop g (h x) _ w (fun hg => hok (h1.2 hg))]
      exact ⟨h2, h1⟩

theorem syncEtherChannelInterfacesIP_length (env : Env) (fmcs : FMCSource)
    (e : EtherChannelInterface) (nbIface : Interface) (w : World) :
    (callsOf (syncEtherChannelInterfacesIP env fmcs e nbIface) w).length ≤ 1 := by
  unfold callsOf syncEtherChannelInterfacesIP
  simp only []
  repeat' split
  all_goals simp [log_record, drop_log]

/-- C15. An ether-channel record and the physical record with the same fields: both stages pass
the same interface to `AddInterface`, leave the same history of calls and the same
name-to-interface table, and one ends without error exactly when the other does.  The
ether-channel stage makes at most one `AddIPAddress` call for the record and no `AddPrefix`
call.  Hence, for a device whose physical records are its ether-channel records field by field,
the whole ether-channel stage leaves the same history and the same table as the whole physical
stage. -/
theorem etherchannel_as_physical (env : Env) (fmcs : FMCSource) (nb : Device) :
    (∀ (e : EtherChannelInterface) (w : World),
      syncEtherChannelInterfacesArg fmcs nb e =
        syncPhysicalInterfacesArg fmcs nb e.toPhysical ∧
      (syncEtherChannelInterfacesBody env fmcs nb e w).2.log =
        (syncPhysicalInterfacesBody env fmcs nb e.toPhysical w).2.log ∧
      (syncEtherChannelInterfacesBody env fmcs nb e w).2.Name2NBInterface =
        (syncPhysicalInterfacesBody env fmcs nb e.toPhysical w).2.Name2NBInterface ∧
      ((syncEtherChannelInterfacesBody env fmcs nb e w).1 = .ok ↔
        (syncPhysicalInterfacesBody env fmcs nb e.toPhysical w).1 = .ok) ∧
      (ofKind .AddIPAddress
        (callsOf (syncEtherChannelInterfacesBody env fmcs nb e) w)).length ≤ 1 ∧
      ofKind .AddPrefix (callsOf (syncEtherChannelInterfacesBody env fmcs nb e) w) = []) ∧
    (∀ (uuid : String) (w : World),
      fmcs.DevicePhysicalIfaces uuid =
        (fmcs.DeviceEtherChannelIfaces uuid).map (List.map EtherChannelInterface.toPhysical) →
      (syncEtherChannelInterfaces env fmcs nb uuid w).2.log =
        (syncPhysicalInterfaces env fmcs nb uuid w).2.log ∧
      (syncEtherChannelInterfaces env fmcs nb uuid w).2.Name2NBInterface =
        (syncPhysicalInterfaces env fmcs nb uuid w).2.Name2NBInterface ∧
      ((syncEtherChannelInterfaces env fmcs nb uuid w).1 = .ok ↔
        (syncPhysicalInterfaces env fmcs nb uuid w).1 = .ok)) := by
  constructor
  · intro e w
    obtain ⟨h2, h1⟩ := syncEtherChannelInterfacesBody_eq env fmcs nb e w
    refine ⟨rfl, by rw [h2], by rw [h2], h1, ?_, ?_⟩
    · rw [syncEtherChannelInterfacesBody_calls, ofKind_cons_other _ _ _ (by simp [Event.kind])]
      refine le_trans (List.length_filter_le _ _) ?_
      split
      · simp
      · exact syncEtherChannelInterfacesIP_length env fmcs e _ _
    · apply ofKind_eq_nil
      intro ev hev hk
      rw [syncEtherChannelInterfacesBody_calls] at hev
      rcases List.mem_cons.1 hev with h | h
      · rw [h] at hk
        simp [Event.kind] at hk
      · split at h
        · simp at h
        · have := syncEtherChannelInterfacesIP_kinds env fmcs e _ _ ev h
          rw [hk] at this
          simp at this
  · intro uuid w hmap
    unfold syncEtherChannelInterfaces syncPhysicalInterfaces
    rw [hmap]
    cases fmcs.DeviceEtherChannelIfaces uuid with
    | none => exact ⟨rfl, rfl, Iff.rfl⟩
    | some l =>
      obtain ⟨h2, h1⟩ := forEach_map_eq (syncEtherChannelInterfacesBody env fmcs nb)
        (syncPhysicalInterfacesBody env fmcs nb) EtherChannelInterface.toPhysical
        (syncEtherChannelInterfacesBody_eq env fmcs nb) l w
      show (forEach (syncEtherChannelInterfacesBody env fmcs nb) l w).2.log =
          (forEach (syncPhysicalInterfacesBody env fmcs nb)
            (l.map EtherChannelInterface.toPhysical) w).2.log ∧
        (forEach (syncEtherChannelInterfacesBody env fmcs nb) l w).2.Name2NBInterface =
          (forEach (syncPhysicalInterfacesBody env fmcs nb)
            (l.map EtherChannelInterface.toPhysical) w).2.Name2NBInterface ∧
        ((forEach (syncEtherChannelInterfacesBody env fmcs nb) l w).1 = .ok ↔
          (forEach (syncPhysicalInterfacesBody env fmcs nb)
            (l.map EtherChannelInterface.toPhysical) w).1 = .ok)
      exact ⟨by rw [← h2], by rw [← h2], h1⟩

/-- Witness of C15 on `exampleTwinSource`, whose device has the same two records in both
stages. -/
theorem etherchannel_as_physical_witness :
    (syncEtherChannelInterfaces exampleEnv exampleTwinSource exampleNBDeviceA "uuid-a" {}).2.log =
      (syncPhysicalInterfaces exampleEnv exampleTwinSource exampleNBDeviceA "uuid-a" {}).2.log ∧
    (syncEtherChannelInterfaces exampleEnv exampleTwinSource exampleNBDeviceA "uuid-a"
        {}).2.Name2NBInterface =
      (syncPhysicalInterfaces exampleEnv exampleTwinSource exampleNBDeviceA "uuid-a"
        {}).2.Name2NBInterface ∧
    ((syncEtherChannelInterfaces exampleEnv exampleTwinSource exampleNBDeviceA "uuid-a" {}).1
        = .ok ↔
      (syncPhysicalInterfaces exampleEnv exampleTwinSource exampleNBDeviceA "uuid-a" {}).1
        = .ok) :=
  (etherchannel_as_physical exampleEnv exampleTwinSource exampleNBDeviceA).2 "uuid-a" {} rfl

end FMC

namespace Utils

/-! ## C13: the first matching rule wins -/

/-- C14. `ValidateRegexRelations` returns no error exactly when every entry has the separator
`=` and a left-hand side that compiles, and it returns an error exactly when some entry lacks
the separator or has a left-hand side that does not compile. -/
theorem ValidateRegexRelations_error_iff (compiles : String → Bool) (relations : List String) :
    (ValidateRegexRelations compiles relations = .ok () ↔
      ∀ r ∈ relations, hasSeparator r = true ∧ compiles (leftSide r) = true) ∧
    ((∃ msg, ValidateRegexRelations compiles relations = .error msg) ↔
      ∃ r ∈ relations, hasSeparator r = false ∨ compiles (leftSide r) = false) := by
  induction relations with
  | nil => simp [ValidateRegexRelations]
  | cons r rest ih =>
    obtain ⟨ih1, ih2⟩ := ih
    by_cases hs : hasSeparator r = true
    · by_cases hc : compiles (leftSide r) = true
      · simp [ValidateRegexRelations, hs, hc, ih1, ih2]
      · simp only [Bool.not_eq_true] at hc
        simp [ValidateRegexRelations, hs, hc]
    · simp only [Bool.not_eq_true] at hs
      simp [ValidateRegexRelations, hs]

/-- Witness of C14: the three lists of `TestValidateRegexRelations` with the example engine. -/
theorem ValidateRegexRelations_error_iff_witness :
    ValidateRegexRelations exampleCompiles ["disney.* = disney", "p([a-z]+)ch = peach"] =
      .ok () ∧
    (∃ msg, ValidateRegexRelations exampleCompiles
      ["disney.* = disney", "p([a-z]+)ch peach"] = .error msg) ∧
    (∃ msg, ValidateRegexRelations exampleCompiles
      ["a(b(c = disney", "p([a-z]+)ch = peach"] = .error msg) :=
  ⟨(ValidateRegexRelations_error_iff exampleCompiles _).1.2 (by decide),
    (ValidateRegexRelations_error_iff exampleCompiles _).2.2 (by decide),
    (ValidateRegexRelations_error_iff exampleCompiles _).2.2 (by decide)⟩

end Utils

namespace Inventory

/-! ## C18: the order of initialisation -/

/-- The source of `Init`, fourteen calls written out, is the loop over `initOrder`. -/
theorem Init_eq_runInOrder {σ : Type} (steps : Steps σ) (s : State σ) :
    Init steps s = runInOrder steps initOrder { s with nbi := steps.NewNetBoxAPI s.nbi } := by
  unfold Init initOrder
  simp only [runInOrder]

/-- The loop stops at the first method that returns an error. -/
theorem runInOrder_fail {σ : Type} (steps : Steps σ) (pre : List InitStep) (step : InitStep)
    (post : List InitStep) (err : Err) (s : State σ)
    (hpre : allSucceed steps pre s.nbi = true)
    (hrun : (steps.run step (nbiAfter steps pre s.nbi)).1 = some err) :
    runInOrder steps (pre ++ step :: post) s =
      (some err,
        { nbi := (steps.run step (nbiAfter steps pre s.nbi)).2
          ran := s.ran ++ pre.map (fun st => (st, none)) ++ [(step, some err)] }) := by
  induction pre generalizing s with
  | nil => simp [runInOrder, call, nbiAfter] at hrun ⊢; simp [hrun]
  | cons p ps ih =>
    simp only [allSucceed, Bool.and_eq_true, Option.isNone_iff_eq_none] at hpre
    simp only [nbiAfter] at hrun
    have := ih (call steps p s).2 hpre.2 hrun
    rw [List.cons_append]
    simp only [runInOrder, call, hpre.1] at this ⊢
    rw [this]
    simp [nbiAfter]

theorem runInOrder_ok {σ : Type} (steps : Steps σ) (l : List InitStep) (s : State σ)
    (h : allSucceed steps l s.nbi = true) :
    runInOrder steps l s =
      (none, { nbi := nbiAfter steps l s.nbi, ran := s.ran ++ l.map (fun st => (st, none)) }) := by
  induction l generalizing s with
  | nil => simp [runInOrder, nbiAfter]
  | cons p ps ih =>
    simp only [allSucceed, Bool.and_eq_true, Option.isNone_iff_eq_none] at h
    have := ih (call steps p s).2 h.2
    simp only [runInOrder, call, h.1] at this ⊢
    rw [this]
    simp [nbiAfter]

theorem allSucceed_or_fails {σ : Type} (steps : Steps σ) (l : List InitStep) (x : σ) :
    allSucceed steps l x = true ∨
      ∃ pre step post err, l = pre ++ step :: post ∧ allSucceed steps pre x = true ∧
        (steps.run step (nbiAfter steps pre x)).1 = some err := by
  induction l generalizing x with
  | nil => exact Or.inl rfl
  | cons p ps ih =>
    cases hr : (steps.run p x).1 with
    | some err => exact Or.inr ⟨[], p, ps, err, rfl, rfl, hr⟩
    | none =>
      rcases ih (steps.run p x).2 with h | ⟨pre, step, post, err, h1, h2, h3⟩
      · exact Or.inl (by simp [allSucceed, hr, h])
      · exact Or.inr ⟨p :: pre, step, post, err, by simp [h1], by simp [allSucceed, hr, h2],
          by simpa [nbiAfter] using h3⟩

/-- C18. `Init` sets `NetboxApi` and then works through the fixed order tags, tenants, sites,
manufacturers, platforms, devices, device roles, server device role, device types, custom
fields, server custom fields, cluster groups, cluster types, clusters.  If the methods of the
order before `step` all return nil, each called on the inventory as the one before left it, and
`step` then returns an error, `Init` returns that very error, the inventory is as `step` left it
(no later method has worked on it) and the methods called are those up to `step`.  If all
fourteen return nil, `Init` returns nil and the inventory is as the last one left it.  `Init`
returns nil exactly when all fourteen return nil, and one of the two cases always applies. -/
theorem Init_order {σ : Type} (steps : Steps σ) (s : State σ) :
    (∀ pre step post err, initOrder = pre ++ step :: post →
      allSucceed steps pre (steps.NewNetBoxAPI s.nbi) = true →
      (steps.run step (nbiAfter steps pre (steps.NewNetBoxAPI s.nbi))).1 = some err →
      Init steps s =
        (some err,
          { nbi := (steps.run step (nbiAfter steps pre (steps.NewNetBoxAPI s.nbi))).2
            ran := s.ran ++ pre.map (fun st => (st, none)) ++ [(step, some err)] })) ∧
    (allSucceed steps initOrder (steps.NewNetBoxAPI s.nbi) = true →
      Init steps s =
        (none,
          { nbi := nbiAfter steps initOrder (steps.NewNetBoxAPI s.nbi)
            ran := s.ran ++ initOrder.map (fun st => (st, none)) })) ∧
    ((Init steps s).1 = none ↔ allSucceed steps initOrder (steps.NewNetBoxAPI s.nbi) = true) ∧
    (allSucceed steps initOrder (steps.NewNetBoxAPI s.nbi) = true ∨
      ∃ pre step post err, initOrder = pre ++ step :: post ∧
        allSucceed steps pre (steps.NewNetBoxAPI s.nbi) = true ∧
        (steps.run step (nbiAfter steps pre (steps.NewNetBoxAPI s.nbi))).1 = some err) := by
  have hfail : ∀ pre step post err, initOrder = pre ++ step :: post →
      allSucceed steps pre (steps.NewNetBoxAPI s.nbi) = true →
      (steps.run step (nbiAfter steps pre (steps.NewNetBoxAPI s.nbi))).1 = some err →
      Init steps s =
        (some err,
          { nbi := (steps.run step (nbiAfter steps pre (steps.NewNetBoxAPI s.nbi))).2
            ran := s.ran ++ pre.map (fun st => (st, none)) ++ [(step, some err)] }) := by
    intro pre step post err hl hpre hrun
    rw [Init_eq_runInOrder, hl]
    exact runInOrder_fail steps pre step post err _ hpre hrun
  have hok : allSucceed steps initOrder (steps.NewNetBoxAPI s.nbi) = true →
      Init steps s =
        (none,
          { nbi := nbiAfter steps initOrder (steps.NewNetBoxAPI s.nbi)
            ran := s.ran ++ initOrder.map (fun st => (st, none)) }) := by
    intro h
    rw [Init_eq_runInOrder]
    exact runInOrder_ok steps initOrder _ h
  have hcases := allSucceed_or_fails steps initOrder (steps.NewNetBoxAPI s.nbi)
  refine ⟨hfail, hok, ⟨fun h => ?_, fun h => by rw [hok h]⟩, hcases⟩
  rcases hcases with h1 | ⟨pre, step, post, err, h1, h2, h3⟩
  · exact h1
  · rw [hfail pre step post err h1 h2 h3] at h
    exact absurd h (by simp)

/-- Witness of C18 on `exampleRecorder`, whose inventory is the list of the methods that worked
on it: `InitDevices`, the sixth method, fails; `Init` returns its error, and the methods that
worked on the inventory are the first six of the order, no other. -/
theorem Init_order_witness :
    Init exampleRecorder { nbi := [.InitClusters] } =
      (some "devices: connection refused",
        { nbi := [.InitTags, .InitTenants, .InitSites, .InitManufacturers, .InitPlatforms,
            .InitDevices]
          ran := [(.InitTags, none), (.InitTenants, none), (.InitSites, none),
            (.InitManufacturers, none), (.InitPlatforms, none),
            (.InitDevices, some "devices: connection refused")] }) :=
  (Init_order exampleRecorder { nbi := [.InitClusters] }).1
    [.InitTags, .InitTenants, .InitSites, .InitManufacturers, .InitPlatforms] .InitDevices
    [.InitDeviceRoles, .InitServerDeviceRole, .InitDeviceTypes, .InitCustomFields,
      .InitServerCustomFields, .InitClusterGroups, .InitClusterTypes, .InitClusters]
    "devices: connection refused" rfl rfl rfl

end Inventory
